import Mathlib

/-!
# indi_svb: acquisition and control loops of the SVBONY camera driver

A shallow embedding of `svb_device.cpp` and `svb_temperature.cpp`.

Conventions of the embedding:

* The vendor SDK is an external, stateful device.  It is modelled by an
  environment `SdkEnv` that answers the `i`-th SDK call of a run with the
  status `status i` (any deterministic or non-deterministic SDK behaviour is
  covered by quantifying over all environments).  Every SDK call and every
  call-back into the host framework is appended to the `log` of the device.
* C++ `int`/`long` values are unbounded integers (signed overflow is
  undefined behaviour in the source and is not modelled), `%` is the
  truncating remainder `Int.tmod`.
* C++ `float`/`double` durations and temperatures are exact rationals;
  a conversion to `long` truncates toward zero.
* The frame buffer is the byte array `uint8_t *`; its `u_int16_t *` view is
  little-endian.
* Loops that wait for the device take a fuel argument; `none` means the fuel
  ran out before the loop ended.
-/

namespace IndiSvb

/-! ## SDK vocabulary (libsv305/SVBCameraSDK.h, as used by the driver) -/

/-- Status codes of the SDK, in the order of `Helpers::toString(SVB_ERROR_CODE)`. -/
inductive SVB_ERROR_CODE where
  | SVB_SUCCESS
  | SVB_ERROR_INVALID_INDEX
  | SVB_ERROR_INVALID_ID
  | SVB_ERROR_INVALID_CONTROL_TYPE
  | SVB_ERROR_CAMERA_CLOSED
  | SVB_ERROR_CAMERA_REMOVED
  | SVB_ERROR_INVALID_PATH
  | SVB_ERROR_INVALID_FILEFORMAT
  | SVB_ERROR_INVALID_SIZE
  | SVB_ERROR_INVALID_IMGTYPE
  | SVB_ERROR_OUTOF_BOUNDARY
  | SVB_ERROR_TIMEOUT
  | SVB_ERROR_INVALID_SEQUENCE
  | SVB_ERROR_BUFFER_TOO_SMALL
  | SVB_ERROR_VIDEO_MODE_ACTIVE
  | SVB_ERROR_EXPOSURE_IN_PROGRESS
  | SVB_ERROR_GENERAL_ERROR
  | SVB_ERROR_INVALID_MODE
  | SVB_ERROR_INVALID_DIRECTION
  | SVB_ERROR_UNKNOW_SENSOR_TYPE
  | SVB_ERROR_END
  deriving DecidableEq, Repr

/-- Control identifiers, in the order of `Helpers::toString(SVB_CONTROL_TYPE)`. -/
inductive SVB_CONTROL_TYPE where
  | SVB_GAIN
  | SVB_EXPOSURE
  | SVB_GAMMA
  | SVB_GAMMA_CONTRAST
  | SVB_WB_R
  | SVB_WB_G
  | SVB_WB_B
  | SVB_FLIP
  | SVB_FRAME_SPEED_MODE
  | SVB_CONTRAST
  | SVB_SHARPNESS
  | SVB_SATURATION
  | SVB_AUTO_TARGET_BRIGHTNESS
  | SVB_BLACK_LEVEL
  | SVB_COOLER_ENABLE
  | SVB_TARGET_TEMPERATURE
  | SVB_CURRENT_TEMPERATURE
  | SVB_COOLER_POWER
  deriving DecidableEq, Repr

/-- Camera modes the driver selects. -/
inductive SVB_CAMERA_MODE where
  | SVB_MODE_NORMAL
  | SVB_MODE_TRIG_SOFT
  deriving DecidableEq, Repr

/-- Image types of the SDK, in the order of `Helpers::toString(SVB_IMG_TYPE)`. -/
inductive SVB_IMG_TYPE where
  | SVB_IMG_RAW8
  | SVB_IMG_RAW10
  | SVB_IMG_RAW12
  | SVB_IMG_RAW14
  | SVB_IMG_RAW16
  | SVB_IMG_Y8
  | SVB_IMG_Y10
  | SVB_IMG_Y12
  | SVB_IMG_Y14
  | SVB_IMG_Y16
  | SVB_IMG_RGB24
  | SVB_IMG_RGB32
  deriving DecidableEq, Repr

/-- The fields of `SVB_CONTROL_CAPS` the driver reads. -/
structure SVB_CONTROL_CAPS where
  ControlType : SVB_CONTROL_TYPE := SVB_CONTROL_TYPE.SVB_FLIP
  MinValue : Int := 0
  MaxValue : Int := 0
  DefaultValue : Int := 0
  deriving DecidableEq, Repr

/-- Calls into the SDK, with the arguments the driver passes (the camera id,
the same in every call, is left out).  `SVBGetVideoData` records whether a
frame buffer (`true`) or `nullptr` (`false`) is passed. -/
inductive SdkCall where
  | SVBStopVideoCapture
  | SVBStartVideoCapture
  | SVBSetControlValue (ctl : SVB_CONTROL_TYPE) (value : Int) (isAuto : Bool)
  | SVBGetControlValue (ctl : SVB_CONTROL_TYPE)
  | SVBSetROIFormat (x y w h bin : Int)
  | SVBSetCameraMode (mode : SVB_CAMERA_MODE)
  | SVBSendSoftTrigger
  | SVBGetVideoData (toBuffer : Bool) (size : Nat) (waitMS : Int)
  | SVBOpenCamera
  | SVBGetCameraProperty
  | SVBGetSensorPixelSize
  | SVBGetNumOfControls
  | SVBSetAutoSaveParam (enable : Bool)
  | SVBGetControlCaps (index : Int)
  | SVBSetOutputImageType (t : SVB_IMG_TYPE)
  | SVBCloseCamera
  deriving DecidableEq, Repr

/-! ## Host framework vocabulary (INDI) -/

/-- Switch state of the host framework. -/
inductive ISState where
  | ISS_OFF
  | ISS_ON
  deriving DecidableEq, Repr

/-- Property state of the host framework. -/
inductive IPState where
  | IPS_IDLE
  | IPS_OK
  | IPS_BUSY
  | IPS_ALERT
  deriving DecidableEq, Repr

/-- The functions the driver hands to its two single-thread pools. -/
inductive WorkerTask where
  | workerExposure (duration : ℚ)
  | workerStreamVideo
  | workerTimerExposure (duration : ℚ)
  deriving DecidableEq, Repr

/-- Observable actions of the driver: SDK calls and calls into the host
framework.  The two delivery events carry the frame-buffer content at the
moment of the call. -/
inductive Event where
  | sdk (c : SdkCall)
  | setExposureDuration (d : ℚ)
  | setExposureFailed
  | setExposureLeft (t : ℚ)
  | binFrame
  | ExposureComplete (frame : List Nat)
  | setPixelFormat (mono : Bool) (bitDepth : Int)
  | setSize (w h : Int)
  | setStream (enabled : Bool)
  | newFrame (frame : List Nat) (totalBytes : Nat)
  | IDSetSwitchCooler
  | workerQuit
  | timerWorkerQuit
  | workerStart (t : WorkerTask)
  | timerWorkerStart (t : WorkerTask)
  | IDSetSwitchFormat
  | temperatureTimerStart (ms : Int)
  | IDSetNumberControl (slot : Nat)
  | IDSetNumberTemperature
  | IDSetNumberCooler
  | IDSetNumberWorkaround
  | temperatureTimerStop
  deriving DecidableEq, Repr

/-- The fields of an `INumber` that `IUFillNumber` sets. -/
structure INumber where
  min : ℚ := 0
  max : ℚ := 0
  step : ℚ := 0
  value : ℚ := 0
  deriving DecidableEq, Repr

/-- The part of `INDI::CCDChip` (`PrimaryCCD`) the driver reads and writes. -/
structure CCDChip where
  SubX : Int := 0
  SubY : Int := 0
  SubW : Int := 0
  SubH : Int := 0
  BinX : Int := 1
  BinY : Int := 1
  frameBuffer : List Nat := []
  frameBufferSize : Nat := 0
  exposureDuration : ℚ := 0
  exposureLeft : ℚ := 0
  XRes : Int := 0
  YRes : Int := 0
  BPP : Int := 8
  PixelSizeX : ℚ := 0
  PixelSizeY : ℚ := 0
  deriving DecidableEq, Repr

/-- Fields of `SVBBase` and `SVBTemperature` used by connection, control
discovery and the frame-format switch.  `ControlsN` is the array of the nine
control numbers, `FormatOnIndex` is what `IUFindOnSwitchIndex(&FormatSP)`
returns, `temperatureTimerOn` tells whether `mTimerTemperature` runs. -/
structure SVBBaseFields where
  isSimulation : Bool := false
  pixelSize : ℚ := 0
  frameFormat : Int := 0
  FormatOnIndex : Int := 0
  FormatSPs : IPState := IPState.IPS_IDLE
  frameSpeed : Int := 1
  ControlsN : List INumber := List.replicate 9 {}
  coolerEnable : Int := 1
  temperatureTimerOn : Bool := false
  deriving DecidableEq, Repr

/-- Fields of `SVBBase` and `SVBTemperature` used by `updateControl` and by the
temperature poll: `ControlsNPs` holds the states `ControlsNP[i].s`,
`TemperatureNPs` is `TemperatureNP.s`, `CoolerNValue` and `CoolerNPs` are
`CoolerN[0].value` and `CoolerNP.s`.  `mCurrentTemperature` has no initial
value in the source; 0 stands in for it. -/
structure SVBPropertyFields where
  ControlsNPs : List IPState := List.replicate 9 IPState.IPS_IDLE
  mCurrentTemperature : ℚ := 0
  TemperatureNPs : IPState := IPState.IPS_IDLE
  CoolerNValue : ℚ := 0
  CoolerNPs : IPState := IPState.IPS_IDLE
  deriving DecidableEq, Repr

/-- The fields of `SVBDevice` (with those inherited from `SVBTemperature`
and `SVBBase`) that the modelled functions touch, the two worker slots, and
the bookkeeping of the embedding: `sdkCalls` counts the SDK calls made so
far, `quitPolls` the reads of the cancellation flag, `log` is the trace, and
`lastFetched` is a ghost copy of the buffer as the latest `SVBGetVideoData`
into the frame buffer left it.  `base` holds the fields used by connection,
control discovery and the frame format, `props` those used by `updateControl`
and the temperature poll. -/
structure SVBDevice where
  FriendlyName : String := ""
  MaxWidth : Int := 0
  MaxHeight : Int := 0
  x_offset : Int := 0
  y_offset : Int := 0
  minExposure : ℚ := 0
  maxExposure : ℚ := 0
  bitStretch : Nat := 0
  bitDepth : Int := 16
  exposureWorkaroundEnable : Bool := false
  exposureWorkaroundDuration : ℚ := 1 / 2
  inExposure : Bool := false
  PrimaryCCD : CCDChip := {}
  targetFPS : ℚ := 1
  TemperatureValue : ℚ := 0
  RampThreshold : ℚ := 0
  TemperatureRequest : ℚ := 0
  CoolerEnableS : ISState := ISState.ISS_OFF
  CoolerDisableS : ISState := ISState.ISS_ON
  CoolerSPs : IPState := IPState.IPS_IDLE
  mWorker : Option WorkerTask := none
  mExposureTimerWorker : Option WorkerTask := none
  sdkCalls : Nat := 0
  quitPolls : Nat := 0
  lastFetched : List Nat := []
  log : List Event := []
  base : SVBBaseFields := {}
  props : SVBPropertyFields := {}
  deriving DecidableEq, Repr

/-- The world outside the driver: `status i` is the status the SDK returns to
the `i`-th SDK call, `frame i buf` the content of the frame buffer after that
call when it is a frame fetch into a buffer holding `buf`, `controlValue i`
the value it reads when it is a `SVBGetControlValue`; `isAboutToQuit j` is the
value of the cancellation flag of the worker at its `j`-th read; `binFrame` is the
effect of `INDI::CCDChip::binFrame` on the buffer content.  The remaining
fields are what the camera reports at connection: the sensor size of
`SVBGetCameraProperty`, the pixel size, the number of controls, and the
capabilities `SVBGetControlCaps` returns for a control index.  For the
progress-timer worker, `elapsed k` is what `exposureTimer.elapsed()` returns
(milliseconds) in its `k`-th iteration and `timerAboutToQuit k` the value of
its cancellation flag in that iteration. -/
structure SdkEnv where
  status : Nat → SVB_ERROR_CODE
  frame : Nat → List Nat → List Nat
  controlValue : Nat → Int
  isAboutToQuit : Nat → Bool
  binFrame : List Nat → List Nat
  cameraMaxWidth : Int := 0
  cameraMaxHeight : Int := 0
  sensorPixelSize : ℚ := 0
  numOfControls : Int := 0
  controlCaps : Int → SVB_CONTROL_CAPS := fun _ => {}
  elapsed : Nat → ℚ := fun _ => 0
  timerAboutToQuit : Nat → Bool := fun _ => false

/-! ## Primitive actions -/

/-- Append one event to the trace. -/
def emit (s : SVBDevice) (e : Event) : SVBDevice :=
  { s with log := s.log ++ [e] }

/-- One SDK call: the call is logged and answered by the environment. -/
def sdkCall (env : SdkEnv) (s : SVBDevice) (c : SdkCall) : SVB_ERROR_CODE × SVBDevice :=
  (env.status s.sdkCalls, { s with sdkCalls := s.sdkCalls + 1, log := s.log ++ [Event.sdk c] })

/-- `SVBGetVideoData(id, buffer, size, waitMS)`: with a buffer the SDK leaves
the content `env.frame i buf` in it; with `nullptr` the frame buffer is not
touched. -/
def SVBGetVideoData (env : SdkEnv) (s : SVBDevice) (toBuffer : Bool) (size : Nat) (waitMS : Int) :
    SVB_ERROR_CODE × SVBDevice :=
  let r := sdkCall env s (SdkCall.SVBGetVideoData toBuffer size waitMS)
  if toBuffer then
    let data := env.frame s.sdkCalls s.PrimaryCCD.frameBuffer
    (r.1, { r.2 with PrimaryCCD := { r.2.PrimaryCCD with frameBuffer := data }, lastFetched := data })
  else r

/-- Read of the `isAboutToQuit` flag of the running worker. -/
def readQuit (env : SdkEnv) (s : SVBDevice) : Bool × SVBDevice :=
  (env.isAboutToQuit s.quitPolls, { s with quitPolls := s.quitPolls + 1 })

/-- Conversion of a floating value to `long`/`int`: truncation toward zero. -/
def truncToLong (q : ℚ) : Int :=
  if 0 ≤ q then ⌊q⌋ else ⌈q⌉

/-- `SVBDevice::isBinningActive`. -/
def isBinningActive (s : SVBDevice) : Bool :=
  decide (s.PrimaryCCD.BinX > 1)

/-! ## Sub-framing -/

/-- Modelled from the spec: `INDI::CCD::UpdateCCDFrame` is the base
implementation of the host framework, not part of src/; "commit" on
acceptance: it stores the sub-frame in `PrimaryCCD` and reports success. -/
def baseUpdateCCDFrame (s : SVBDevice) (x y w h : Int) : Bool × SVBDevice :=
  (true, { s with PrimaryCCD := { s.PrimaryCCD with SubX := x, SubY := y, SubW := w, SubH := h } })

/-- The guard of `SVBDevice::UpdateCCDFrame`: true when the frame is rejected. -/
def frameRejected (s : SVBDevice) (x y w h : Int) : Bool :=
  decide ((x + w) > s.MaxWidth) || decide ((y + h) > s.MaxHeight) ||
    decide (Int.tmod w 8 ≠ 0) || decide (Int.tmod h 2 ≠ 0)

/-- `SVBDevice::UpdateCCDFrame(x, y, w, h)`. -/
def UpdateCCDFrame (env : SdkEnv) (s : SVBDevice) (x y w h : Int) : Bool × SVBDevice :=
  if frameRejected s x y w h then (false, s)
  else
    -- stop framing
    let r1 := sdkCall env s SdkCall.SVBStopVideoCapture
    if r1.1 ≠ SVB_ERROR_CODE.SVB_SUCCESS then (false, r1.2)
    else
      -- change ROI
      let r2 := sdkCall env r1.2 (SdkCall.SVBSetROIFormat x y w h 1)
      if r2.1 ≠ SVB_ERROR_CODE.SVB_SUCCESS then (false, r2.2)
      else
        -- start framing
        let r3 := sdkCall env r2.2 SdkCall.SVBStartVideoCapture
        if r3.1 ≠ SVB_ERROR_CODE.SVB_SUCCESS then (false, r3.2)
        else
          baseUpdateCCDFrame { r3.2 with x_offset := x, y_offset := y } x y w h

/-- `SVBDevice::UpdateCCDBin(hor, ver)`: `PrimaryCCD.setBin(hor, hor)`, then
`UpdateCCDFrame` on the current sub-frame. -/
def UpdateCCDBin (env : SdkEnv) (s : SVBDevice) (hor _ver : Int) : Bool × SVBDevice :=
  let s1 := { s with PrimaryCCD := { s.PrimaryCCD with BinX := hor, BinY := hor } }
  UpdateCCDFrame env s1 s1.PrimaryCCD.SubX s1.PrimaryCCD.SubY s1.PrimaryCCD.SubW s1.PrimaryCCD.SubH

/-! ## Mode reset and abort -/

/-- `SVBDevice::resetCaptureModeAndRoi(mode)`: four SDK calls whose failures
are only logged. -/
def resetCaptureModeAndRoi (env : SdkEnv) (s : SVBDevice) (mode : SVB_CAMERA_MODE) : SVBDevice :=
  -- stop camera
  let r1 := sdkCall env s SdkCall.SVBStopVideoCapture
  -- set camera back to trigger mode
  let r2 := sdkCall env r1.2 (SdkCall.SVBSetCameraMode mode)
  -- set ROI back
  let r3 := sdkCall env r2.2
    (SdkCall.SVBSetROIFormat s.x_offset s.y_offset s.PrimaryCCD.SubW s.PrimaryCCD.SubH 1)
  -- start camera
  let r4 := sdkCall env r3.2 SdkCall.SVBStartVideoCapture
  r4.2

/-- `SVBDevice::AbortExposure`.  `quit()` of a single-thread pool returns once
the running function has ended, so the worker slot is empty afterwards. -/
def AbortExposure (env : SdkEnv) (s : SVBDevice) : Bool × SVBDevice :=
  let s1 := emit { s with mWorker := none } Event.workerQuit
  let s2 := { s1 with inExposure := false }
  let s3 := emit { s2 with mExposureTimerWorker := none } Event.timerWorkerQuit
  (true, resetCaptureModeAndRoi env s3 SVB_CAMERA_MODE.SVB_MODE_TRIG_SOFT)

/-! ## Bit stretch -/

/-- Sample `tmp[i]` of the `u_int16_t *` view of the byte buffer. -/
def readU16 (buf : List Nat) (i : Nat) : Nat :=
  buf.getD (2 * i) 0 + 256 * buf.getD (2 * i + 1) 0

/-- Store of a 16-bit value into `tmp[i]`. -/
def writeU16 (buf : List Nat) (i : Nat) (v : Nat) : List Nat :=
  (buf.set (2 * i) (v % 256)).set (2 * i + 1) (v / 256)

/-- The statement `tmp[i] <<= bitStretch` on a `u_int16_t`: the shifted value
is cut to 16 bits. -/
def shl16 (v k : Nat) : Nat :=
  (v <<< k) % 65536

/-- The loop `for (i = 0; i < n; i++) tmp[i] <<= bitStretch`. -/
def stretchLoop (buf : List Nat) (n k : Nat) : List Nat :=
  (List.range n).foldl (fun tmp i => writeU16 tmp i (shl16 (readU16 tmp i) k)) buf

/-- The block "stretching 12bits depth to 16bits depth" of both workers,
over `totalBytes / 2` samples. -/
def stretchFrame (s : SVBDevice) (totalBytes : Nat) : SVBDevice :=
  if s.bitDepth = 16 ∧ s.bitStretch ≠ 0 then
    { s with PrimaryCCD :=
        { s.PrimaryCCD with
            frameBuffer := stretchLoop s.PrimaryCCD.frameBuffer (totalBytes / 2) s.bitStretch } }
  else s

/-- The block `if (isBinningActive()) PrimaryCCD.binFrame();`. -/
def binIfActive (env : SdkEnv) (s : SVBDevice) : SVBDevice :=
  if isBinningActive s then
    emit { s with PrimaryCCD :=
             { s.PrimaryCCD with frameBuffer := env.binFrame s.PrimaryCCD.frameBuffer } }
      Event.binFrame
  else s

/-! ## Single exposure -/

/-- How the frame-polling loop of `workerExposure` ended. -/
inductive PollOutcome where
  | cancelled
  | failed
  | fetched
  deriving DecidableEq, Repr

/-- The `do ... while (status != SVB_SUCCESS)` loop of `workerExposure`.
`ret` is the local variable of that name: at the loop it holds the status of
the soft trigger, and it is the variable the failure test reads. -/
def exposurePoll (env : SdkEnv) (ret : SVB_ERROR_CODE) : Nat → SVBDevice → Option (PollOutcome × SVBDevice)
  | 0, _ => none
  | fuel + 1, s =>
    let q := readQuit env s
    if q.1 then some (PollOutcome.cancelled, q.2)
    else
      let r := SVBGetVideoData env q.2 true q.2.PrimaryCCD.frameBufferSize 100
      if ret ≠ SVB_ERROR_CODE.SVB_SUCCESS ∧ ret ≠ SVB_ERROR_CODE.SVB_ERROR_TIMEOUT then
        some (PollOutcome.failed, emit r.2 Event.setExposureFailed)
      else if r.1 ≠ SVB_ERROR_CODE.SVB_SUCCESS then exposurePoll env ret fuel r.2
      else some (PollOutcome.fetched, r.2)

/-- The `do ... while (ret != SVB_SUCCESS)` loop of `workaroundExposure`:
`true` when the frame arrived, `false` when the fetch failed. -/
def workaroundPoll (env : SdkEnv) (waitMS : Int) : Nat → SVBDevice → Option (Bool × SVBDevice)
  | 0, _ => none
  | fuel + 1, s =>
    let r := SVBGetVideoData env s false s.PrimaryCCD.frameBufferSize waitMS
    if r.1 ≠ SVB_ERROR_CODE.SVB_SUCCESS ∧ r.1 ≠ SVB_ERROR_CODE.SVB_ERROR_TIMEOUT then
      some (false, emit r.2 Event.setExposureFailed)
    else if r.1 ≠ SVB_ERROR_CODE.SVB_SUCCESS then workaroundPoll env waitMS fuel r.2
    else some (true, r.2)

/-- `SVBDevice::workaroundExposure(duration)`. -/
def workaroundExposure (env : SdkEnv) (fuel : Nat) (s : SVBDevice) (duration : ℚ) : Option SVBDevice :=
  let uSecs := truncToLong (duration * 1000 * 1000)
  let waitMS := truncToLong (duration * 2000 + 500)
  let roi := SdkCall.SVBSetROIFormat s.x_offset s.y_offset s.PrimaryCCD.SubW s.PrimaryCCD.SubH 1
  -- stop camera
  let r1 := sdkCall env s SdkCall.SVBStopVideoCapture
  let r2 := sdkCall env r1.2 (SdkCall.SVBSetControlValue SVB_CONTROL_TYPE.SVB_EXPOSURE uSecs false)
  -- set camera normal mode
  let r3 := sdkCall env r2.2 (SdkCall.SVBSetCameraMode SVB_CAMERA_MODE.SVB_MODE_NORMAL)
  -- set ROI back
  let r4 := sdkCall env r3.2 roi
  let r5 := sdkCall env r4.2 SdkCall.SVBStartVideoCapture
  -- set ROI back
  let r6 := sdkCall env r5.2 roi
  let r7 := sdkCall env r6.2 SdkCall.SVBStartVideoCapture
  match workaroundPoll env waitMS fuel r7.2 with
  | none => none
  | some (false, s1) => some s1
  | some (true, s1) => some (resetCaptureModeAndRoi env s1 SVB_CAMERA_MODE.SVB_MODE_TRIG_SOFT)

/-- The part of `workerExposure` after the polling loop has a frame. -/
def exposureDone (env : SdkEnv) (s : SVBDevice) : SVBDevice :=
  let s1 := emit { s with PrimaryCCD := { s.PrimaryCCD with exposureLeft := 0 } }
    (Event.setExposureLeft 0)
  -- stretching 12bits depth to 16bits depth
  let s2 := stretchFrame s1 s1.PrimaryCCD.frameBufferSize
  -- binning if needed
  let s3 := binIfActive env s2
  -- exposure done
  let s4 := emit s3 (Event.ExposureComplete s3.PrimaryCCD.frameBuffer)
  let r := sdkCall env s4 (SdkCall.SVBGetControlValue SVB_CONTROL_TYPE.SVB_BLACK_LEVEL)
  { r.2 with inExposure := false }

/-- The part of `workerExposure` from `PrimaryCCD.setExposureDuration(duration)`
to the end of the polling loop, followed by `exposureDone` when a frame was
fetched. -/
def exposeAndFetch (env : SdkEnv) (fuel : Nat) (s : SVBDevice) (duration : ℚ) : Option SVBDevice :=
  let s1 := emit { s with PrimaryCCD := { s.PrimaryCCD with exposureDuration := duration } }
    (Event.setExposureDuration duration)
  let r := sdkCall env s1
    (SdkCall.SVBSetControlValue SVB_CONTROL_TYPE.SVB_EXPOSURE (truncToLong (duration * 1000 * 1000)) false)
  if r.1 ≠ SVB_ERROR_CODE.SVB_SUCCESS then some (emit r.2 Event.setExposureFailed)
  else
    let t := sdkCall env r.2 SdkCall.SVBSendSoftTrigger
    if t.1 ≠ SVB_ERROR_CODE.SVB_SUCCESS then some (emit t.2 Event.setExposureFailed)
    else
      match exposurePoll env t.1 fuel t.2 with
      | none => none
      | some (PollOutcome.fetched, s2) => some (exposureDone env s2)
      | some (_, s2) => some s2

/-- `SVBDevice::workerExposure(isAboutToQuit, duration)`. -/
def workerExposure (env : SdkEnv) (fuel : Nat) (s : SVBDevice) (duration : ℚ) : Option SVBDevice :=
  if s.exposureWorkaroundEnable ∧ s.exposureWorkaroundDuration > 0 then
    match workaroundExposure env fuel s (1 / 2) with
    | none => none
    | some s0 => exposeAndFetch env fuel s0 duration
  else exposeAndFetch env fuel s duration

/-- `SVBDevice::StartExposure(duration)`: the clamped duration is bound into
the two functions handed to the worker pools. -/
def StartExposure (s : SVBDevice) (duration : ℚ) : Bool × SVBDevice :=
  let c_exp := duration
  -- checks for time limits
  let c_exp := if c_exp < s.minExposure then s.minExposure else c_exp
  let c_exp := if c_exp > s.maxExposure then s.maxExposure else c_exp
  let s1 := { s with inExposure := true }
  let s2 := emit { s1 with mWorker := some (WorkerTask.workerExposure c_exp) }
    (Event.workerStart (WorkerTask.workerExposure c_exp))
  let s3 := emit { s2 with mExposureTimerWorker := some (WorkerTask.workerTimerExposure c_exp) }
    (Event.timerWorkerStart (WorkerTask.workerTimerExposure c_exp))
  (true, s3)

/-! ## Streaming -/

/-- The part of `workerStreamVideo` before its frame loop. -/
def streamSetup (env : SdkEnv) (s : SVBDevice) : SVBDevice :=
  -- stream init
  let mono := decide (s.FriendlyName = "SVBONY SV305M PRO") || isBinningActive s
  let s1 := emit s (Event.setPixelFormat mono s.bitDepth)
  let s2 := emit s1 (Event.setSize (Int.tdiv s.PrimaryCCD.SubW s.PrimaryCCD.BinX)
    (Int.tdiv s.PrimaryCCD.SubH s.PrimaryCCD.BinY))
  let ExposureRequest : ℚ := 1 / s.targetFPS
  let uSecs := truncToLong (ExposureRequest * 950000)
  -- stop camera
  let r1 := sdkCall env s2 SdkCall.SVBStopVideoCapture
  let r2 := sdkCall env r1.2 (SdkCall.SVBSetControlValue SVB_CONTROL_TYPE.SVB_EXPOSURE uSecs false)
  -- set ROI back
  let r3 := sdkCall env r2.2
    (SdkCall.SVBSetROIFormat s.x_offset s.y_offset s.PrimaryCCD.SubW s.PrimaryCCD.SubH 1)
  -- set camera normal mode
  let r4 := sdkCall env r3.2 (SdkCall.SVBSetCameraMode SVB_CAMERA_MODE.SVB_MODE_NORMAL)
  let r5 := sdkCall env r4.2 SdkCall.SVBStartVideoCapture
  r5.2

/-- One pass through the body of the `while (!isAboutToQuit)` loop of
`workerStreamVideo`; the Boolean is `false` when the body ends in `break`. -/
def streamBody (env : SdkEnv) (s : SVBDevice) : Bool × SVBDevice :=
  let totalBytes := s.PrimaryCCD.frameBufferSize
  let waitMS := truncToLong ((1 / s.targetFPS) * 2000 + 500)
  let r := SVBGetVideoData env s true totalBytes waitMS
  if r.1 ≠ SVB_ERROR_CODE.SVB_SUCCESS then
    if r.1 ≠ SVB_ERROR_CODE.SVB_ERROR_TIMEOUT then (false, emit r.2 (Event.setStream false))
    else (true, r.2)
  else
    -- stretching 12bits depth to 16bits depth
    let s1 := stretchFrame r.2 totalBytes
    let s2 := binIfActive env s1
    (true, emit s2 (Event.newFrame s2.PrimaryCCD.frameBuffer totalBytes))

/-- The `while (!isAboutToQuit)` loop of `workerStreamVideo`. -/
def streamLoop (env : SdkEnv) : Nat → SVBDevice → Option SVBDevice
  | 0, _ => none
  | fuel + 1, s =>
    let q := readQuit env s
    if q.1 then some q.2
    else
      let b := streamBody env q.2
      if b.1 then streamLoop env fuel b.2 else some b.2

/-- `SVBDevice::workerStreamVideo(isAboutToQuit)`. -/
def workerStreamVideo (env : SdkEnv) (fuel : Nat) (s : SVBDevice) : Option SVBDevice :=
  streamLoop env fuel (streamSetup env s)

/-! ## Temperature -/

/-- `SVBTemperature::SetTemperature(temperature)`.  The current temperature is
`TemperatureN[0].value`, the threshold `TemperatureRampNP[RAMP_THRESHOLD].value`. -/
def SetTemperature (env : SdkEnv) (s : SVBDevice) (temperature : ℚ) : Int × SVBDevice :=
  -- If below threshold, do nothing
  if |temperature - s.TemperatureValue| < s.RampThreshold then (1, s)
  else
    -- Set target temperature
    let r1 := sdkCall env s
      (SdkCall.SVBSetControlValue SVB_CONTROL_TYPE.SVB_TARGET_TEMPERATURE (truncToLong (temperature * 10)) false)
    if r1.1 ≠ SVB_ERROR_CODE.SVB_SUCCESS then (-1, r1.2)
    else
      -- Enable Cooler
      let r2 := sdkCall env r1.2 (SdkCall.SVBSetControlValue SVB_CONTROL_TYPE.SVB_COOLER_ENABLE 1 false)
      if r2.1 ≠ SVB_ERROR_CODE.SVB_SUCCESS then (-1, r2.2)
      else
        let s1 := emit { r2.2 with CoolerEnableS := ISState.ISS_ON, CoolerDisableS := ISState.ISS_OFF,
                                   CoolerSPs := IPState.IPS_OK } Event.IDSetSwitchCooler
        (0, { s1 with TemperatureRequest := temperature })

/-! ## Streaming start and stop -/

/-- `SVBDevice::StartStreaming`: the streaming worker replaces whatever runs in
`mWorker`. -/
def StartStreaming (s : SVBDevice) : Bool × SVBDevice :=
  (true, emit { s with mWorker := some WorkerTask.workerStreamVideo }
    (Event.workerStart WorkerTask.workerStreamVideo))

/-- `SVBDevice::StopStreaming`. -/
def StopStreaming (env : SdkEnv) (s : SVBDevice) : Bool × SVBDevice :=
  let s1 := emit { s with mWorker := none } Event.workerQuit
  (true, resetCaptureModeAndRoi env s1 SVB_CAMERA_MODE.SVB_MODE_TRIG_SOFT)

/-! ## Frame format and buffer size -/

/-- Index `FORMAT_RAW16` of the format enumeration. -/
def FORMAT_RAW16 : Int := 0

/-- Index `FORMAT_RAW8` of the format enumeration. -/
def FORMAT_RAW8 : Int := 1

/-- Index `FORMAT_Y16` of the format enumeration. -/
def FORMAT_Y16 : Int := 2

/-- Index `FORMAT_Y8` of the format enumeration. -/
def FORMAT_Y8 : Int := 3

/-- The table `frameFormatMapping[4]` of svb_base.h (an index outside the
table is undefined in the source; the first entry stands in for it). -/
def frameFormatMapping (i : Int) : SVB_IMG_TYPE :=
  [SVB_IMG_TYPE.SVB_IMG_RAW16, SVB_IMG_TYPE.SVB_IMG_RAW8, SVB_IMG_TYPE.SVB_IMG_Y16,
    SVB_IMG_TYPE.SVB_IMG_Y8].getD i.toNat SVB_IMG_TYPE.SVB_IMG_RAW16

/-- Modelled from the spec: `INDI::CCDChip::setFrameBufferSize` is host
framework code, not part of src/; the frame buffer is "invalidated/resized":
the size becomes `nbuf` and the buffer is cut or padded to that many bytes. -/
def setFrameBufferSize (chip : CCDChip) (nbuf : Int) : CCDChip :=
  { chip with
    frameBufferSize := nbuf.toNat
    frameBuffer := chip.frameBuffer.take nbuf.toNat ++
      List.replicate (nbuf.toNat - chip.frameBuffer.length) 0 }

/-- `SVBBase::updateCCDParams`. -/
def updateCCDParams (s : SVBDevice) : Bool × SVBDevice :=
  -- set CCD parameters
  let chip := { s.PrimaryCCD with BPP := s.bitDepth }
  let nbuf := Int.tdiv (chip.XRes * chip.YRes * chip.BPP) 8
  (true, { s with PrimaryCCD := setFrameBufferSize chip nbuf })

/-- Modelled from the spec: `INDI::CCD::SetCCDParams` is host framework code,
not part of src/; it stores the resolution, the full frame, binning 1x1, the
pixel size and the bit depth in `PrimaryCCD`. -/
def SetCCDParams (s : SVBDevice) (x y bpp : Int) (xf yf : ℚ) : SVBDevice :=
  { s with PrimaryCCD :=
      { s.PrimaryCCD with XRes := x, YRes := y, SubX := 0, SubY := 0, SubW := x, SubH := y,
                          BinX := 1, BinY := 1, PixelSizeX := xf, PixelSizeY := yf, BPP := bpp } }

/-- The branch of `SVBBase::ISNewSwitch` for the frame-format switch, for a
request that turns on the switch `FormatS[req]` (`IUFindOnSwitchName` yields its
name, `IUUpdateSwitch` selects it, `IUFindOnSwitchIndex` then yields `req`). -/
def ISNewSwitchFormat (env : SdkEnv) (s : SVBDevice) (req : Int) : Bool × SVBDevice :=
  -- If same state as actionName, then we do nothing
  if req = s.base.FormatOnIndex then
    (true, emit { s with base := { s.base with FormatSPs := IPState.IPS_IDLE } }
      Event.IDSetSwitchFormat)
  else
    -- Otherwise, let us update the switch state
    let s1 := { s with base := { s.base with FormatOnIndex := req } }
    let tmpFormat := s1.base.FormatOnIndex
    let tmpFormat := if tmpFormat = -1 then FORMAT_RAW16 else tmpFormat
    -- adjust frame format for SV305M
    let tmpFormat :=
      if s1.FriendlyName = "SVBONY SV305M PRO" then tmpFormat + FORMAT_Y16 else tmpFormat
    -- set new format
    let r := sdkCall env s1 (SdkCall.SVBSetOutputImageType (frameFormatMapping tmpFormat))
    -- set frame format back for SV305M
    let tmpFormat :=
      if s1.FriendlyName = "SVBONY SV305M PRO" then tmpFormat - FORMAT_Y16 else tmpFormat
    let s2 := { r.2 with base := { r.2.base with frameFormat := tmpFormat } }
    -- pixel depth
    let s3 :=
      if s2.base.frameFormat = FORMAT_RAW8 then { s2 with bitDepth := 8 }
      else if s2.base.frameFormat = FORMAT_RAW16 then { s2 with bitDepth := 16 }
      else { s2 with bitDepth := 16, base := { s2.base with frameFormat := FORMAT_RAW16 } }
    -- update CCD parameters
    let s4 := (updateCCDParams s3).2
    (true, emit { s4 with base := { s4.base with FormatSPs := IPState.IPS_OK } }
      Event.IDSetSwitchFormat)

/-! ## Control discovery and connection -/

/-- One of the nine cases of the `switch` in `createControls` that fill a
control number: `IUFillNumber(&ControlsN[slot], .., min, max, step, default)`,
then `SVBSetControlValue(ctl, default, SVB_FALSE)`, whose failure is only
logged. -/
def fillControl (env : SdkEnv) (s : SVBDevice) (slot : Nat) (ctl : SVB_CONTROL_TYPE)
    (caps : SVB_CONTROL_CAPS) (step : ℚ) : SVBDevice :=
  let n : INumber :=
    { min := caps.MinValue, max := caps.MaxValue, step := step, value := caps.DefaultValue }
  let s1 := { s with base := { s.base with ControlsN := s.base.ControlsN.set slot n } }
  (sdkCall env s1 (SdkCall.SVBSetControlValue ctl caps.DefaultValue false)).2

/-- The `switch (caps.ControlType)` of `SVBBase::createControls`; the slots are
`CCD_GAIN_N` = 0 up to `CCD_DOFFSET_N` = 8. -/
def processCaps (env : SdkEnv) (s : SVBDevice) (caps : SVB_CONTROL_CAPS) : SVBDevice :=
  match caps.ControlType with
  | SVB_CONTROL_TYPE.SVB_EXPOSURE =>
    { s with minExposure := (caps.MinValue : ℚ) / 1000000,
             maxExposure := (caps.MaxValue : ℚ) / 1000000 }
  | SVB_CONTROL_TYPE.SVB_GAIN => fillControl env s 0 SVB_CONTROL_TYPE.SVB_GAIN caps 10
  | SVB_CONTROL_TYPE.SVB_CONTRAST =>
    fillControl env s 1 SVB_CONTROL_TYPE.SVB_CONTRAST caps (Int.tdiv caps.MaxValue 10)
  | SVB_CONTROL_TYPE.SVB_SHARPNESS =>
    fillControl env s 2 SVB_CONTROL_TYPE.SVB_SHARPNESS caps (Int.tdiv caps.MaxValue 10)
  | SVB_CONTROL_TYPE.SVB_SATURATION =>
    fillControl env s 3 SVB_CONTROL_TYPE.SVB_SATURATION caps (Int.tdiv caps.MaxValue 10)
  | SVB_CONTROL_TYPE.SVB_WB_R =>
    fillControl env s 4 SVB_CONTROL_TYPE.SVB_WB_R caps (Int.tdiv caps.MaxValue 10)
  | SVB_CONTROL_TYPE.SVB_WB_G =>
    fillControl env s 5 SVB_CONTROL_TYPE.SVB_WB_G caps (Int.tdiv caps.MaxValue 10)
  | SVB_CONTROL_TYPE.SVB_WB_B =>
    fillControl env s 6 SVB_CONTROL_TYPE.SVB_WB_B caps (Int.tdiv caps.MaxValue 10)
  | SVB_CONTROL_TYPE.SVB_GAMMA =>
    fillControl env s 7 SVB_CONTROL_TYPE.SVB_GAMMA caps (Int.tdiv caps.MaxValue 10)
  | SVB_CONTROL_TYPE.SVB_BLACK_LEVEL =>
    fillControl env s 8 SVB_CONTROL_TYPE.SVB_BLACK_LEVEL caps (Int.tdiv caps.MaxValue 10)
  | _ => s

/-- The loop `for (i = ..; i < piNumberOfControls; i++)` of
`SVBBase::createControls` with `n` iterations left; `false` when a capability
query failed. -/
def createControlsLoop (env : SdkEnv) : Nat → Int → SVBDevice → Bool × SVBDevice
  | 0, _, s => (true, s)
  | n + 1, i, s =>
    -- read control
    let r := sdkCall env s (SdkCall.SVBGetControlCaps i)
    if r.1 ≠ SVB_ERROR_CODE.SVB_SUCCESS then (false, r.2)
    else createControlsLoop env n (i + 1) (processCaps env r.2 (env.controlCaps i))

/-- `SVBBase::createControls(piNumberOfControls)`. -/
def SVBBase.createControls (env : SdkEnv) (s : SVBDevice) (piNumberOfControls : Int) :
    Bool × SVBDevice :=
  -- read controls and feed UI
  let l := createControlsLoop env piNumberOfControls.toNat 0 s
  if l.1 = false then (false, l.2)
  else
    -- set frame speed
    let s1 := { l.2 with base := { l.2.base with frameSpeed := 1 } }
    let r1 := sdkCall env s1
      (SdkCall.SVBSetControlValue SVB_CONTROL_TYPE.SVB_FRAME_SPEED_MODE 1 false)
    if r1.1 ≠ SVB_ERROR_CODE.SVB_SUCCESS then (false, r1.2)
    else
      -- set frame format and feed UI
      let s2 := { r1.2 with base := { r1.2.base with FormatOnIndex := FORMAT_RAW16,
                                                     FormatSPs := IPState.IPS_IDLE } }
      -- NOTE : SV305M PRO only supports Y8 and Y16 frame format
      let imgType :=
        if s2.FriendlyName = "SVBONY SV305M PRO" then frameFormatMapping FORMAT_Y16
        else frameFormatMapping FORMAT_RAW16
      let r2 := sdkCall env s2 (SdkCall.SVBSetOutputImageType imgType)
      if r2.1 ≠ SVB_ERROR_CODE.SVB_SUCCESS then (false, r2.2)
      else
        (true, { r2.2 with bitDepth := 16, bitStretch := 0,
                           base := { r2.2.base with frameFormat := FORMAT_RAW16 } })

/-- `HasCooler()`: the capability `CCD_HAS_COOLER`, which `initProperties`
sets for the SV405CC only. -/
def HasCooler (s : SVBDevice) : Bool :=
  decide (s.FriendlyName = "SVBONY SV405CC")

/-- `SVBTemperature::createControls(piNumberOfControls)`, the override that
`Connect` reaches through the virtual call. -/
def SVBTemperature.createControls (env : SdkEnv) (s : SVBDevice) (piNumberOfControls : Int) :
    Bool × SVBDevice :=
  let r := SVBBase.createControls env s piNumberOfControls
  if r.1 then
    let s1 :=
      if HasCooler r.2 then
        -- set initial target temperature
        let a := { r.2 with TemperatureValue := 25 }
        -- default target temperature is 0. Setting to 25.
        let c := sdkCall env a
          (SdkCall.SVBSetControlValue SVB_CONTROL_TYPE.SVB_TARGET_TEMPERATURE 250 false)
        -- set cooler status to disable
        { c.2 with TemperatureRequest := 25, CoolerEnableS := ISState.ISS_OFF,
                   CoolerDisableS := ISState.ISS_ON, CoolerSPs := IPState.IPS_IDLE }
      else r.2
    (r.1, { s1 with base := { s1.base with coolerEnable := 1 } })
  else (r.1, r.2)

/-- The part of `SVBBase::Connect` before control discovery: the camera is
opened and queried, auto-save is switched off, the exposure control is primed. -/
def connectQuery (env : SdkEnv) (s : SVBDevice) : Bool × SVBDevice :=
  let r0 : SVB_ERROR_CODE × SVBDevice :=
    if s.base.isSimulation = false then sdkCall env s SdkCall.SVBOpenCamera
    else (SVB_ERROR_CODE.SVB_SUCCESS, s)
  if r0.1 ≠ SVB_ERROR_CODE.SVB_SUCCESS then (false, r0.2)
  else
    -- get camera properties
    let r1 := sdkCall env r0.2 SdkCall.SVBGetCameraProperty
    if r1.1 ≠ SVB_ERROR_CODE.SVB_SUCCESS then (false, r1.2)
    else
      let s1 := { r1.2 with MaxWidth := env.cameraMaxWidth, MaxHeight := env.cameraMaxHeight }
      -- get camera pixel size
      let r2 := sdkCall env s1 SdkCall.SVBGetSensorPixelSize
      if r2.1 ≠ SVB_ERROR_CODE.SVB_SUCCESS then (false, r2.2)
      else
        let s2 := { r2.2 with base := { r2.2.base with pixelSize := env.sensorPixelSize } }
        -- get num of controls
        let r3 := sdkCall env s2 SdkCall.SVBGetNumOfControls
        if r3.1 ≠ SVB_ERROR_CODE.SVB_SUCCESS then (false, r3.2)
        else
          let r4 := sdkCall env r3.2 (SdkCall.SVBSetAutoSaveParam false)
          -- fix for SDK gain error issue
          -- set exposure time
          let r5 := sdkCall env r4.2
            (SdkCall.SVBSetControlValue SVB_CONTROL_TYPE.SVB_EXPOSURE 1000000 false)
          (true, r5.2)

/-- The part of `SVBBase::Connect` after control discovery: full-frame ROI,
soft-trigger mode, start of capture, buffer size. -/
def connectStart (env : SdkEnv) (s : SVBDevice) : Bool × SVBDevice :=
  -- set camera ROI and BIN
  let s3 := SetCCDParams s s.MaxWidth s.MaxHeight s.bitDepth s.base.pixelSize s.base.pixelSize
  let r6 := sdkCall env s3 (SdkCall.SVBSetROIFormat 0 0 s3.MaxWidth s3.MaxHeight 1)
  if r6.1 ≠ SVB_ERROR_CODE.SVB_SUCCESS then (false, r6.2)
  else
    let s4 := { r6.2 with x_offset := 0, y_offset := 0 }
    -- set camera soft trigger mode
    let r7 := sdkCall env s4 (SdkCall.SVBSetCameraMode SVB_CAMERA_MODE.SVB_MODE_TRIG_SOFT)
    if r7.1 ≠ SVB_ERROR_CODE.SVB_SUCCESS then (false, r7.2)
    else
      -- start framing
      let r8 := sdkCall env r7.2 SdkCall.SVBStartVideoCapture
      if r8.1 ≠ SVB_ERROR_CODE.SVB_SUCCESS then (false, r8.2)
      else
        -- set CCD up
        (true, (updateCCDParams r8.2).2)

/-- `SVBBase::Connect`; `createControls` is the virtual call, `controlsNum` is
what `SVBGetNumOfControls` reported. -/
def SVBBase.Connect (env : SdkEnv) (s : SVBDevice) : Bool × SVBDevice :=
  let q := connectQuery env s
  if q.1 = false then (false, q.2)
  else
    -- Create controls
    let r := SVBTemperature.createControls env q.2 env.numOfControls
    if r.1 = false then (false, r.2)
    else connectStart env r.2

/-- `SVBTemperature::Connect`, the override the device runs. -/
def SVBTemperature.Connect (env : SdkEnv) (s : SVBDevice) : Bool × SVBDevice :=
  let r := SVBBase.Connect env s
  if r.1 then
    (r.1, emit { r.2 with base := { r.2.base with temperatureTimerOn := true } }
      (Event.temperatureTimerStart 1000))
  else (r.1, r.2)

/-- `SVBBase::Disconnect`.  `saveConfig` and `setConnected` are calls into the
host framework that touch no field of the model; the statuses of the two SDK
calls are not read. -/
def SVBBase.Disconnect (env : SdkEnv) (s : SVBDevice) : Bool × SVBDevice :=
  let s1 := emit s (Event.setStream false)
  if s1.base.isSimulation = false then
    let r1 := sdkCall env s1 SdkCall.SVBStopVideoCapture
    let r2 := sdkCall env r1.2 SdkCall.SVBCloseCamera
    (true, r2.2)
  else (true, s1)

/-- `SVBTemperature::Disconnect`, the override the device runs: the
temperature timer is stopped first. -/
def SVBTemperature.Disconnect (env : SdkEnv) (s : SVBDevice) : Bool × SVBDevice :=
  SVBBase.Disconnect env
    (emit { s with base := { s.base with temperatureTimerOn := false } }
      Event.temperatureTimerStop)

/-! ## Control update, temperature poll, progress timer -/

/-- Modelled from the spec: `IUUpdateNumber` is host framework code, not part
of src/.  `apply(kind, value)` "validates nothing" and the value reaches the
SDK through `ControlsN[ControlType].value` only, so the update is the store of
the requested value in that number (the range check of the host function is
not modelled). -/
def IUUpdateNumber (cs : List INumber) (slot : Nat) (value : ℚ) : List INumber :=
  cs.set slot { cs.getD slot {} with value := value }

/-- `SVBBase::updateControl(ControlType, SVB_Control, values, names, n)` for a
request that carries the one value `value` of the one number of
`ControlsNP[ControlType]`; the `double` is converted to the `long` argument of
the SDK call. -/
def updateControl (env : SdkEnv) (s : SVBDevice) (ControlType : Nat)
    (SVB_Control : SVB_CONTROL_TYPE) (value : ℚ) : Bool × SVBDevice :=
  let s1 := { s with base :=
    { s.base with ControlsN := IUUpdateNumber s.base.ControlsN ControlType value } }
  -- set control
  let r := sdkCall env s1 (SdkCall.SVBSetControlValue SVB_Control
    (truncToLong (s1.base.ControlsN.getD ControlType {}).value) false)
  if r.1 ≠ SVB_ERROR_CODE.SVB_SUCCESS then (false, r.2)
  else
    -- For debug purposes
    let g := sdkCall env r.2 (SdkCall.SVBGetControlValue SVB_Control)
    let s2 := { g.2 with props :=
      { g.2.props with ControlsNPs := g.2.props.ControlsNPs.set ControlType IPState.IPS_OK } }
    (true, emit s2 (Event.IDSetNumberControl ControlType))

/-- The branch of `SVBBase::ISNewNumber` for the duration of the discard
exposure, for a request carrying `value`: the property takes the value and
`exposureWorkaroundDuration` is read back from it. -/
def ISNewNumberWorkaroundExp (s : SVBDevice) (value : ℚ) : Bool × SVBDevice :=
  (true, { emit s Event.IDSetNumberWorkaround with exposureWorkaroundDuration := value })

/-- `SVBTemperature::temperatureTimerTimeout`.  The published temperature is
`TemperatureN[0].value` (`TemperatureValue`) with the state `TemperatureNP.s`;
0.05 is the rational 1/20. -/
def temperatureTimerTimeout (env : SdkEnv) (s : SVBDevice) : SVBDevice :=
  let newState := s.props.TemperatureNPs
  let r := sdkCall env s (SdkCall.SVBGetControlValue SVB_CONTROL_TYPE.SVB_CURRENT_TEMPERATURE)
  let value : Int := env.controlValue s.sdkCalls
  let newState := if r.1 ≠ SVB_ERROR_CODE.SVB_SUCCESS then IPState.IPS_ALERT else newState
  let s1 :=
    if r.1 ≠ SVB_ERROR_CODE.SVB_SUCCESS then r.2
    else { r.2 with props := { r.2.props with mCurrentTemperature := (value : ℚ) / 10 } }
  -- Update if there is a change
  let s2 :=
    if |s1.props.mCurrentTemperature - s1.TemperatureValue| > 1 / 20 ∨
        s1.props.TemperatureNPs ≠ newState then
      emit { s1 with TemperatureValue := s1.props.mCurrentTemperature,
                     props := { s1.props with TemperatureNPs := newState } }
        Event.IDSetNumberTemperature
    else s1
  let c := sdkCall env s2 (SdkCall.SVBGetControlValue SVB_CONTROL_TYPE.SVB_COOLER_POWER)
  let power : Int := env.controlValue s2.sdkCalls
  let s3 :=
    if c.1 ≠ SVB_ERROR_CODE.SVB_SUCCESS then
      { c.2 with props := { c.2.props with CoolerNPs := IPState.IPS_ALERT } }
    else
      { c.2 with props := { c.2.props with
          CoolerNValue := (power : ℚ),
          CoolerNPs := if power > 0 then IPState.IPS_BUSY else IPState.IPS_IDLE } }
  emit s3 Event.IDSetNumberCooler

/-- The function `std::round`: to the nearest integer, halves away from zero. -/
def roundHalfAway (q : ℚ) : ℚ :=
  if 0 ≤ q then ((⌊q + 1 / 2⌋ : Int) : ℚ) else ((⌈q - 1 / 2⌉ : Int) : ℚ)

/-- The body of the `do ... while (inExposure)` loop of `workerTimerExposure`
up to the sleep, in iteration `k`: the time left is published when positive.
The sleep itself (`delay`) leaves no trace. -/
def timerBody (env : SdkEnv) (duration : ℚ) (k : Nat) (s : SVBDevice) : SVBDevice :=
  let timeLeft := max (duration - env.elapsed k / 1000) 0
  let timeLeft := if timeLeft > 11 / 10 then roundHalfAway timeLeft else timeLeft
  if timeLeft > 0 then
    emit { s with PrimaryCCD := { s.PrimaryCCD with exposureLeft := timeLeft } }
      (Event.setExposureLeft timeLeft)
  else s

/-- The `do ... while (inExposure)` loop of `workerTimerExposure` from
iteration `k` on.  `inExposure` is read from the state the loop runs in. -/
def timerLoop (env : SdkEnv) (duration : ℚ) : Nat → Nat → SVBDevice → Option SVBDevice
  | 0, _, _ => none
  | fuel + 1, k, s =>
    let s1 := timerBody env duration k s
    if env.timerAboutToQuit k then some s1
    else if s1.inExposure then timerLoop env duration fuel (k + 1) s1
    else some s1

/-- `SVBDevice::workerTimerExposure(isAboutToQuit, duration)`. -/
def workerTimerExposure (env : SdkEnv) (fuel : Nat) (s : SVBDevice) (duration : ℚ) :
    Option SVBDevice :=
  timerLoop env duration fuel 0 s

/-! ## Device names -/

/-- The loop of `UniqueName::make`: `used` lists the names mapped to `true`,
`index` and `uniqueName` are the loop variables; the first argument bounds the
number of tests of the loop condition. -/
def makeLoop (used : List String) (cameraName : String) : Nat → Nat → String → Option String
  | 0, _, _ => none
  | fuel + 1, index, uniqueName =>
    if uniqueName ∈ used then
      makeLoop used cameraName fuel (index + 1) (cameraName ++ " " ++ toString (index + 1))
    else some uniqueName

/-- `Loader::UniqueName::make(cameraInfo)`: the name returned and the names in
use afterwards.  The loop is given one test more than there are names in use. -/
def UniqueName.make (used : List String) (FriendlyName : String) : Option (String × List String) :=
  let cameraName := "SVBONY " ++ FriendlyName
  match makeLoop used cameraName (used.length + 1) 0 cameraName with
  | none => none
  | some uniqueName => some (uniqueName, uniqueName :: used)

/-- The calls `uniqueName.make(cameraInfo)` of `Loader::load` on one
`UniqueName` object, for the cameras in the order given: the names returned. -/
def makeAll : List String → List String → Option (List String)
  | _, [] => some []
  | used, friendly :: rest =>
    match UniqueName.make used friendly with
    | none => none
    | some (name, used2) =>
      match makeAll used2 rest with
      | none => none
      | some names => some (name :: names)

/-! ## Sequences of acquisition requests -/

/-- The requests and completions that move the acquisition state. -/
inductive Action where
  | startExposure (d : ℚ)
  | abortExposure
  | startStreaming
  | stopStreaming
  | workerDone (fuel : Nat)
  | timerDone
  deriving DecidableEq, Repr

/-- One request or completion.  `workerDone` lets the function that runs in
`mWorker` run to its end and leaves the slot empty; it is not possible when
the slot is empty or the function does not end within the fuel. -/
def act (env : SdkEnv) : Action → SVBDevice → Option SVBDevice
  | Action.startExposure d, s => some (StartExposure s d).2
  | Action.abortExposure, s => some (AbortExposure env s).2
  | Action.startStreaming, s => some (StartStreaming s).2
  | Action.stopStreaming, s => some (StopStreaming env s).2
  | Action.workerDone fuel, s =>
    match s.mWorker with
    | some (WorkerTask.workerExposure c) =>
      (workerExposure env fuel s c).map (fun r => { r with mWorker := none })
    | some WorkerTask.workerStreamVideo =>
      (workerStreamVideo env fuel s).map (fun r => { r with mWorker := none })
    | _ => none
  | Action.timerDone, s =>
    match s.mExposureTimerWorker with
    | some _ => some { s with mExposureTimerWorker := none }
    | none => none

/-- A sequence of actions from `s`, each one admitted by `ok` in the state it
meets; `none` when an action is not admitted or not possible. -/
def runActions (env : SdkEnv) (ok : Action → SVBDevice → Bool) :
    List Action → SVBDevice → Option SVBDevice
  | [], s => some s
  | a :: rest, s =>
    if ok a s then
      match act env a s with
      | none => none
      | some s2 => runActions env ok rest s2
    else none

/-- Every action is admitted at any time. -/
def anyTime : Action → SVBDevice → Bool :=
  fun _ _ => true

/-- The discipline under which streaming is started only while no exposure is
in progress. -/
def streamWhenNotExposing : Action → SVBDevice → Bool
  | Action.startStreaming, s => !s.inExposure
  | _, _ => true

/-- The idle state: no exposure in progress, both worker slots empty. -/
def Idle (s : SVBDevice) : Prop :=
  s.inExposure = false ∧ s.mWorker = none ∧ s.mExposureTimerWorker = none

/-- The streaming loop runs in the capture worker. -/
def streamingActive (s : SVBDevice) : Bool :=
  decide (s.mWorker = some WorkerTask.workerStreamVideo)

/-! ## Order of SDK calls -/

/-- The SDK calls of a trace, in order. -/
def sdkTrace (log : List Event) : List SdkCall :=
  log.filterMap (fun e => match e with
    | Event.sdk c => some c
    | _ => none)

/-- Checks a sequence of SDK calls: every set-ROI and set-mode call comes after
a stop-capture call with no start-capture call in between.  The Boolean tells
whether capture is stopped at the start of the sequence. -/
def geometryOnlyWhileStopped : Bool → List SdkCall → Bool
  | _, [] => true
  | _, SdkCall.SVBStopVideoCapture :: rest => geometryOnlyWhileStopped true rest
  | _, SdkCall.SVBStartVideoCapture :: rest => geometryOnlyWhileStopped false rest
  | stopped, SdkCall.SVBSetROIFormat _ _ _ _ _ :: rest =>
    stopped && geometryOnlyWhileStopped stopped rest
  | stopped, SdkCall.SVBSetCameraMode _ :: rest =>
    stopped && geometryOnlyWhileStopped stopped rest
  | stopped, _ :: rest => geometryOnlyWhileStopped stopped rest

/-- The SDK calls of `Connect` whose failure makes it return false. -/
def connectFatal : SdkCall → Bool
  | SdkCall.SVBOpenCamera => true
  | SdkCall.SVBGetCameraProperty => true
  | SdkCall.SVBGetSensorPixelSize => true
  | SdkCall.SVBGetNumOfControls => true
  | SdkCall.SVBGetControlCaps _ => true
  | SdkCall.SVBSetControlValue SVB_CONTROL_TYPE.SVB_FRAME_SPEED_MODE _ _ => true
  | SdkCall.SVBSetOutputImageType _ => true
  | SdkCall.SVBSetROIFormat _ _ _ _ _ => true
  | SdkCall.SVBSetCameraMode _ => true
  | SdkCall.SVBStartVideoCapture => true
  | _ => false

/-- Every fatal call among `calls`, the first of which is SDK call number `start`,
was answered with success. -/
def FatalOk (env : SdkEnv) (start : Nat) (calls : List SdkCall) : Prop :=
  ∀ j c, calls.get? j = some c → connectFatal c = true → env.status (start + j) = SVB_ERROR_CODE.SVB_SUCCESS

/-- A stage of the connection sequence that went from `s` to `r.2` with outcome
`r.1`: it appended the SDK calls `calls`; when it reports success none of its
fatal calls failed, and when it reports failure its last action is a fatal
call that failed, every earlier fatal call having succeeded. -/
def StageSound (env : SdkEnv) (s : SVBDevice) (r : Bool × SVBDevice) : Prop :=
  ∃ calls : List SdkCall,
    sdkTrace r.2.log = sdkTrace s.log ++ calls ∧
    r.2.sdkCalls = s.sdkCalls + calls.length ∧
    (r.1 = true → FatalOk env s.sdkCalls calls) ∧
    (r.1 = false → ∃ init c pre, calls = init ++ [c] ∧ connectFatal c = true ∧
      env.status (s.sdkCalls + init.length) ≠ SVB_ERROR_CODE.SVB_SUCCESS ∧
      r.2.log = pre ++ [Event.sdk c] ∧ FatalOk env s.sdkCalls init)

/-! ## Expected names and discovery traces -/

/-- The name `UniqueName::make` tries when its loop variable `index` is `k`:
the base name for 0, the base name, a blank and the decimal `k` otherwise. -/
def candidateName (cameraName : String) (k : Nat) : String :=
  if k = 0 then cameraName else cameraName ++ " " ++ toString k

/-- The nine control kinds that `createControls` fills, with their index in
`ControlsN` (`CCD_GAIN_N` = 0 up to `CCD_DOFFSET_N` = 8). -/
def controlSlot : SVB_CONTROL_TYPE → Option Nat
  | SVB_CONTROL_TYPE.SVB_GAIN => some 0
  | SVB_CONTROL_TYPE.SVB_CONTRAST => some 1
  | SVB_CONTROL_TYPE.SVB_SHARPNESS => some 2
  | SVB_CONTROL_TYPE.SVB_SATURATION => some 3
  | SVB_CONTROL_TYPE.SVB_WB_R => some 4
  | SVB_CONTROL_TYPE.SVB_WB_G => some 5
  | SVB_CONTROL_TYPE.SVB_WB_B => some 6
  | SVB_CONTROL_TYPE.SVB_GAMMA => some 7
  | SVB_CONTROL_TYPE.SVB_BLACK_LEVEL => some 8
  | _ => none

/-- The step recorded with a control: 10 for the gain, a tenth of the maximum
(integer division) for the others. -/
def controlStep (caps : SVB_CONTROL_CAPS) : ℚ :=
  if caps.ControlType = SVB_CONTROL_TYPE.SVB_GAIN then 10 else ((Int.tdiv caps.MaxValue 10 : Int) : ℚ)

/-- The expected SDK calls for one capability after its query, in the words of
the specification: one set call with the default for each of the nine kinds,
nothing otherwise. -/
def setCallOf (caps : SVB_CONTROL_CAPS) : List Event :=
  match controlSlot caps.ControlType with
  | some _ => [Event.sdk (SdkCall.SVBSetControlValue caps.ControlType caps.DefaultValue false)]
  | none => []

/-- The expected trace of the discovery of the `n` capabilities from index `i`
on, in index order: each query followed by the set call of its capability. -/
def discoveryTrace (env : SdkEnv) : Nat → Int → List Event
  | 0, _ => []
  | n + 1, i =>
    Event.sdk (SdkCall.SVBGetControlCaps i) :: (setCallOf (env.controlCaps i) ++
      discoveryTrace env n (i + 1))

/-- The expected record of one capability in `ControlsN`, in the words of the
specification: its min, max and default (and the step) in the slot of its
kind for the nine kinds, nothing otherwise. -/
def recordCaps (cs : List INumber) (caps : SVB_CONTROL_CAPS) : List INumber :=
  match controlSlot caps.ControlType with
  | some k => cs.set k { min := caps.MinValue, max := caps.MaxValue, step := controlStep caps,
                         value := caps.DefaultValue }
  | none => cs

/-- The expected content of `ControlsN` after the discovery of the `n`
capabilities from index `i` on, in index order. -/
def discoveryControls (env : SdkEnv) : Nat → Int → List INumber → List INumber
  | 0, _, cs => cs
  | n + 1, i, cs => discoveryControls env n (i + 1) (recordCaps cs (env.controlCaps i))

/-- The seven SDK calls with which `workaroundExposure(duration)` starts. -/
def workaroundPrelude (s : SVBDevice) (duration : ℚ) : List Event :=
  [Event.sdk SdkCall.SVBStopVideoCapture,
   Event.sdk (SdkCall.SVBSetControlValue SVB_CONTROL_TYPE.SVB_EXPOSURE
     (truncToLong (duration * 1000 * 1000)) false),
   Event.sdk (SdkCall.SVBSetCameraMode SVB_CAMERA_MODE.SVB_MODE_NORMAL),
   Event.sdk (SdkCall.SVBSetROIFormat s.x_offset s.y_offset s.PrimaryCCD.SubW s.PrimaryCCD.SubH 1),
   Event.sdk SdkCall.SVBStartVideoCapture,
   Event.sdk (SdkCall.SVBSetROIFormat s.x_offset s.y_offset s.PrimaryCCD.SubW s.PrimaryCCD.SubH 1),
   Event.sdk SdkCall.SVBStartVideoCapture]

/-! ## Observations on traces -/

/-- The frame an event hands to the host framework, if it is a delivery. -/
def deliveredFrame : Event → Option (List Nat)
  | Event.ExposureComplete frame => some frame
  | Event.newFrame frame _ => some frame
  | _ => none

/-- The frames delivered along a trace, in order. -/
def delivered (log : List Event) : List (List Nat) :=
  log.filterMap deliveredFrame

/-- The step from `s` to `s2` leaves the capture settings alone and delivers
no frame. -/
def Quiet (s s2 : SVBDevice) : Prop :=
  s2.bitDepth = s.bitDepth ∧ s2.bitStretch = s.bitStretch ∧
    s2.PrimaryCCD.BinX = s.PrimaryCCD.BinX ∧
    s2.PrimaryCCD.frameBufferSize = s.PrimaryCCD.frameBufferSize ∧
    delivered s2.log = delivered s.log

/-- The post-processing both workers apply to a fetched frame `raw`: the
stretch over `totalBytes / 2` samples when the depth is 16 and the factor is
not 0, then the binning when it is active. -/
def postProcess (env : SdkEnv) (s : SVBDevice) (raw : List Nat) : List Nat :=
  let stretched :=
    if s.bitDepth = 16 ∧ s.bitStretch ≠ 0 then
      stretchLoop raw (s.PrimaryCCD.frameBufferSize / 2) s.bitStretch
    else raw
  if isBinningActive s then env.binFrame stretched else stretched

/-! ## Concrete environments and devices -/

/-- An SDK that answers every call with success and never cancels. -/
def envAllSuccess : SdkEnv :=
  { status := fun _ => SVB_ERROR_CODE.SVB_SUCCESS
    frame := fun _ buf => buf
    controlValue := fun _ => 0
    isAboutToQuit := fun _ => false
    binFrame := fun buf => buf }

/-- An SDK whose every call fails with a general error. -/
def envAllFail : SdkEnv :=
  { envAllSuccess with status := fun _ => SVB_ERROR_CODE.SVB_ERROR_GENERAL_ERROR }

/-- An SDK whose third call (the first frame fetch of an exposure without
workaround) fails with a general error, every other call succeeding. -/
def envFetchError : SdkEnv :=
  { envAllSuccess with
    status := fun i =>
      if i = 2 then SVB_ERROR_CODE.SVB_ERROR_GENERAL_ERROR else SVB_ERROR_CODE.SVB_SUCCESS }

/-- An SDK that succeeds and fills the buffer with the two samples 0x0123 and
0xF00F on every fetch. -/
def envTwoSamples : SdkEnv :=
  { envAllSuccess with frame := fun _ _ => [0x23, 0x01, 0x0F, 0xF0] }

/-- A device with a 1920 x 1080 sensor, full-frame, offsets at the origin. -/
def dev1080 : SVBDevice :=
  { MaxWidth := 1920, MaxHeight := 1080,
    PrimaryCCD := { SubW := 1920, SubH := 1080 } }

/-- The same sensor with exposure bounds 0.1 s and 2000 s. -/
def devExposure : SVBDevice :=
  { dev1080 with minExposure := 1 / 10, maxExposure := 2000 }

/-- Exposure bounds in the wrong order. -/
def devBadBounds : SVBDevice :=
  { dev1080 with minExposure := 2, maxExposure := 1 }

/-- A 16-bit device with a four-byte frame buffer and stretch factor x4. -/
def devStretch : SVBDevice :=
  { dev1080 with bitDepth := 16, bitStretch := 2,
                 PrimaryCCD := { SubW := 2, SubH := 1, frameBufferSize := 4, frameBuffer := [0, 0, 0, 0] } }

/-- An 8-bit device with a four-byte frame buffer and no stretch. -/
def devRaw8 : SVBDevice :=
  { dev1080 with bitDepth := 8, bitStretch := 0,
                 PrimaryCCD := { SubW := 4, SubH := 1, frameBufferSize := 4, frameBuffer := [0, 0, 0, 0] } }

/-- A device reading 20.0 degrees with a ramp threshold of 0.25 degrees. -/
def devTemperature : SVBDevice :=
  { dev1080 with TemperatureValue := 20, RampThreshold := 1 / 4, TemperatureRequest := 25 }

/-- The mono-only model, at 16 bits, with a 1920 x 1080 sensor. -/
def devMono : SVBDevice :=
  { dev1080 with FriendlyName := "SVBONY SV305M PRO",
                 PrimaryCCD := { XRes := 1920, YRes := 1080, SubW := 1920, SubH := 1080 } }

/-- An ordinary model switched to the 8-bit format. -/
def devColor8 : SVBDevice :=
  { dev1080 with FriendlyName := "SVBONY SV305", bitDepth := 8,
                 base := { frameFormat := 1, FormatOnIndex := 1 },
                 PrimaryCCD := { XRes := 1920, YRes := 1080, SubW := 1920, SubH := 1080 } }

/-- A device that has not been connected yet. -/
def devNew : SVBDevice :=
  { FriendlyName := "SVBONY SV305" }

/-- A camera with a 1920 x 1080 sensor and two control capabilities, a gain
and a contrast; every call succeeds. -/
def envCamera : SdkEnv :=
  { envAllSuccess with
    cameraMaxWidth := 1920
    cameraMaxHeight := 1080
    sensorPixelSize := 29 / 10
    numOfControls := 2
    controlCaps := fun i =>
      if i = 0 then
        { ControlType := SVB_CONTROL_TYPE.SVB_GAIN, MinValue := 0, MaxValue := 720, DefaultValue := 10 }
      else if i = 1 then
        { ControlType := SVB_CONTROL_TYPE.SVB_CONTRAST, MinValue := 0, MaxValue := 100,
          DefaultValue := 50 }
      else {} }

/-- The same camera when the fifth SDK call (switching auto-save off during
`Connect`) fails. -/
def envAutoSaveFails : SdkEnv :=
  { envCamera with
    status := fun i =>
      if i = 4 then SVB_ERROR_CODE.SVB_ERROR_GENERAL_ERROR else SVB_ERROR_CODE.SVB_SUCCESS }

/-- The same camera when the third SDK call (the query of capability 1 during
discovery from a fresh device) fails. -/
def envCapsQueryFails : SdkEnv :=
  { envCamera with
    status := fun i =>
      if i = 2 then SVB_ERROR_CODE.SVB_ERROR_GENERAL_ERROR else SVB_ERROR_CODE.SVB_SUCCESS }

/-- An SDK whose third call (the first frame fetch of an exposure without
workaround) times out, and a worker whose cancellation flag is found set at
its second read. -/
def envCancelSecond : SdkEnv :=
  { envAllSuccess with
    status := fun i =>
      if i = 2 then SVB_ERROR_CODE.SVB_ERROR_TIMEOUT else SVB_ERROR_CODE.SVB_SUCCESS
    isAboutToQuit := fun j => decide (j = 1) }

/-- A full-frame device with the exposure workaround switched on. -/
def devWorkaround : SVBDevice :=
  { dev1080 with exposureWorkaroundEnable := true }

/-- An SDK whose eighth call (the first frame fetch of a discard exposure
started on a fresh device) fails with a general error, every other call
succeeding. -/
def envDiscardFails : SdkEnv :=
  { envAllSuccess with
    status := fun i =>
      if i = 7 then SVB_ERROR_CODE.SVB_ERROR_GENERAL_ERROR else SVB_ERROR_CODE.SVB_SUCCESS }

/-- A device whose gain control holds 10, within the bounds 0 and 720. -/
def devGain : SVBDevice :=
  { dev1080 with base :=
      { ControlsN := [{ min := 0, max := 720, step := 10, value := 10 }] ++ List.replicate 8 {} } }

/-- A cooled camera whose latest successful poll read 19.8 degrees, whose
temperature property a failed poll then put in the alert state, and which was
reconnected since, so that control discovery has refilled the published
temperature with 25. -/
def devStale : SVBDevice :=
  { dev1080 with FriendlyName := "SVBONY SV405CC", TemperatureValue := 25,
                 props := { mCurrentTemperature := 198 / 10,
                            TemperatureNPs := IPState.IPS_ALERT } }

/-- A cooled camera that has not been connected yet. -/
def devCooled : SVBDevice :=
  { FriendlyName := "SVBONY SV405CC" }

/-- An SDK that reads 19.8 degrees (198) from every control. -/
def envReads198 : SdkEnv :=
  { envAllSuccess with controlValue := fun _ => 198 }

/-- The camera of `envCamera` reading 198 from every control, when the SDK
calls number 18 and 38 fail: in the run of `devReconnected` these are the
temperature reads of the second poll and of the poll after the reconnection. -/
def envTwoFailedPolls : SdkEnv :=
  { envCamera with
    controlValue := fun _ => 198
    status := fun i =>
      if i = 18 ∨ i = 38 then SVB_ERROR_CODE.SVB_ERROR_GENERAL_ERROR
      else SVB_ERROR_CODE.SVB_SUCCESS }

/-- The state in which the poll after a reconnection starts: connection, a
poll that reads 19.8 degrees, a poll whose read fails, disconnection and a
second connection.  `mCurrentTemperature` is written by the first poll before
it is read. -/
def devReconnected : SVBDevice :=
  let c1 := (SVBTemperature.Connect envTwoFailedPolls devCooled).2
  let p1 := temperatureTimerTimeout envTwoFailedPolls c1
  let p2 := temperatureTimerTimeout envTwoFailedPolls p1
  let d := (SVBTemperature.Disconnect envTwoFailedPolls p2).2
  (SVBTemperature.Connect envTwoFailedPolls d).2

/-! ## Theorems -/

open SVB_ERROR_CODE

/-! ### Sub-framing -/

/-- The guard of `UpdateCCDFrame` lets a frame pass exactly when both bounds and
both alignments hold. -/
theorem frameRejected_eq_false_iff_tmod (s : SVBDevice) (x y w h : Int) :
    frameRejected s x y w h = false ↔
      (x + w ≤ s.MaxWidth ∧ y + h ≤ s.MaxHeight ∧ Int.tmod w 8 = 0 ∧ Int.tmod h 2 = 0) := by
  simp only [frameRejected, Bool.or_eq_false_iff, decide_eq_false_iff_not, not_lt, ne_eq,
    not_not, gt_iff_lt, and_assoc]

/-- Claim C1 (amended): UpdateCCDFrame(x, y, w, h) returns success if and only
if x+w <= MaxWidth, y+h <= MaxHeight, w % 8 == 0, h % 2 == 0 and the three SDK
calls it then makes (stop-capture, set-ROI, start-capture) all return success;
whenever it returns failure the stored ROI offsets are unchanged. -/
theorem UpdateCCDFrame_success_iff (env : SdkEnv) (s : SVBDevice) (x y w h : Int) :
    ((UpdateCCDFrame env s x y w h).1 = true ↔
      ((x + w ≤ s.MaxWidth ∧ y + h ≤ s.MaxHeight ∧ Int.tmod w 8 = 0 ∧ Int.tmod h 2 = 0) ∧
        env.status s.sdkCalls = SVB_SUCCESS ∧ env.status (s.sdkCalls + 1) = SVB_SUCCESS ∧
        env.status (s.sdkCalls + 2) = SVB_SUCCESS)) ∧
    ((UpdateCCDFrame env s x y w h).1 = false →
      (UpdateCCDFrame env s x y w h).2.x_offset = s.x_offset ∧
      (UpdateCCDFrame env s x y w h).2.y_offset = s.y_offset) := by
  rw [← frameRejected_eq_false_iff_tmod]
  cases hr : frameRejected s x y w h
  · by_cases h1 : env.status s.sdkCalls = SVB_SUCCESS
    · by_cases h2 : env.status (s.sdkCalls + 1) = SVB_SUCCESS
      · by_cases h3 : env.status (s.sdkCalls + 2) = SVB_SUCCESS
        · simp [UpdateCCDFrame, hr, sdkCall, h1, h2, h3, baseUpdateCCDFrame]
        · simp [UpdateCCDFrame, hr, sdkCall, h1, h2, h3]
      · simp [UpdateCCDFrame, hr, sdkCall, h1, h2]
    · simp [UpdateCCDFrame, hr, sdkCall, h1]
  · simp [UpdateCCDFrame, hr]

/-- Witness of claim C1 (amended): a valid frame on an SDK that fails; the call
fails and the offsets stay. -/
theorem UpdateCCDFrame_success_iff_witness :
    (UpdateCCDFrame envAllFail dev1080 0 0 8 2).1 = false ∧
      (UpdateCCDFrame envAllFail dev1080 0 0 8 2).2.x_offset = dev1080.x_offset ∧
      (UpdateCCDFrame envAllFail dev1080 0 0 8 2).2.y_offset = dev1080.y_offset :=
  ⟨by decide, (UpdateCCDFrame_success_iff envAllFail dev1080 0 0 8 2).2 (by decide)⟩

/-- Counterexample to claim C1 as stated: the frame (0, 0, 8, 2) on a 1920 x 1080
sensor passes every bound and alignment test, yet UpdateCCDFrame returns
failure because the SDK refuses stop-capture. -/
theorem UpdateCCDFrame_iff_counterexample :
    ¬ ((UpdateCCDFrame envAllFail dev1080 0 0 8 2).1 = true ↔
        ((0 : Int) + 8 ≤ dev1080.MaxWidth ∧ (0 : Int) + 2 ≤ dev1080.MaxHeight ∧
          Int.tmod 8 8 = 0 ∧ Int.tmod 2 2 = 0)) := by
  decide

/-- Claim C7: for every (x, y, w, h) that fails a bound or an alignment test,
UpdateCCDFrame returns false and the whole device state, trace of SDK calls and
ROI offsets included, is what it was before the call. -/
theorem UpdateCCDFrame_invalid_untouched (env : SdkEnv) (s : SVBDevice) (x y w h : Int)
    (hbad : ¬ (x + w ≤ s.MaxWidth ∧ y + h ≤ s.MaxHeight ∧ Int.tmod w 8 = 0 ∧ Int.tmod h 2 = 0)) :
    UpdateCCDFrame env s x y w h = (false, s) := by
  have hr : frameRejected s x y w h = true := by
    rw [← frameRejected_eq_false_iff_tmod] at hbad
    simpa using hbad
  simp [UpdateCCDFrame, hr]

/-- Witness of claim C7: width 1921 is out of bounds and not a multiple of 8. -/
theorem UpdateCCDFrame_invalid_untouched_witness :
    ¬ ((0 : Int) + 1921 ≤ dev1080.MaxWidth ∧ (0 : Int) + 1080 ≤ dev1080.MaxHeight ∧
        Int.tmod 1921 8 = 0 ∧ Int.tmod 1080 2 = 0) ∧
      UpdateCCDFrame envAllSuccess dev1080 0 0 1921 1080 = (false, dev1080) :=
  ⟨by decide, UpdateCCDFrame_invalid_untouched envAllSuccess dev1080 0 0 1921 1080 (by decide)⟩

/-! ### Exposure start, abort, temperature -/

/-- Claim C2 (amended): StartExposure passes to the exposure worker and to the
progress-timer worker the same duration c = min(maxExposure, max(minExposure, d)):
the lower bound is applied first, the upper bound last.  When
minExposure <= maxExposure this is max(minExposure, min(maxExposure, d)). -/
theorem StartExposure_clamp (s : SVBDevice) (d : ℚ) :
    (StartExposure s d).1 = true ∧
    (StartExposure s d).2.inExposure = true ∧
    (StartExposure s d).2.mWorker =
      some (WorkerTask.workerExposure (min s.maxExposure (max s.minExposure d))) ∧
    (StartExposure s d).2.mExposureTimerWorker =
      some (WorkerTask.workerTimerExposure (min s.maxExposure (max s.minExposure d))) ∧
    (StartExposure s d).2.log = s.log ++
      [Event.workerStart (WorkerTask.workerExposure (min s.maxExposure (max s.minExposure d))),
       Event.timerWorkerStart
         (WorkerTask.workerTimerExposure (min s.maxExposure (max s.minExposure d)))] ∧
    (s.minExposure ≤ s.maxExposure →
      min s.maxExposure (max s.minExposure d) = max s.minExposure (min s.maxExposure d)) := by
  have hc : (if (if d < s.minExposure then s.minExposure else d) > s.maxExposure then s.maxExposure
      else (if d < s.minExposure then s.minExposure else d)) =
      min s.maxExposure (max s.minExposure d) := by
    by_cases h1 : d < s.minExposure
    · rw [if_pos h1, max_eq_left h1.le]
      by_cases h2 : s.minExposure > s.maxExposure
      · rw [if_pos h2, min_eq_left (le_of_lt h2)]
      · rw [if_neg h2, min_eq_right (not_lt.mp h2)]
    · rw [if_neg h1, max_eq_right (not_lt.mp h1)]
      by_cases h2 : d > s.maxExposure
      · rw [if_pos h2, min_eq_left (le_of_lt h2)]
      · rw [if_neg h2, min_eq_right (not_lt.mp h2)]
  refine ⟨rfl, rfl, ?_, ?_, ?_, ?_⟩
  · simp only [StartExposure, emit, hc]
  · simp only [StartExposure, emit, hc]
  · simp only [StartExposure, emit, hc, List.append_assoc, List.singleton_append]
  · intro hle
    rcases le_total d s.minExposure with h1 | h1
    · rw [max_eq_left h1, min_eq_right hle, min_eq_right (h1.trans hle), max_eq_left h1]
    · rw [max_eq_right h1]
      rcases le_total d s.maxExposure with h2 | h2
      · rw [min_eq_right h2, max_eq_right h1]
      · rw [min_eq_left h2, max_eq_right hle]

/-- Witness of claim C2 (amended): bounds 0.1 s and 2000 s, request 0.001 s. -/
theorem StartExposure_clamp_witness :
    min devExposure.maxExposure (max devExposure.minExposure (1 / 1000)) =
      max devExposure.minExposure (min devExposure.maxExposure (1 / 1000)) :=
  (StartExposure_clamp devExposure (1 / 1000)).2.2.2.2.2 (by decide!)

/-- Counterexample to claim C2 as stated: with minExposure = 2 and
maxExposure = 1 a request of 0 s is passed on as 1 s, while
max(minExposure, min(maxExposure, d)) is 2 s. -/
theorem StartExposure_clamp_counterexample :
    (StartExposure devBadBounds 0).2.mWorker ≠
      some (WorkerTask.workerExposure (max devBadBounds.minExposure (min devBadBounds.maxExposure 0))) := by
  decide!

/-- Claim C8: for every target t with |t - current| < threshold,
SetTemperature(t) returns 1 and leaves the whole device state as it was: no
SDK call is logged, the cooler switch and TemperatureRequest are unchanged. -/
theorem SetTemperature_below_threshold (env : SdkEnv) (s : SVBDevice) (t : ℚ)
    (h : |t - s.TemperatureValue| < s.RampThreshold) :
    SetTemperature env s t = (1, s) := by
  simp [SetTemperature, h]

/-- Witness of claim C8: current temperature 20.0, threshold 0.25, target 20.1. -/
theorem SetTemperature_below_threshold_witness :
    SetTemperature envAllSuccess devTemperature (201 / 10) = (1, devTemperature) :=
  SetTemperature_below_threshold envAllSuccess devTemperature (201 / 10) (by decide!)

/-- Claim C9: whatever the SDK answers, AbortExposure returns true, leaves
inExposure false, has quit both workers, and issues exactly stop-capture,
set-mode(soft trigger), set-ROI(x_offset, y_offset, SubW, SubH, 1),
start-capture, in that order. -/
theorem AbortExposure_sequence (env : SdkEnv) (s : SVBDevice) :
    (AbortExposure env s).1 = true ∧
    (AbortExposure env s).2.inExposure = false ∧
    (AbortExposure env s).2.mWorker = none ∧
    (AbortExposure env s).2.mExposureTimerWorker = none ∧
    (AbortExposure env s).2.log = s.log ++
      [Event.workerQuit, Event.timerWorkerQuit,
       Event.sdk SdkCall.SVBStopVideoCapture,
       Event.sdk (SdkCall.SVBSetCameraMode SVB_CAMERA_MODE.SVB_MODE_TRIG_SOFT),
       Event.sdk (SdkCall.SVBSetROIFormat s.x_offset s.y_offset s.PrimaryCCD.SubW s.PrimaryCCD.SubH 1),
       Event.sdk SdkCall.SVBStartVideoCapture] := by
  simp [AbortExposure, resetCaptureModeAndRoi, sdkCall, emit]

/-! ### Streaming start-up -/

/-- A frame fetch appends exactly its own call to the trace. -/
theorem SVBGetVideoData_log (env : SdkEnv) (s : SVBDevice) (b : Bool) (n : Nat) (w : Int) :
    (SVBGetVideoData env s b n w).2.log = s.log ++ [Event.sdk (SdkCall.SVBGetVideoData b n w)] := by
  unfold SVBGetVideoData sdkCall; split <;> rfl

/-- The polling loop of `workerExposure` on `n` timeouts followed by a success,
without cancellation: `n + 1` fetches, then the loop ends with a frame. -/
theorem exposurePoll_timeouts (env : SdkEnv) (hq : ∀ j, env.isAboutToQuit j = false) (n : Nat) :
    ∀ (fuel : Nat) (s : SVBDevice), n < fuel →
      (∀ k, k < n → env.status (s.sdkCalls + k) = SVB_ERROR_TIMEOUT) →
      env.status (s.sdkCalls + n) = SVB_SUCCESS →
      ∃ data, exposurePoll env SVB_SUCCESS fuel s = some (PollOutcome.fetched,
        { s with
          PrimaryCCD := { s.PrimaryCCD with frameBuffer := data }
          lastFetched := data
          sdkCalls := s.sdkCalls + (n + 1)
          quitPolls := s.quitPolls + (n + 1)
          log := s.log ++ List.replicate (n + 1)
            (Event.sdk (SdkCall.SVBGetVideoData true s.PrimaryCCD.frameBufferSize 100)) }) := by
  induction n with
  | zero =>
    intro fuel s hfuel _ hS
    obtain ⟨f, rfl⟩ : ∃ f, fuel = f + 1 := ⟨fuel - 1, by omega⟩
    refine ⟨env.frame s.sdkCalls s.PrimaryCCD.frameBuffer, ?_⟩
    simp only [Nat.add_zero] at hS
    simp [exposurePoll, readQuit, hq, SVBGetVideoData, sdkCall, hS]
  | succ n ih =>
    intro fuel s hfuel hT hS
    obtain ⟨f, rfl⟩ : ∃ f, fuel = f + 1 := ⟨fuel - 1, by omega⟩
    have h0 : env.status s.sdkCalls = SVB_ERROR_TIMEOUT := by
      simpa using hT 0 (Nat.succ_pos n)
    let s1 : SVBDevice := (SVBGetVideoData env (readQuit env s).2 true
      (readQuit env s).2.PrimaryCCD.frameBufferSize 100).2
    have hs1 : s1.sdkCalls = s.sdkCalls + 1 := by
      simp [s1, SVBGetVideoData, sdkCall, readQuit]
    obtain ⟨data, hd⟩ := ih f s1 (by omega)
      (by
        intro k hk
        rw [hs1]
        have := hT (k + 1) (by omega)
        rw [← this]; congr 1; omega)
      (by rw [hs1, ← hS]; congr 1; omega)
    refine ⟨data, ?_⟩
    have hstep : exposurePoll env SVB_SUCCESS (f + 1) s = exposurePoll env SVB_SUCCESS f s1 := by
      simp [exposurePoll, readQuit, hq, SVBGetVideoData, sdkCall, h0, s1]
    rw [hstep, hd]
    simp [s1, SVBGetVideoData, sdkCall, readQuit, List.replicate_succ]
    constructor
    · omega
    · omega

/-- Binning activity depends on the horizontal bin factor only. -/
theorem isBinningActive_congr (s s' : SVBDevice) (h : s'.PrimaryCCD.BinX = s.PrimaryCCD.BinX) :
    isBinningActive s' = isBinningActive s := by
  simp [isBinningActive, h]

/-- What the end of `workerExposure` appends to the trace and leaves in the
state. -/
theorem exposureDone_spec (env : SdkEnv) (s : SVBDevice) :
    (exposureDone env s).log = s.log ++ [Event.setExposureLeft 0] ++
        (if isBinningActive s then [Event.binFrame] else []) ++
        [Event.ExposureComplete (exposureDone env s).PrimaryCCD.frameBuffer,
         Event.sdk (SdkCall.SVBGetControlValue SVB_CONTROL_TYPE.SVB_BLACK_LEVEL)] ∧
    (exposureDone env s).PrimaryCCD.exposureLeft = 0 ∧
    (exposureDone env s).inExposure = false ∧
    (exposureDone env s).sdkCalls = s.sdkCalls + 1 := by
  by_cases hb : isBinningActive s = true
  · by_cases hst : s.bitDepth = 16 ∧ s.bitStretch ≠ 0
    · have hb' : s.PrimaryCCD.BinX > 1 := by simpa [isBinningActive] using hb
      simp [exposureDone, stretchFrame, binIfActive, isBinningActive, emit, sdkCall, hst, hb']
    · have hb' : s.PrimaryCCD.BinX > 1 := by simpa [isBinningActive] using hb
      simp [exposureDone, stretchFrame, binIfActive, isBinningActive, emit, sdkCall, hst, hb']
  · have hb' : ¬ s.PrimaryCCD.BinX > 1 := by simpa [isBinningActive] using hb
    by_cases hst : s.bitDepth = 16 ∧ s.bitStretch ≠ 0
    · simp [exposureDone, stretchFrame, binIfActive, isBinningActive, emit, sdkCall, hst, hb']
    · simp [exposureDone, stretchFrame, binIfActive, isBinningActive, emit, sdkCall, hst, hb']

/-- A 16-bit store keeps the buffer length. -/
theorem writeU16_length (buf : List Nat) (i v : Nat) : (writeU16 buf i v).length = buf.length := by
  simp [writeU16]

/-- Reading back the sample just stored. -/
theorem readU16_writeU16_same (buf : List Nat) (i v : Nat) (hi : 2 * i + 1 < buf.length) :
    readU16 (writeU16 buf i v) i = v := by
  have h0 : 2 * i < buf.length := by omega
  simp only [readU16, writeU16, List.getD_eq_getElem?_getD, List.getElem?_set]
  simp [h0, hi, List.length_set]
  omega

/-- A store to sample `i` leaves every other sample alone. -/
theorem readU16_writeU16_ne (buf : List Nat) (i j v : Nat) (hij : i ≠ j) :
    readU16 (writeU16 buf i v) j = readU16 buf j := by
  have h1 : 2 * i ≠ 2 * j := by omega
  have h2 : 2 * i + 1 ≠ 2 * j := by omega
  have h3 : 2 * i ≠ 2 * j + 1 := by omega
  have h4 : 2 * i + 1 ≠ 2 * j + 1 := by omega
  simp [readU16, writeU16, List.getD_eq_getElem?_getD, List.getElem?_set, h1, h2, h3, h4]

/-- The last iteration of the stretch loop. -/
theorem stretchLoop_succ (buf : List Nat) (n k : Nat) :
    stretchLoop buf (n + 1) k =
      writeU16 (stretchLoop buf n k) n (shl16 (readU16 (stretchLoop buf n k) n) k) := by
  simp [stretchLoop, List.range_succ, List.foldl_append]

/-- The stretch loop keeps the buffer length. -/
theorem stretchLoop_length (buf : List Nat) (n k : Nat) :
    (stretchLoop buf n k).length = buf.length := by
  induction n with
  | zero => simp [stretchLoop]
  | succ n ih => rw [stretchLoop_succ, writeU16_length, ih]

/-- After the stretch loop over `n` samples, each of them has been shifted
once and every later sample is untouched. -/
theorem readU16_stretchLoop (buf : List Nat) (k : Nat) (n : Nat) (hlen : 2 * n ≤ buf.length) (j : Nat) :
    readU16 (stretchLoop buf n k) j = if j < n then shl16 (readU16 buf j) k else readU16 buf j := by
  induction n with
  | zero => simp [stretchLoop]
  | succ n ih =>
    have ih' := ih (by omega)
    rw [stretchLoop_succ]
    by_cases hj : j = n
    · subst hj
      rw [readU16_writeU16_same _ _ _ (by rw [stretchLoop_length]; omega), ih']
      simp
    · rw [readU16_writeU16_ne _ _ _ _ (Ne.symm hj), ih']
      by_cases hlt : j < n
      · simp [hlt, Nat.lt_succ_of_lt hlt]
      · have : ¬ j < n + 1 := by omega
        simp [hlt, this]

/-- The 16-bit left shift as arithmetic. -/
theorem shl16_eq (v k : Nat) : shl16 v k = (v * 2 ^ k) % 2 ^ 16 := by
  simp [shl16, Nat.shiftLeft_eq]

/-! ### Delivered frames -/

/-- The empty step is quiet. -/
theorem Quiet.refl (s : SVBDevice) : Quiet s s := ⟨rfl, rfl, rfl, rfl, rfl⟩

/-- Quiet steps compose. -/
theorem Quiet.trans {a b c : SVBDevice} (h1 : Quiet a b) (h2 : Quiet b c) : Quiet a c := by
  obtain ⟨a1, a2, a3, a4, a5⟩ := h1
  obtain ⟨b1, b2, b3, b4, b5⟩ := h2
  exact ⟨b1.trans a1, b2.trans a2, b3.trans a3, b4.trans a4, b5.trans a5⟩

/-- An SDK call is quiet. -/
theorem quiet_sdkCall (env : SdkEnv) (s : SVBDevice) (c : SdkCall) : Quiet s (sdkCall env s c).2 := by
  simp [Quiet, sdkCall, delivered, deliveredFrame, List.filterMap_append]

/-- Logging an event that is not a delivery is quiet. -/
theorem quiet_emit (s : SVBDevice) (e : Event) (he : deliveredFrame e = none) : Quiet s (emit s e) := by
  simp [Quiet, emit, delivered, List.filterMap_append, he]

/-- A frame fetch is quiet. -/
theorem quiet_getVideoData (env : SdkEnv) (s : SVBDevice) (b : Bool) (n : Nat) (w : Int) :
    Quiet s (SVBGetVideoData env s b n w).2 := by
  cases b <;> simp [Quiet, SVBGetVideoData, sdkCall, delivered, deliveredFrame, List.filterMap_append]

/-- Reading the cancellation flag is quiet. -/
theorem quiet_readQuit (env : SdkEnv) (s : SVBDevice) : Quiet s (readQuit env s).2 := by
  simp [Quiet, readQuit]

/-- The mode reset is quiet. -/
theorem quiet_reset (env : SdkEnv) (s : SVBDevice) (m : SVB_CAMERA_MODE) :
    Quiet s (resetCaptureModeAndRoi env s m) := by
  simp [Quiet, resetCaptureModeAndRoi, sdkCall, delivered, deliveredFrame, List.filterMap_append]

/-- The polling loop of the discard exposure is quiet. -/
theorem quiet_workaroundPoll (env : SdkEnv) (w : Int) (fuel : Nat) :
    ∀ (s s2 : SVBDevice) (b : Bool), workaroundPoll env w fuel s = some (b, s2) → Quiet s s2 := by
  induction fuel with
  | zero => intro s s2 b h; simp [workaroundPoll] at h
  | succ n ih =>
    intro s s2 b h
    have hg := quiet_getVideoData env s false s.PrimaryCCD.frameBufferSize w
    unfold workaroundPoll at h
    simp only [] at h
    split at h
    · cases h
      exact hg.trans (quiet_emit _ _ rfl)
    · split at h
      · exact hg.trans (ih _ _ _ h)
      · cases h; exact hg

/-- The discard exposure is quiet. -/
theorem quiet_workaroundExposure (env : SdkEnv) (fuel : Nat) (s s2 : SVBDevice) (d : ℚ)
    (h : workaroundExposure env fuel s d = some s2) : Quiet s s2 := by
  unfold workaroundExposure at h
  simp only [] at h
  have h7 : Quiet s (sdkCall env (sdkCall env (sdkCall env (sdkCall env (sdkCall env (sdkCall env
      (sdkCall env s SdkCall.SVBStopVideoCapture).2
      (SdkCall.SVBSetControlValue SVB_CONTROL_TYPE.SVB_EXPOSURE (truncToLong (d * 1000 * 1000)) false)).2
      (SdkCall.SVBSetCameraMode SVB_CAMERA_MODE.SVB_MODE_NORMAL)).2
      (SdkCall.SVBSetROIFormat s.x_offset s.y_offset s.PrimaryCCD.SubW s.PrimaryCCD.SubH 1)).2
      SdkCall.SVBStartVideoCapture).2
      (SdkCall.SVBSetROIFormat s.x_offset s.y_offset s.PrimaryCCD.SubW s.PrimaryCCD.SubH 1)).2
      SdkCall.SVBStartVideoCapture).2 :=
    ((((((quiet_sdkCall env _ _).trans (quiet_sdkCall env _ _)).trans (quiet_sdkCall env _ _)).trans
      (quiet_sdkCall env _ _)).trans (quiet_sdkCall env _ _)).trans (quiet_sdkCall env _ _)).trans
      (quiet_sdkCall env _ _)
  split at h
  · cases h
  · next s1 hp => cases h; exact h7.trans (quiet_workaroundPoll env _ fuel _ _ _ hp)
  · next s1 hp =>
    cases h
    exact (h7.trans (quiet_workaroundPoll env _ fuel _ _ _ hp)).trans (quiet_reset env _ _)

/-- The polling loop of `workerExposure` is quiet, and when it ends with a
frame the buffer is as the last fetch left it. -/
theorem quiet_exposurePoll (env : SdkEnv) (ret : SVB_ERROR_CODE) (fuel : Nat) :
    ∀ (s s2 : SVBDevice) (o : PollOutcome), exposurePoll env ret fuel s = some (o, s2) →
      Quiet s s2 ∧ (o = PollOutcome.fetched → s2.PrimaryCCD.frameBuffer = s2.lastFetched) := by
  induction fuel with
  | zero => intro s s2 o h; simp [exposurePoll] at h
  | succ n ih =>
    intro s s2 o h
    have hq := quiet_readQuit env s
    have hg := quiet_getVideoData env (readQuit env s).2 true
      (readQuit env s).2.PrimaryCCD.frameBufferSize 100
    unfold exposurePoll at h
    simp only [] at h
    split at h
    · cases h; exact ⟨hq, by intro h'; cases h'⟩
    · split at h
      · cases h
        exact ⟨(hq.trans hg).trans (quiet_emit _ _ rfl), by intro h'; cases h'⟩
      · split at h
        · obtain ⟨h1, h2⟩ := ih _ _ _ h
          exact ⟨(hq.trans hg).trans h1, h2⟩
        · cases h
          refine ⟨hq.trans hg, ?_⟩
          intro _
          simp [SVBGetVideoData]

/-- Post-processing depends on the capture settings only. -/
theorem postProcess_congr (env : SdkEnv) (s s2 : SVBDevice) (h : Quiet s s2) (raw : List Nat) :
    postProcess env s2 raw = postProcess env s raw := by
  obtain ⟨h1, h2, h3, h4, -⟩ := h
  simp [postProcess, isBinningActive, h1, h2, h3, h4]

/-- The end of `workerExposure` delivers the post-processed buffer. -/
theorem exposureDone_delivered (env : SdkEnv) (s : SVBDevice) :
    delivered (exposureDone env s).log =
        delivered s.log ++ [postProcess env s s.PrimaryCCD.frameBuffer] ∧
      (exposureDone env s).lastFetched = s.lastFetched := by
  by_cases hb : s.PrimaryCCD.BinX > 1
  · by_cases hst : s.bitDepth = 16 ∧ s.bitStretch ≠ 0
    · simp [exposureDone, stretchFrame, binIfActive, isBinningActive, emit, sdkCall, hst, hb,
        delivered, deliveredFrame, List.filterMap_append, postProcess]
    · simp [exposureDone, stretchFrame, binIfActive, isBinningActive, emit, sdkCall, hst, hb,
        delivered, deliveredFrame, List.filterMap_append, postProcess]
  · by_cases hst : s.bitDepth = 16 ∧ s.bitStretch ≠ 0
    · simp [exposureDone, stretchFrame, binIfActive, isBinningActive, emit, sdkCall, hst, hb,
        delivered, deliveredFrame, List.filterMap_append, postProcess]
    · simp [exposureDone, stretchFrame, binIfActive, isBinningActive, emit, sdkCall, hst, hb,
        delivered, deliveredFrame, List.filterMap_append, postProcess]

/-- An exposure without workaround delivers nothing or the post-processed
fetched frame. -/
theorem exposeAndFetch_delivered (env : SdkEnv) (fuel : Nat) (s s2 : SVBDevice) (c : ℚ)
    (h : exposeAndFetch env fuel s c = some s2) :
    (delivered s2.log = delivered s.log ∨
      delivered s2.log = delivered s.log ++ [postProcess env s s2.lastFetched]) := by
  unfold exposeAndFetch at h
  simp only [] at h
  have h1 : Quiet s (emit { s with PrimaryCCD := { s.PrimaryCCD with exposureDuration := c } }
      (Event.setExposureDuration c)) := by
    simp [Quiet, emit, delivered, deliveredFrame, List.filterMap_append]
  have h2 := h1.trans (quiet_sdkCall env _
    (SdkCall.SVBSetControlValue SVB_CONTROL_TYPE.SVB_EXPOSURE (truncToLong (c * 1000 * 1000)) false))
  have h3 := h2.trans (quiet_sdkCall env _ SdkCall.SVBSendSoftTrigger)
  split at h
  · cases h; exact Or.inl (h2.trans (quiet_emit _ Event.setExposureFailed rfl)).2.2.2.2
  · split at h
    · cases h; exact Or.inl (h3.trans (quiet_emit _ Event.setExposureFailed rfl)).2.2.2.2
    · split at h
      · cases h
      · next s3 hp =>
        cases h
        obtain ⟨hq, hbuf⟩ := quiet_exposurePoll env _ fuel _ _ _ hp
        have hq' := h3.trans hq
        obtain ⟨hd, hl⟩ := exposureDone_delivered env s3
        right
        rw [hd, hl, hbuf rfl, postProcess_congr env s s3 hq', hq'.2.2.2.2]
      · next o s3 hne hp =>
        cases h
        obtain ⟨hq, -⟩ := quiet_exposurePoll env _ fuel _ _ _ hp
        exact Or.inl (h3.trans hq).2.2.2.2

/-- A run of `workerExposure` delivers nothing or the post-processed fetched
frame. -/
theorem workerExposure_delivered (env : SdkEnv) (fuel : Nat) (s s2 : SVBDevice) (c : ℚ)
    (h : workerExposure env fuel s c = some s2) :
    (delivered s2.log = delivered s.log ∨
      delivered s2.log = delivered s.log ++ [postProcess env s s2.lastFetched]) := by
  unfold workerExposure at h
  split at h
  · split at h
    · cases h
    · next s0 hw =>
      have hq := quiet_workaroundExposure env fuel s s0 _ hw
      rcases exposeAndFetch_delivered env fuel s0 s2 c h with h' | h'
      · exact Or.inl (h'.trans hq.2.2.2.2)
      · right
        rw [h', postProcess_congr env s s0 hq, hq.2.2.2.2]
  · exact exposeAndFetch_delivered env fuel s s2 c h

/-- One pass through the streaming loop delivers the post-processed fetched
frame when the fetch succeeds and nothing otherwise. -/
theorem streamBody_delivered (env : SdkEnv) (s : SVBDevice) :
    (env.status s.sdkCalls = SVB_SUCCESS →
      (streamBody env s).1 = true ∧
      delivered (streamBody env s).2.log = delivered s.log ++
        [postProcess env s (env.frame s.sdkCalls s.PrimaryCCD.frameBuffer)]) ∧
    (env.status s.sdkCalls ≠ SVB_SUCCESS →
      delivered (streamBody env s).2.log = delivered s.log) := by
  constructor
  · intro hs
    by_cases hb : s.PrimaryCCD.BinX > 1
    · by_cases hst : s.bitDepth = 16 ∧ s.bitStretch ≠ 0
      · simp [streamBody, SVBGetVideoData, stretchFrame, binIfActive, isBinningActive, emit, sdkCall,
          hst, hb, hs, delivered, deliveredFrame, List.filterMap_append, postProcess]
      · simp [streamBody, SVBGetVideoData, stretchFrame, binIfActive, isBinningActive, emit, sdkCall,
          hst, hb, hs, delivered, deliveredFrame, List.filterMap_append, postProcess]
    · by_cases hst : s.bitDepth = 16 ∧ s.bitStretch ≠ 0
      · simp [streamBody, SVBGetVideoData, stretchFrame, binIfActive, isBinningActive, emit, sdkCall,
          hst, hb, hs, delivered, deliveredFrame, List.filterMap_append, postProcess]
      · simp [streamBody, SVBGetVideoData, stretchFrame, binIfActive, isBinningActive, emit, sdkCall,
          hst, hb, hs, delivered, deliveredFrame, List.filterMap_append, postProcess]
  · intro hs
    by_cases ht : env.status s.sdkCalls = SVB_ERROR_TIMEOUT
    · simp [streamBody, SVBGetVideoData, emit, sdkCall, hs, ht, delivered, deliveredFrame,
        List.filterMap_append]
    · simp [streamBody, SVBGetVideoData, emit, sdkCall, hs, ht, delivered, deliveredFrame,
        List.filterMap_append]


/-- Post-processing reads four settings only. -/
theorem postProcess_settings (env : SdkEnv) (s s2 : SVBDevice)
    (h1 : s2.bitDepth = s.bitDepth) (h2 : s2.bitStretch = s.bitStretch)
    (h3 : s2.PrimaryCCD.BinX = s.PrimaryCCD.BinX)
    (h4 : s2.PrimaryCCD.frameBufferSize = s.PrimaryCCD.frameBufferSize) (raw : List Nat) :
    postProcess env s2 raw = postProcess env s raw := by
  simp [postProcess, isBinningActive, h1, h2, h3, h4]

/-- One pass through the streaming loop keeps the capture settings. -/
theorem streamBody_settings (env : SdkEnv) (s : SVBDevice) :
    (streamBody env s).2.bitDepth = s.bitDepth ∧
    (streamBody env s).2.bitStretch = s.bitStretch ∧
    (streamBody env s).2.PrimaryCCD.BinX = s.PrimaryCCD.BinX ∧
    (streamBody env s).2.PrimaryCCD.frameBufferSize = s.PrimaryCCD.frameBufferSize := by
  unfold streamBody
  simp only []
  split
  · split <;> simp [SVBGetVideoData, sdkCall, emit]
  · unfold binIfActive stretchFrame
    split <;> split <;> simp [SVBGetVideoData, sdkCall, emit]

/-- The streaming loop keeps the capture settings, and every frame it delivers
is a post-processed buffer of a frame fetch. -/
theorem streamLoop_delivered (env : SdkEnv) (fuel : Nat) :
    ∀ s s2, streamLoop env fuel s = some s2 →
      (s2.bitDepth = s.bitDepth ∧ s2.bitStretch = s.bitStretch ∧
        s2.PrimaryCCD.BinX = s.PrimaryCCD.BinX ∧
        s2.PrimaryCCD.frameBufferSize = s.PrimaryCCD.frameBufferSize) ∧
      ∃ frames, delivered s2.log = delivered s.log ++ frames ∧
        ∀ f, f ∈ frames → ∃ i buf, f = postProcess env s (env.frame i buf) := by
  induction fuel with
  | zero => intro s s2 h; simp [streamLoop] at h
  | succ n ih =>
    intro s s2 h
    unfold streamLoop at h
    simp only [] at h
    have hq := quiet_readQuit env s
    obtain ⟨q1, q2, q3, q4, q5⟩ := hq
    split at h
    · cases h
      exact ⟨⟨q1, q2, q3, q4⟩, [], by simp [q5], by simp⟩
    · obtain ⟨b1, b2, b3, b4⟩ := streamBody_settings env (readQuit env s).2
      have hbody : ∃ frames, delivered (streamBody env (readQuit env s).2).2.log =
          delivered s.log ++ frames ∧
          ∀ f, f ∈ frames → ∃ i buf, f = postProcess env s (env.frame i buf) := by
        by_cases hs : env.status (readQuit env s).2.sdkCalls = SVB_SUCCESS
        · refine ⟨[postProcess env s (env.frame (readQuit env s).2.sdkCalls
            (readQuit env s).2.PrimaryCCD.frameBuffer)], ?_, ?_⟩
          · rw [((streamBody_delivered env _).1 hs).2, q5,
              postProcess_settings env s _ q1 q2 q3 q4]
          · intro f hf
            simp only [List.mem_singleton] at hf
            exact ⟨_, _, hf⟩
        · exact ⟨[], by rw [(streamBody_delivered env _).2 hs, q5]; simp, by simp⟩
      obtain ⟨fr1, hfr1, hmem1⟩ := hbody
      split at h
      · obtain ⟨⟨r1, r2, r3, r4⟩, fr2, hfr2, hmem2⟩ := ih _ _ h
        refine ⟨⟨r1.trans (b1.trans q1), r2.trans (b2.trans q2), r3.trans (b3.trans q3),
          r4.trans (b4.trans q4)⟩, fr1 ++ fr2, ?_, ?_⟩
        · rw [hfr2, hfr1, List.append_assoc]
        · intro f hf
          rcases List.mem_append.mp hf with hf | hf
          · exact hmem1 f hf
          · obtain ⟨i, buf, hi⟩ := hmem2 f hf
            refine ⟨i, buf, ?_⟩
            rw [hi]
            exact postProcess_settings env s _ (b1.trans q1) (b2.trans q2) (b3.trans q3)
              (b4.trans q4) _
      · cases h
        exact ⟨⟨b1.trans q1, b2.trans q2, b3.trans q3, b4.trans q4⟩, fr1, hfr1, hmem1⟩

/-- The streaming start-up is quiet. -/
theorem quiet_streamSetup (env : SdkEnv) (s : SVBDevice) : Quiet s (streamSetup env s) := by
  simp [Quiet, streamSetup, sdkCall, emit, delivered, deliveredFrame, List.filterMap_append]

/-- Every frame a run of `workerStreamVideo` delivers is a post-processed
buffer of a frame fetch. -/
theorem workerStreamVideo_delivered (env : SdkEnv) (fuel : Nat) (s s2 : SVBDevice)
    (h : workerStreamVideo env fuel s = some s2) :
    ∃ frames, delivered s2.log = delivered s.log ++ frames ∧
      ∀ f, f ∈ frames → ∃ i buf, f = postProcess env s (env.frame i buf) := by
  obtain ⟨q1, q2, q3, q4, q5⟩ := quiet_streamSetup env s
  obtain ⟨-, frames, hfr, hmem⟩ := streamLoop_delivered env fuel _ _ h
  refine ⟨frames, by rw [hfr, q5], ?_⟩
  intro f hf
  obtain ⟨i, buf, hi⟩ := hmem f hf
  exact ⟨i, buf, by rw [hi]; exact postProcess_settings env s _ q1 q2 q3 q4 _⟩

/-! ### Claims on the fetched frame -/

/-- Claim C3 (code at the failing input): the first frame fetch of an exposure
returns SVB_ERROR_GENERAL_ERROR, neither success nor timeout.  The worker does
not mark the exposure failed; it fetches a second time and signals
exposure-complete. -/
theorem workerExposure_fetch_error_not_failed :
    Option.map (fun s => s.log) (workerExposure envFetchError 2 devExposure (1 / 10)) =
      some
        [Event.setExposureDuration (1 / 10),
         Event.sdk (SdkCall.SVBSetControlValue SVB_CONTROL_TYPE.SVB_EXPOSURE 100000 false),
         Event.sdk SdkCall.SVBSendSoftTrigger,
         Event.sdk (SdkCall.SVBGetVideoData true 0 100),
         Event.sdk (SdkCall.SVBGetVideoData true 0 100),
         Event.setExposureLeft 0,
         Event.ExposureComplete [],
         Event.sdk (SdkCall.SVBGetControlValue SVB_CONTROL_TYPE.SVB_BLACK_LEVEL)] := by
  decide!

/-- The failure test of the polling loop reads the status of the soft trigger,
which is success whenever the loop is reached: the loop never ends in
`failed`, whatever the frame fetches return. -/
theorem exposurePoll_never_failed (env : SdkEnv) (fuel : Nat) :
    ∀ (s s2 : SVBDevice) (o : PollOutcome),
      exposurePoll env SVB_SUCCESS fuel s = some (o, s2) → o ≠ PollOutcome.failed := by
  induction fuel with
  | zero => intro s s2 o h; simp [exposurePoll] at h
  | succ n ih =>
    intro s s2 o h
    unfold exposurePoll at h
    simp only [] at h
    split at h
    · cases h; simp
    · split at h
      · next hbad => exact absurd rfl hbad.1
      · split at h
        · exact ih _ _ _ h
        · cases h; simp

/-- Claim C5: with bit depth 16 and stretch factor k in 1..4, every frame a
worker delivers is a fetched frame in which every one of the
frameBufferSize / 2 samples v has been replaced, once, by (v * 2^k) mod 2^16
(followed by the binning of the host framework when binning is active).
Exposure worker: a run delivers nothing or exactly that frame.  Streaming
worker: every frame of a run is such a frame; an iteration whose fetch
succeeds delivers exactly one, any other iteration delivers nothing. -/
theorem bitStretch_shifts_every_sample_once (env : SdkEnv) (s : SVBDevice) (k : Nat)
    (hdepth : s.bitDepth = 16) (hk : s.bitStretch = k)
    (hk4 : k = 1 ∨ k = 2 ∨ k = 3 ∨ k = 4) :
    (∀ fuel c s2, workerExposure env fuel s c = some s2 →
      s.PrimaryCCD.frameBufferSize ≤ s2.lastFetched.length →
      (delivered s2.log = delivered s.log ∨
        ∃ out, delivered s2.log =
            delivered s.log ++ [if isBinningActive s then env.binFrame out else out] ∧
          out.length = s2.lastFetched.length ∧
          ∀ i, i < s.PrimaryCCD.frameBufferSize / 2 →
            readU16 out i = (readU16 s2.lastFetched i * 2 ^ k) % 2 ^ 16)) ∧
    (∀ fuel s2, workerStreamVideo env fuel s = some s2 →
      (∀ i buf, s.PrimaryCCD.frameBufferSize ≤ (env.frame i buf).length) →
      ∃ frames, delivered s2.log = delivered s.log ++ frames ∧
        ∀ f, f ∈ frames → ∃ raw out, (∃ i buf, raw = env.frame i buf) ∧
          f = (if isBinningActive s then env.binFrame out else out) ∧
          out.length = raw.length ∧
          ∀ i, i < s.PrimaryCCD.frameBufferSize / 2 →
            readU16 out i = (readU16 raw i * 2 ^ k) % 2 ^ 16) ∧
    (env.status s.sdkCalls = SVB_SUCCESS →
      s.PrimaryCCD.frameBufferSize ≤ (env.frame s.sdkCalls s.PrimaryCCD.frameBuffer).length →
      ∃ out, delivered (streamBody env s).2.log =
          delivered s.log ++ [if isBinningActive s then env.binFrame out else out] ∧
        out.length = (env.frame s.sdkCalls s.PrimaryCCD.frameBuffer).length ∧
        ∀ i, i < s.PrimaryCCD.frameBufferSize / 2 →
          readU16 out i =
            (readU16 (env.frame s.sdkCalls s.PrimaryCCD.frameBuffer) i * 2 ^ k) % 2 ^ 16) ∧
    (env.status s.sdkCalls ≠ SVB_SUCCESS →
      delivered (streamBody env s).2.log = delivered s.log) := by
  have hk0 : s.bitStretch ≠ 0 := by omega
  have hpost : ∀ raw, postProcess env s raw =
      if isBinningActive s then
        env.binFrame (stretchLoop raw (s.PrimaryCCD.frameBufferSize / 2) k)
      else stretchLoop raw (s.PrimaryCCD.frameBufferSize / 2) k := by
    intro raw
    have hk1 : k ≠ 0 := by omega
    simp [postProcess, hdepth, hk, hk1]
  have hsamples : ∀ raw, s.PrimaryCCD.frameBufferSize ≤ raw.length →
      ∀ i, i < s.PrimaryCCD.frameBufferSize / 2 →
        readU16 (stretchLoop raw (s.PrimaryCCD.frameBufferSize / 2) k) i =
          (readU16 raw i * 2 ^ k) % 2 ^ 16 := by
    intro raw hlen i hi
    rw [readU16_stretchLoop raw k _ (by omega) i, if_pos hi, shl16_eq]
  refine ⟨?_, ?_, ?_, ?_⟩
  · intro fuel c s2 hrun hlen
    rcases workerExposure_delivered env fuel s s2 c hrun with h | h
    · exact Or.inl h
    · right
      refine ⟨stretchLoop s2.lastFetched (s.PrimaryCCD.frameBufferSize / 2) k, ?_,
        stretchLoop_length _ _ _, hsamples _ hlen⟩
      rw [h, hpost]
  · intro fuel s2 hrun hlen
    obtain ⟨frames, hfr, hmem⟩ := workerStreamVideo_delivered env fuel s s2 hrun
    refine ⟨frames, hfr, ?_⟩
    intro f hf
    obtain ⟨i, buf, hi⟩ := hmem f hf
    refine ⟨env.frame i buf, stretchLoop (env.frame i buf) (s.PrimaryCCD.frameBufferSize / 2) k,
      ⟨i, buf, rfl⟩, ?_, stretchLoop_length _ _ _, hsamples _ (hlen i buf)⟩
    rw [hi, hpost]
  · intro hs hlen
    refine ⟨stretchLoop (env.frame s.sdkCalls s.PrimaryCCD.frameBuffer)
      (s.PrimaryCCD.frameBufferSize / 2) k, ?_, stretchLoop_length _ _ _, hsamples _ hlen⟩
    rw [((streamBody_delivered env s).1 hs).2, hpost]
  · exact (streamBody_delivered env s).2

/-- Witness of claim C5: stretch factor x4 (k = 2) on a four-byte buffer that
the SDK fills with the samples 0x0123 and 0xF00F, streaming iteration. -/
theorem bitStretch_shifts_every_sample_once_witness :
    ∃ out, delivered (streamBody envTwoSamples devStretch).2.log =
        delivered devStretch.log ++
          [if isBinningActive devStretch then envTwoSamples.binFrame out else out] ∧
      out.length =
        (envTwoSamples.frame devStretch.sdkCalls devStretch.PrimaryCCD.frameBuffer).length ∧
      ∀ i, i < devStretch.PrimaryCCD.frameBufferSize / 2 →
        readU16 out i =
          (readU16 (envTwoSamples.frame devStretch.sdkCalls devStretch.PrimaryCCD.frameBuffer) i
            * 2 ^ 2) % 2 ^ 16 :=
  (bitStretch_shifts_every_sample_once envTwoSamples devStretch 2 (by decide) (by decide)
    (by decide)).2.2.1 (by decide) (by decide)

/-- The same input evaluated: 0x0123 becomes 0x048C and 0xF00F becomes 0xC03C,
in both workers. -/
theorem bitStretch_example :
    delivered (streamBody envTwoSamples devStretch).2.log = [[0x8C, 0x04, 0x3C, 0xC0]] ∧
    Option.map (fun s => delivered s.log) (workerExposure envTwoSamples 1 devStretch 1) =
      some [[0x8C, 0x04, 0x3C, 0xC0]] := by
  constructor <;> decide!

/-- Claim C6: with stretch factor 0 and binning inactive, at any bit depth,
every frame a worker delivers is the buffer exactly as a frame fetch of the
SDK left it.  Exposure worker: a run delivers nothing or exactly the buffer of
its last fetch.  Streaming worker: every frame of a run is the buffer of a
fetch; an iteration whose fetch succeeds delivers exactly the buffer of that
fetch, any other iteration delivers nothing. -/
theorem no_stretch_no_binning_delivers_raw (env : SdkEnv) (s : SVBDevice)
    (hk : s.bitStretch = 0) (hbin : isBinningActive s = false) :
    (∀ fuel c s2, workerExposure env fuel s c = some s2 →
      (delivered s2.log = delivered s.log ∨
        delivered s2.log = delivered s.log ++ [s2.lastFetched])) ∧
    (∀ fuel s2, workerStreamVideo env fuel s = some s2 →
      ∃ frames, delivered s2.log = delivered s.log ++ frames ∧
        ∀ f, f ∈ frames → ∃ i buf, f = env.frame i buf) ∧
    (env.status s.sdkCalls = SVB_SUCCESS →
      delivered (streamBody env s).2.log =
        delivered s.log ++ [env.frame s.sdkCalls s.PrimaryCCD.frameBuffer]) ∧
    (env.status s.sdkCalls ≠ SVB_SUCCESS →
      delivered (streamBody env s).2.log = delivered s.log) := by
  have hpost : ∀ raw, postProcess env s raw = raw := by
    intro raw
    simp [postProcess, hk, hbin]
  refine ⟨?_, ?_, ?_, ?_⟩
  · intro fuel c s2 hrun
    rcases workerExposure_delivered env fuel s s2 c hrun with h | h
    · exact Or.inl h
    · right; rw [h, hpost]
  · intro fuel s2 hrun
    obtain ⟨frames, hfr, hmem⟩ := workerStreamVideo_delivered env fuel s s2 hrun
    refine ⟨frames, hfr, ?_⟩
    intro f hf
    obtain ⟨i, buf, hi⟩ := hmem f hf
    exact ⟨i, buf, by rw [hi, hpost]⟩
  · intro hs
    rw [((streamBody_delivered env s).1 hs).2, hpost]
  · exact (streamBody_delivered env s).2

/-- Witness of claim C6: an 8-bit device, no stretch, no binning; the streaming
iteration delivers the four bytes of the SDK unchanged. -/
theorem no_stretch_no_binning_delivers_raw_witness :
    delivered (streamBody envTwoSamples devRaw8).2.log =
      delivered devRaw8.log ++
        [envTwoSamples.frame devRaw8.sdkCalls devRaw8.PrimaryCCD.frameBuffer] :=
  (no_stretch_no_binning_delivers_raw envTwoSamples devRaw8 (by decide) (by decide)).2.2.1
    (by decide)

/-! ### Temperature above the threshold, sub-frame sequence -/

/-- Claim C12: for a target at least `RampThreshold` away from the current
temperature, `SetTemperature` sets the target-temperature control to `t * 10`
truncated, then the cooler-enable control to 1, marks the cooler switch ON,
records `TemperatureRequest = t` and returns 0 when both calls succeed; when the
first or the second call fails it returns -1 and leaves `TemperatureRequest`
and the cooler switch as they were. -/
theorem SetTemperature_above_threshold (env : SdkEnv) (s : SVBDevice) (t : ℚ)
    (h : s.RampThreshold ≤ |t - s.TemperatureValue|) :
    (env.status s.sdkCalls = SVB_SUCCESS → env.status (s.sdkCalls + 1) = SVB_SUCCESS →
      (SetTemperature env s t).1 = 0 ∧
      (SetTemperature env s t).2.log = s.log ++
        [Event.sdk (SdkCall.SVBSetControlValue SVB_CONTROL_TYPE.SVB_TARGET_TEMPERATURE
           (truncToLong (t * 10)) false),
         Event.sdk (SdkCall.SVBSetControlValue SVB_CONTROL_TYPE.SVB_COOLER_ENABLE 1 false),
         Event.IDSetSwitchCooler] ∧
      (SetTemperature env s t).2.CoolerEnableS = ISState.ISS_ON ∧
      (SetTemperature env s t).2.CoolerDisableS = ISState.ISS_OFF ∧
      (SetTemperature env s t).2.TemperatureRequest = t) ∧
    (env.status s.sdkCalls ≠ SVB_SUCCESS →
      (SetTemperature env s t).1 = -1 ∧
      (SetTemperature env s t).2.log = s.log ++
        [Event.sdk (SdkCall.SVBSetControlValue SVB_CONTROL_TYPE.SVB_TARGET_TEMPERATURE
           (truncToLong (t * 10)) false)] ∧
      (SetTemperature env s t).2.CoolerEnableS = s.CoolerEnableS ∧
      (SetTemperature env s t).2.CoolerDisableS = s.CoolerDisableS ∧
      (SetTemperature env s t).2.TemperatureRequest = s.TemperatureRequest) ∧
    (env.status s.sdkCalls = SVB_SUCCESS → env.status (s.sdkCalls + 1) ≠ SVB_SUCCESS →
      (SetTemperature env s t).1 = -1 ∧
      (SetTemperature env s t).2.log = s.log ++
        [Event.sdk (SdkCall.SVBSetControlValue SVB_CONTROL_TYPE.SVB_TARGET_TEMPERATURE
           (truncToLong (t * 10)) false),
         Event.sdk (SdkCall.SVBSetControlValue SVB_CONTROL_TYPE.SVB_COOLER_ENABLE 1 false)] ∧
      (SetTemperature env s t).2.CoolerEnableS = s.CoolerEnableS ∧
      (SetTemperature env s t).2.CoolerDisableS = s.CoolerDisableS ∧
      (SetTemperature env s t).2.TemperatureRequest = s.TemperatureRequest) := by
  have hn : ¬ |t - s.TemperatureValue| < s.RampThreshold := not_lt.mpr h
  refine ⟨?_, ?_, ?_⟩
  · intro h0 h1
    simp [SetTemperature, hn, sdkCall, emit, h0, h1]
  · intro h0
    simp [SetTemperature, hn, sdkCall, emit, h0]
  · intro h0 h1
    simp [SetTemperature, hn, sdkCall, emit, h0, h1]

/-- The all-success case of C12 at 20.0 degrees, target 10, threshold 0.25. -/
theorem SetTemperature_above_threshold_witness :
    (SetTemperature envAllSuccess devTemperature 10).1 = 0 ∧
    (SetTemperature envAllSuccess devTemperature 10).2.log = devTemperature.log ++
      [Event.sdk (SdkCall.SVBSetControlValue SVB_CONTROL_TYPE.SVB_TARGET_TEMPERATURE
         (truncToLong (10 * 10)) false),
       Event.sdk (SdkCall.SVBSetControlValue SVB_CONTROL_TYPE.SVB_COOLER_ENABLE 1 false),
       Event.IDSetSwitchCooler] ∧
    (SetTemperature envAllSuccess devTemperature 10).2.CoolerEnableS = ISState.ISS_ON ∧
    (SetTemperature envAllSuccess devTemperature 10).2.CoolerDisableS = ISState.ISS_OFF ∧
    (SetTemperature envAllSuccess devTemperature 10).2.TemperatureRequest = 10 :=
  (SetTemperature_above_threshold envAllSuccess devTemperature 10 (by decide!)).1 rfl rfl

/-- Claim C20: for a frame that passes validation, `UpdateCCDFrame` issues
stop-capture, set-ROI(x, y, w, h, 1), start-capture in that order and commits
`x_offset = x`, `y_offset = y` only when all three succeed; when one of them
fails it returns false with the offsets unchanged, that call being the last
one issued. -/
theorem UpdateCCDFrame_sequence (env : SdkEnv) (s : SVBDevice) (x y w h : Int)
    (hv : x + w ≤ s.MaxWidth ∧ y + h ≤ s.MaxHeight ∧ Int.tmod w 8 = 0 ∧ Int.tmod h 2 = 0) :
    (env.status s.sdkCalls ≠ SVB_SUCCESS →
      (UpdateCCDFrame env s x y w h).1 = false ∧
      (UpdateCCDFrame env s x y w h).2.log = s.log ++ [Event.sdk SdkCall.SVBStopVideoCapture] ∧
      (UpdateCCDFrame env s x y w h).2.x_offset = s.x_offset ∧
      (UpdateCCDFrame env s x y w h).2.y_offset = s.y_offset) ∧
    (env.status s.sdkCalls = SVB_SUCCESS → env.status (s.sdkCalls + 1) ≠ SVB_SUCCESS →
      (UpdateCCDFrame env s x y w h).1 = false ∧
      (UpdateCCDFrame env s x y w h).2.log = s.log ++
        [Event.sdk SdkCall.SVBStopVideoCapture, Event.sdk (SdkCall.SVBSetROIFormat x y w h 1)] ∧
      (UpdateCCDFrame env s x y w h).2.x_offset = s.x_offset ∧
      (UpdateCCDFrame env s x y w h).2.y_offset = s.y_offset) ∧
    (env.status s.sdkCalls = SVB_SUCCESS → env.status (s.sdkCalls + 1) = SVB_SUCCESS →
      env.status (s.sdkCalls + 2) ≠ SVB_SUCCESS →
      (UpdateCCDFrame env s x y w h).1 = false ∧
      (UpdateCCDFrame env s x y w h).2.log = s.log ++
        [Event.sdk SdkCall.SVBStopVideoCapture, Event.sdk (SdkCall.SVBSetROIFormat x y w h 1),
         Event.sdk SdkCall.SVBStartVideoCapture] ∧
      (UpdateCCDFrame env s x y w h).2.x_offset = s.x_offset ∧
      (UpdateCCDFrame env s x y w h).2.y_offset = s.y_offset) ∧
    (env.status s.sdkCalls = SVB_SUCCESS → env.status (s.sdkCalls + 1) = SVB_SUCCESS →
      env.status (s.sdkCalls + 2) = SVB_SUCCESS →
      (UpdateCCDFrame env s x y w h).1 = true ∧
      (UpdateCCDFrame env s x y w h).2.log = s.log ++
        [Event.sdk SdkCall.SVBStopVideoCapture, Event.sdk (SdkCall.SVBSetROIFormat x y w h 1),
         Event.sdk SdkCall.SVBStartVideoCapture] ∧
      (UpdateCCDFrame env s x y w h).2.x_offset = x ∧
      (UpdateCCDFrame env s x y w h).2.y_offset = y) := by
  have hr : frameRejected s x y w h = false := (frameRejected_eq_false_iff_tmod s x y w h).mpr hv
  refine ⟨?_, ?_, ?_, ?_⟩
  · intro h0
    simp [UpdateCCDFrame, hr, sdkCall, h0]
  · intro h0 h1
    simp [UpdateCCDFrame, hr, sdkCall, h0, h1]
  · intro h0 h1 h2
    simp [UpdateCCDFrame, hr, sdkCall, h0, h1, h2]
  · intro h0 h1 h2
    simp [UpdateCCDFrame, hr, sdkCall, h0, h1, h2, baseUpdateCCDFrame]

/-- The all-success case of C20 for the frame (8, 2, 640, 480) on a 1920 x 1080
sensor. -/
theorem UpdateCCDFrame_sequence_witness :
    (UpdateCCDFrame envAllSuccess dev1080 8 2 640 480).1 = true ∧
    (UpdateCCDFrame envAllSuccess dev1080 8 2 640 480).2.log = dev1080.log ++
      [Event.sdk SdkCall.SVBStopVideoCapture, Event.sdk (SdkCall.SVBSetROIFormat 8 2 640 480 1),
       Event.sdk SdkCall.SVBStartVideoCapture] ∧
    (UpdateCCDFrame envAllSuccess dev1080 8 2 640 480).2.x_offset = 8 ∧
    (UpdateCCDFrame envAllSuccess dev1080 8 2 640 480).2.y_offset = 2 :=
  (UpdateCCDFrame_sequence envAllSuccess dev1080 8 2 640 480 (by decide)).2.2.2 rfl rfl rfl

/-! ### Frame format -/

/-- Claim C17: a change of the frame format to the 16-bit or the 8-bit format
applies `SVB_IMG_RAW16` or `SVB_IMG_RAW8` on ordinary models and `SVB_IMG_Y16`
or `SVB_IMG_Y8` on the "SVBONY SV305M PRO" (the table entry at the requested
index plus `FORMAT_Y16`); afterwards `frameFormat` is the requested format and
`bitDepth` is 16 for the 16-bit format, 8 for the 8-bit format. -/
theorem ISNewSwitchFormat_change (env : SdkEnv) (s : SVBDevice) (req : Int)
    (hreq : req = FORMAT_RAW16 ∨ req = FORMAT_RAW8) (hchg : req ≠ s.base.FormatOnIndex) :
    (ISNewSwitchFormat env s req).1 = true ∧
    (ISNewSwitchFormat env s req).2.log = s.log ++
      [Event.sdk (SdkCall.SVBSetOutputImageType
         (if s.FriendlyName = "SVBONY SV305M PRO" then
            (if req = FORMAT_RAW16 then SVB_IMG_TYPE.SVB_IMG_Y16 else SVB_IMG_TYPE.SVB_IMG_Y8)
          else
            (if req = FORMAT_RAW16 then SVB_IMG_TYPE.SVB_IMG_RAW16
             else SVB_IMG_TYPE.SVB_IMG_RAW8))),
       Event.IDSetSwitchFormat] ∧
    (s.FriendlyName = "SVBONY SV305M PRO" →
      frameFormatMapping (req + FORMAT_Y16) =
        (if req = FORMAT_RAW16 then SVB_IMG_TYPE.SVB_IMG_Y16 else SVB_IMG_TYPE.SVB_IMG_Y8)) ∧
    (ISNewSwitchFormat env s req).2.base.frameFormat = req ∧
    (ISNewSwitchFormat env s req).2.bitDepth = (if req = FORMAT_RAW16 then 16 else 8) := by
  by_cases hm : s.FriendlyName = "SVBONY SV305M PRO"
  · rcases hreq with rfl | rfl
    · have hc : ¬ ((0 : Int) = s.base.FormatOnIndex) := hchg
      simp [ISNewSwitchFormat, hc, hm, sdkCall, emit, updateCCDParams, setFrameBufferSize,
        FORMAT_RAW16, FORMAT_RAW8, FORMAT_Y16, frameFormatMapping]
    · have hc : ¬ ((1 : Int) = s.base.FormatOnIndex) := hchg
      simp [ISNewSwitchFormat, hc, hm, sdkCall, emit, updateCCDParams, setFrameBufferSize,
        FORMAT_RAW16, FORMAT_RAW8, FORMAT_Y16, frameFormatMapping]
  · rcases hreq with rfl | rfl
    · have hc : ¬ ((0 : Int) = s.base.FormatOnIndex) := hchg
      simp [ISNewSwitchFormat, hc, hm, sdkCall, emit, updateCCDParams, setFrameBufferSize,
        FORMAT_RAW16, FORMAT_RAW8, FORMAT_Y16, frameFormatMapping]
    · have hc : ¬ ((1 : Int) = s.base.FormatOnIndex) := hchg
      simp [ISNewSwitchFormat, hc, hm, sdkCall, emit, updateCCDParams, setFrameBufferSize,
        FORMAT_RAW16, FORMAT_RAW8, FORMAT_Y16, frameFormatMapping]

/-- The mono-only model switched from the 16-bit to the 8-bit format. -/
theorem ISNewSwitchFormat_change_witness :
    (FORMAT_RAW8 = FORMAT_RAW16 ∨ FORMAT_RAW8 = FORMAT_RAW8) ∧
    FORMAT_RAW8 ≠ devMono.base.FormatOnIndex ∧
    (ISNewSwitchFormat envAllSuccess devMono FORMAT_RAW8).2.log = devMono.log ++
      [Event.sdk (SdkCall.SVBSetOutputImageType SVB_IMG_TYPE.SVB_IMG_Y8),
       Event.IDSetSwitchFormat] ∧
    (ISNewSwitchFormat envAllSuccess devMono FORMAT_RAW8).2.base.frameFormat = FORMAT_RAW8 ∧
    (ISNewSwitchFormat envAllSuccess devMono FORMAT_RAW8).2.bitDepth = 8 :=
  ⟨Or.inr rfl, by decide,
    (ISNewSwitchFormat_change envAllSuccess devMono FORMAT_RAW8 (Or.inr rfl) (by decide)).2.1,
    (ISNewSwitchFormat_change envAllSuccess devMono FORMAT_RAW8 (Or.inr rfl) (by decide)).2.2.2.1,
    (ISNewSwitchFormat_change envAllSuccess devMono FORMAT_RAW8 (Or.inr rfl) (by decide)).2.2.2.2⟩

/-! ### Connection sequence -/

theorem FatalOk_nil (env : SdkEnv) (start : Nat) : FatalOk env start [] := by
  intro j c h; simp at h

theorem FatalOk_append (env : SdkEnv) (start : Nat) (a b : List SdkCall)
    (ha : FatalOk env start a) (hb : FatalOk env (start + a.length) b) :
    FatalOk env start (a ++ b) := by
  intro j c h hf
  by_cases hj : j < a.length
  · rw [List.get?_eq_getElem?, List.getElem?_append_left hj] at h
    exact ha j c (by rw [List.get?_eq_getElem?]; exact h) hf
  · have hj' : a.length ≤ j := Nat.le_of_not_lt hj
    rw [List.get?_eq_getElem?, List.getElem?_append_right hj'] at h
    have := hb (j - a.length) c (by rw [List.get?_eq_getElem?]; exact h) hf
    rw [← this]; congr 1; omega

theorem FatalOk_single (env : SdkEnv) (start : Nat) (c : SdkCall)
    (h : connectFatal c = true → env.status start = SVB_SUCCESS) : FatalOk env start [c] := by
  intro j c' hj hf
  cases j with
  | zero =>
    simp at hj
    subst hj
    simpa using h hf
  | succ n => simp at hj

theorem sdkTrace_append (a b : List Event) : sdkTrace (a ++ b) = sdkTrace a ++ sdkTrace b := by
  simp [sdkTrace, List.filterMap_append]

/-- A step that makes no SDK call and reports success is sound. -/
theorem StageSound_pure (env : SdkEnv) (s s2 : SVBDevice)
    (hl : sdkTrace s2.log = sdkTrace s.log) (hc : s2.sdkCalls = s.sdkCalls) :
    StageSound env s (true, s2) :=
  ⟨[], by simp [hl], by simp [hc], fun _ => FatalOk_nil env _, fun h => by simp at h⟩

/-- Soundness depends on the trace and the call counter of the end state only. -/
theorem StageSound_congr (env : SdkEnv) (s : SVBDevice) (b : Bool) (s2 s3 : SVBDevice)
    (hl : s3.log = s2.log) (hc : s3.sdkCalls = s2.sdkCalls)
    (h : StageSound env s (b, s2)) : StageSound env s (b, s3) := by
  obtain ⟨calls, h1, h2, h3, h4⟩ := h
  exact ⟨calls, by simpa [hl] using h1, by simpa [hc] using h2, h3, by simpa [hl] using h4⟩

/-- Soundness depends on the trace and the call counter of the start state only. -/
theorem StageSound_start (env : SdkEnv) (s s0 : SVBDevice) (r : Bool × SVBDevice)
    (hl : s0.log = s.log) (hc : s0.sdkCalls = s.sdkCalls)
    (h : StageSound env s0 r) : StageSound env s r := by
  obtain ⟨calls, h1, h2, h3, h4⟩ := h
  exact ⟨calls, by simpa [hl] using h1, by simpa [hc] using h2, by simpa [hc] using h3,
    by simpa [hc] using h4⟩

/-- A successful stage followed by a sound stage is sound. -/
theorem StageSound_seq (env : SdkEnv) (s s1 : SVBDevice) (r : Bool × SVBDevice)
    (h1 : StageSound env s (true, s1)) (h2 : StageSound env s1 r) : StageSound env s r := by
  obtain ⟨c1, a1, a2, a3, -⟩ := h1
  obtain ⟨c2, b1, b2, b3, b4⟩ := h2
  have a3' := a3 rfl
  simp only at a1 a2
  refine ⟨c1 ++ c2, ?_, ?_, ?_, ?_⟩
  · rw [b1, a1, List.append_assoc]
  · rw [b2, a2, List.length_append]; omega
  · intro hr
    refine FatalOk_append env _ _ _ a3' ?_
    rw [← a2]; exact b3 hr
  · intro hr
    obtain ⟨init, c, pre, e1, e2, e3, e4, e5⟩ := b4 hr
    refine ⟨c1 ++ init, c, pre, ?_, e2, ?_, e4, ?_⟩
    · rw [e1, List.append_assoc]
    · rw [List.length_append, ← Nat.add_assoc, ← a2]; exact e3
    · refine FatalOk_append env _ _ _ a3' ?_
      rw [← a2]; exact e5

/-- An SDK call whose failure is tolerated. -/
theorem StageSound_call_tolerated (env : SdkEnv) (s : SVBDevice) (c : SdkCall)
    (hc : connectFatal c = false) : StageSound env s (true, (sdkCall env s c).2) := by
  refine ⟨[c], ?_, ?_, ?_, ?_⟩
  · simp [sdkCall, sdkTrace, List.filterMap_append]
  · simp [sdkCall]
  · intro _
    exact FatalOk_single env _ c (by simp [hc])
  · intro h; simp at h

/-- A fatal SDK call that succeeds. -/
theorem StageSound_call_ok (env : SdkEnv) (s : SVBDevice) (c : SdkCall)
    (hs : env.status s.sdkCalls = SVB_SUCCESS) : StageSound env s (true, (sdkCall env s c).2) := by
  refine ⟨[c], ?_, ?_, ?_, ?_⟩
  · simp [sdkCall, sdkTrace, List.filterMap_append]
  · simp [sdkCall]
  · intro _
    exact FatalOk_single env _ c (fun _ => hs)
  · intro h; simp at h

/-- A fatal SDK call that fails ends the stage. -/
theorem StageSound_call_failed (env : SdkEnv) (s : SVBDevice) (c : SdkCall)
    (hc : connectFatal c = true) (hs : env.status s.sdkCalls ≠ SVB_SUCCESS) :
    StageSound env s (false, (sdkCall env s c).2) := by
  refine ⟨[c], ?_, ?_, ?_, ?_⟩
  · simp [sdkCall, sdkTrace, List.filterMap_append]
  · simp [sdkCall]
  · intro h; simp at h
  · intro _
    exact ⟨[], c, s.log, by simp, hc, by simpa using hs, by simp [sdkCall], FatalOk_nil env _⟩

theorem connectFatal_set_tolerated (ctl : SVB_CONTROL_TYPE) (v : Int) (a : Bool)
    (h : ctl ≠ SVB_CONTROL_TYPE.SVB_FRAME_SPEED_MODE) :
    connectFatal (SdkCall.SVBSetControlValue ctl v a) = false := by
  cases ctl <;> first | rfl | exact absurd rfl h

/-- Filling a control and setting its default is sound. -/
theorem StageSound_fillControl (env : SdkEnv) (s : SVBDevice) (slot : Nat) (ctl : SVB_CONTROL_TYPE)
    (caps : SVB_CONTROL_CAPS) (step : ℚ) (h : ctl ≠ SVB_CONTROL_TYPE.SVB_FRAME_SPEED_MODE) :
    StageSound env s (true, fillControl env s slot ctl caps step) := by
  unfold fillControl
  exact StageSound_start env s _ _ rfl rfl
    (StageSound_call_tolerated env _ _ (connectFatal_set_tolerated ctl _ _ h))

/-- Processing one capability is sound. -/
theorem StageSound_processCaps (env : SdkEnv) (s : SVBDevice) (caps : SVB_CONTROL_CAPS) :
    StageSound env s (true, processCaps env s caps) := by
  unfold processCaps
  split
  · exact StageSound_pure env s _ rfl rfl
  all_goals first
    | exact StageSound_fillControl env s _ _ caps _ (by decide)
    | exact StageSound_pure env s _ rfl rfl

/-- The discovery loop is sound. -/
theorem StageSound_createControlsLoop (env : SdkEnv) (n : Nat) :
    ∀ (i : Int) (s : SVBDevice), StageSound env s (createControlsLoop env n i s) := by
  induction n with
  | zero => intro i s; exact StageSound_pure env s s rfl rfl
  | succ n ih =>
    intro i s
    unfold createControlsLoop
    simp only []
    by_cases hs : env.status s.sdkCalls = SVB_SUCCESS
    · have h1 : ¬ ((sdkCall env s (SdkCall.SVBGetControlCaps i)).1 ≠ SVB_SUCCESS) := by
        simp [sdkCall, hs]
      rw [if_neg h1]
      exact StageSound_seq env s _ _ (StageSound_call_ok env s _ hs)
        (StageSound_seq env _ _ _ (StageSound_processCaps env _ _) (ih _ _))
    · have h1 : (sdkCall env s (SdkCall.SVBGetControlCaps i)).1 ≠ SVB_SUCCESS := by
        simpa [sdkCall] using hs
      rw [if_pos h1]
      exact StageSound_call_failed env s _ rfl hs

/-- A fatal call, reached after changes that leave trace and counter alone,
followed by the rest of a stage. -/
theorem StageSound_fatal_then (env : SdkEnv) (s s1 : SVBDevice) (c : SdkCall)
    (hl : s1.log = s.log) (hn : s1.sdkCalls = s.sdkCalls)
    (hc : connectFatal c = true) (r : Bool × SVBDevice)
    (hrest : StageSound env (sdkCall env s1 c).2 r) :
    StageSound env s
      (if (sdkCall env s1 c).1 ≠ SVB_SUCCESS then (false, (sdkCall env s1 c).2) else r) := by
  refine StageSound_start env s s1 _ hl hn ?_
  by_cases hs : env.status s1.sdkCalls = SVB_SUCCESS
  · have h1 : ¬ ((sdkCall env s1 c).1 ≠ SVB_SUCCESS) := by simp [sdkCall, hs]
    rw [if_neg h1]
    exact StageSound_seq env s1 _ _ (StageSound_call_ok env s1 _ hs) hrest
  · have h1 : (sdkCall env s1 c).1 ≠ SVB_SUCCESS := by simpa [sdkCall] using hs
    rw [if_pos h1]
    exact StageSound_call_failed env s1 _ hc hs

/-- A stage that only continues when the one before it succeeded. -/
theorem StageSound_guard (env : SdkEnv) (s : SVBDevice) (l r : Bool × SVBDevice)
    (hl : StageSound env s l) (hr : l.1 = true → StageSound env l.2 r) :
    StageSound env s (if l.1 = false then (false, l.2) else r) := by
  obtain ⟨b, l2⟩ := l
  cases b with
  | false => simpa using hl
  | true =>
    simp only [Bool.true_eq_false, if_false]
    exact StageSound_seq env s l2 _ hl (hr rfl)

/-- `SVBBase::createControls` is sound. -/
theorem StageSound_base_createControls (env : SdkEnv) (s : SVBDevice) (n : Int) :
    StageSound env s (SVBBase.createControls env s n) := by
  unfold SVBBase.createControls
  simp only []
  refine StageSound_guard env s _ _ (StageSound_createControlsLoop env n.toNat 0 s) ?_
  intro _
  refine StageSound_fatal_then env _ _ _ ?_ ?_ ?_ _ ?_ <;> first | rfl | skip
  refine StageSound_fatal_then env _ _ _ ?_ ?_ ?_ _ ?_ <;> first | rfl | skip
  exact StageSound_pure env _ _ rfl rfl

/-- `SVBTemperature::createControls` is sound. -/
theorem StageSound_createControls (env : SdkEnv) (s : SVBDevice) (n : Int) :
    StageSound env s (SVBTemperature.createControls env s n) := by
  have hb := StageSound_base_createControls env s n
  unfold SVBTemperature.createControls
  simp only []
  generalize SVBBase.createControls env s n = r at hb
  obtain ⟨b, r2⟩ := r
  cases b with
  | false => simpa using hb
  | true =>
    simp only [if_true]
    refine StageSound_seq env s r2 _ hb ?_
    by_cases hcool : HasCooler r2 = true
    · simp only [hcool, if_true]
      refine StageSound_congr env r2 true
        (sdkCall env { r2 with TemperatureValue := 25 }
          (SdkCall.SVBSetControlValue SVB_CONTROL_TYPE.SVB_TARGET_TEMPERATURE 250 false)).2 _
        rfl rfl ?_
      exact StageSound_start env r2 _ _ rfl rfl
        (StageSound_call_tolerated env _
          (SdkCall.SVBSetControlValue SVB_CONTROL_TYPE.SVB_TARGET_TEMPERATURE 250 false) rfl)
    · simp only [hcool]
      exact StageSound_pure env _ _ rfl rfl

/-- The first part of `Connect` is sound. -/
theorem StageSound_connectQuery (env : SdkEnv) (s : SVBDevice) :
    StageSound env s (connectQuery env s) := by
  unfold connectQuery
  simp only []
  by_cases hsim : s.base.isSimulation = false
  · simp only [hsim, if_true]
    refine StageSound_fatal_then env _ _ _ ?_ ?_ ?_ _ ?_ <;> first | rfl | skip
    refine StageSound_fatal_then env _ _ _ ?_ ?_ ?_ _ ?_ <;> first | rfl | skip
    refine StageSound_fatal_then env _ _ _ ?_ ?_ ?_ _ ?_ <;> first | rfl | skip
    refine StageSound_fatal_then env _ _ _ ?_ ?_ ?_ _ ?_ <;> first | rfl | skip
    refine StageSound_seq env _ _ _
      (StageSound_call_tolerated env _ (SdkCall.SVBSetAutoSaveParam false) rfl) ?_
    exact StageSound_call_tolerated env _
        (SdkCall.SVBSetControlValue SVB_CONTROL_TYPE.SVB_EXPOSURE 1000000 false) rfl
  · simp only [hsim, if_false, ne_eq, not_true_eq_false]
    refine StageSound_fatal_then env _ _ _ ?_ ?_ ?_ _ ?_ <;> first | rfl | skip
    refine StageSound_fatal_then env _ _ _ ?_ ?_ ?_ _ ?_ <;> first | rfl | skip
    refine StageSound_fatal_then env _ _ _ ?_ ?_ ?_ _ ?_ <;> first | rfl | skip
    refine StageSound_seq env _ _ _
      (StageSound_call_tolerated env _ (SdkCall.SVBSetAutoSaveParam false) rfl) ?_
    exact StageSound_call_tolerated env _
        (SdkCall.SVBSetControlValue SVB_CONTROL_TYPE.SVB_EXPOSURE 1000000 false) rfl

/-- The last part of `Connect` is sound. -/
theorem StageSound_connectStart (env : SdkEnv) (s : SVBDevice) :
    StageSound env s (connectStart env s) := by
  unfold connectStart
  simp only []
  refine StageSound_fatal_then env _ _ _ ?_ ?_ ?_ _ ?_ <;> first | rfl | skip
  refine StageSound_fatal_then env _ _ _ ?_ ?_ ?_ _ ?_ <;> first | rfl | skip
  refine StageSound_fatal_then env _ _ _ ?_ ?_ ?_ _ ?_ <;> first | rfl | skip
  exact StageSound_pure env _ _ rfl rfl

/-- `SVBBase::Connect` is sound. -/
theorem StageSound_base_Connect (env : SdkEnv) (s : SVBDevice) :
    StageSound env s (SVBBase.Connect env s) := by
  unfold SVBBase.Connect
  simp only []
  refine StageSound_guard env s _ _ (StageSound_connectQuery env s) ?_
  intro _
  refine StageSound_guard env _ _ _ (StageSound_createControls env _ _) ?_
  intro _
  exact StageSound_connectStart env _

/-- `SVBTemperature::Connect` is sound. -/
theorem StageSound_Connect (env : SdkEnv) (s : SVBDevice) :
    StageSound env s (SVBTemperature.Connect env s) := by
  have hb := StageSound_base_Connect env s
  unfold SVBTemperature.Connect
  simp only []
  generalize SVBBase.Connect env s = r at hb
  obtain ⟨b, r2⟩ := r
  cases b with
  | false => simpa using hb
  | true =>
    simp only [if_true]
    refine StageSound_seq env s r2 _ hb (StageSound_pure env _ _ ?_ rfl)
    simp [emit, sdkTrace_append, sdkTrace]

/-- Claim C16, amended: the SDK calls of `Connect` (control discovery included)
form a sequence `calls`; when one of the calls whose status `Connect` checks
(`connectFatal`: open, the three queries, every capability query, the
frame-speed set, set-output-image-type, set-ROI, set-mode, start-capture) is
answered with a non-success status, `Connect` returns false and that call is
its last action, nothing of the sequence after it being executed; and `Connect`
returns false only in that way.  The other calls (auto-save off, the priming
exposure set, the default of each discovered control, the default target
temperature) are not in `connectFatal`. -/
theorem Connect_aborts_on_checked_failure (env : SdkEnv) (s : SVBDevice) :
    ∃ calls : List SdkCall,
      sdkTrace (SVBTemperature.Connect env s).2.log = sdkTrace s.log ++ calls ∧
      (SVBTemperature.Connect env s).2.sdkCalls = s.sdkCalls + calls.length ∧
      (∀ j c, calls.get? j = some c → connectFatal c = true →
        env.status (s.sdkCalls + j) ≠ SVB_SUCCESS →
        (SVBTemperature.Connect env s).1 = false ∧ calls.length = j + 1 ∧
        ∃ pre, (SVBTemperature.Connect env s).2.log = pre ++ [Event.sdk c]) ∧
      ((SVBTemperature.Connect env s).1 = false →
        ∃ j c, calls.get? j = some c ∧ connectFatal c = true ∧
          env.status (s.sdkCalls + j) ≠ SVB_SUCCESS) := by
  obtain ⟨calls, h1, h2, h3, h4⟩ := StageSound_Connect env s
  refine ⟨calls, h1, h2, ?_, ?_⟩
  · intro j c hj hc hst
    cases hr : (SVBTemperature.Connect env s).1 with
    | true => exact absurd (h3 hr j c hj hc) hst
    | false =>
      obtain ⟨init, c2, pre, hcalls, hc2, hst2, hlog, hinit⟩ := h4 hr
      have hlt : j < calls.length := by
        rcases Nat.lt_or_ge j calls.length with h | h
        · exact h
        · rw [List.get?_eq_none.mpr h] at hj; cases hj
      have hlen : calls.length = init.length + 1 := by rw [hcalls]; simp
      have hji : j = init.length := by
        rcases Nat.lt_or_ge j init.length with h | h
        · exfalso
          apply hst
          apply hinit j c _ hc
          rw [hcalls] at hj
          rw [List.get?_eq_getElem?] at hj ⊢
          rw [List.getElem?_append_left h] at hj
          exact hj
        · omega
      subst hji
      have hcc : c = c2 := by
        rw [hcalls] at hj
        simpa using hj.symm
      subst hcc
      exact ⟨rfl, hlen, pre, hlog⟩
  · intro hr
    obtain ⟨init, c2, pre, hcalls, hc2, hst2, hlog, hinit⟩ := h4 hr
    refine ⟨init.length, c2, ?_, hc2, hst2⟩
    rw [hcalls]
    simp

/-- Claim C16, counterexample: when the call that switches auto-save off (the
fifth call of `Connect`) fails and every other call succeeds, `Connect` still
returns true and runs the whole sequence up to the start of the temperature
timer. -/
theorem Connect_tolerates_autosave_failure :
    envAutoSaveFails.status 4 ≠ SVB_SUCCESS ∧
    (sdkTrace (SVBTemperature.Connect envAutoSaveFails devNew).2.log).get? 4 =
      some (SdkCall.SVBSetAutoSaveParam false) ∧
    (SVBTemperature.Connect envAutoSaveFails devNew).1 = true ∧
    sdkTrace (SVBTemperature.Connect envAutoSaveFails devNew).2.log =
      [SdkCall.SVBOpenCamera, SdkCall.SVBGetCameraProperty, SdkCall.SVBGetSensorPixelSize,
       SdkCall.SVBGetNumOfControls, SdkCall.SVBSetAutoSaveParam false,
       SdkCall.SVBSetControlValue SVB_CONTROL_TYPE.SVB_EXPOSURE 1000000 false,
       SdkCall.SVBGetControlCaps 0,
       SdkCall.SVBSetControlValue SVB_CONTROL_TYPE.SVB_GAIN 10 false,
       SdkCall.SVBGetControlCaps 1,
       SdkCall.SVBSetControlValue SVB_CONTROL_TYPE.SVB_CONTRAST 50 false,
       SdkCall.SVBSetControlValue SVB_CONTROL_TYPE.SVB_FRAME_SPEED_MODE 1 false,
       SdkCall.SVBSetOutputImageType SVB_IMG_TYPE.SVB_IMG_RAW16,
       SdkCall.SVBSetROIFormat 0 0 1920 1080 1,
       SdkCall.SVBSetCameraMode SVB_CAMERA_MODE.SVB_MODE_TRIG_SOFT,
       SdkCall.SVBStartVideoCapture] := by
  refine ⟨by decide, ?_, ?_, ?_⟩ <;> decide!

/-- The amended C16 when the very first call, opening the camera, fails. -/
theorem Connect_aborts_on_checked_failure_witness :
    envAllFail.status (devNew.sdkCalls + 0) ≠ SVB_SUCCESS ∧
    connectFatal SdkCall.SVBOpenCamera = true ∧
    (SVBTemperature.Connect envAllFail devNew).1 = false ∧
    ∃ pre, (SVBTemperature.Connect envAllFail devNew).2.log =
      pre ++ [Event.sdk SdkCall.SVBOpenCamera] := by
  obtain ⟨calls, h1, -, h3, -⟩ := Connect_aborts_on_checked_failure envAllFail devNew
  have ht : sdkTrace (SVBTemperature.Connect envAllFail devNew).2.log =
      [SdkCall.SVBOpenCamera] := by decide!
  have hc : calls = [SdkCall.SVBOpenCamera] := by
    rw [ht] at h1
    exact h1.symm
  subst hc
  obtain ⟨a, -, b⟩ := h3 0 SdkCall.SVBOpenCamera rfl rfl (by decide)
  exact ⟨by decide, rfl, a, b⟩

/-! ### Device names -/

/-- Value of a decimal digit character. -/
theorem digitChar_toNat (d : Nat) (h : d < 10) : (Nat.digitChar d).toNat - 48 = d := by
  interval_cases d <;> rfl

/-- Reading the digits that `Nat.toDigitsCore` puts in front of `ds`, most
significant first, gives the number back. -/
theorem toDigitsCore_value (fuel : Nat) :
    ∀ (n : Nat) (ds : List Char), n < fuel →
      ∃ pre : List Char, Nat.toDigitsCore 10 fuel n ds = pre ++ ds ∧
        ∀ a : Nat, pre.foldl (fun acc c => 10 * acc + (c.toNat - 48)) a = a * 10 ^ pre.length + n := by
  induction fuel with
  | zero => intro n ds h; exact absurd h (Nat.not_lt_zero n)
  | succ f ih =>
    intro n ds hn
    unfold Nat.toDigitsCore
    simp only []
    by_cases h0 : n / 10 = 0
    · rw [if_pos h0]
      refine ⟨[Nat.digitChar (n % 10)], rfl, ?_⟩
      intro a
      have hlt : n < 10 := by omega
      simp only [List.foldl_cons, List.foldl_nil, List.length_singleton, pow_one]
      rw [digitChar_toNat _ (Nat.mod_lt _ (by decide))]
      omega
    · rw [if_neg h0]
      obtain ⟨pre, hpre, hval⟩ := ih (n / 10) (Nat.digitChar (n % 10) :: ds) (by omega)
      refine ⟨pre ++ [Nat.digitChar (n % 10)], ?_, ?_⟩
      · rw [hpre]; simp
      · intro a
        rw [List.foldl_append, hval a]
        simp only [List.foldl_cons, List.foldl_nil, List.length_append, List.length_singleton]
        rw [digitChar_toNat _ (Nat.mod_lt _ (by decide)), pow_succ]
        have := Nat.div_add_mod n 10
        nlinarith [this]

/-- The decimal representation determines the number. -/
theorem toString_nat_injective (a b : Nat) (h : toString a = toString b) : a = b := by
  have h1 : Nat.toDigits 10 a = Nat.toDigits 10 b := by
    have := congrArg String.data h
    simpa [toString, Nat.repr, List.asString] using this
  obtain ⟨pa, hpa, hva⟩ := toDigitsCore_value (a + 1) a [] (Nat.lt_succ_self a)
  obtain ⟨pb, hpb, hvb⟩ := toDigitsCore_value (b + 1) b [] (Nat.lt_succ_self b)
  unfold Nat.toDigits at h1
  rw [hpa, hpb] at h1
  simp only [List.append_nil] at h1
  have ha := hva 0
  have hb := hvb 0
  rw [h1] at ha
  rw [ha] at hb
  simpa using hb

/-- The candidate names of `UniqueName::make`, by the value of `index`. -/
theorem candidate_injective (cameraName : String) (j k : Nat)
    (h : cameraName ++ " " ++ toString (j + 1) = cameraName ++ " " ++ toString (k + 1)) :
    j = k := by
  have h1 := congrArg String.data h
  simp only [String.data_append, List.append_assoc] at h1
  have h2 := List.append_cancel_left (List.append_cancel_left h1)
  have h3 : toString (j + 1) = toString (k + 1) := String.ext h2
  have := toString_nat_injective _ _ h3
  omega

theorem candidate_ne_base (cameraName : String) (k : Nat) :
    cameraName ++ " " ++ toString (k + 1) ≠ cameraName := by
  intro h
  have h1 := congrArg (fun s => s.data.length) h
  simp [String.data_append] at h1

/-- Distinct indices give distinct candidate names. -/
theorem candidateName_injective (cameraName : String) (j k : Nat)
    (h : candidateName cameraName j = candidateName cameraName k) : j = k := by
  cases j with
  | zero =>
    cases k with
    | zero => rfl
    | succ k =>
      simp only [candidateName, if_true, Nat.succ_ne_zero, if_false] at h
      exact absurd h.symm (candidate_ne_base cameraName k)
  | succ j =>
    cases k with
    | zero =>
      simp only [candidateName, if_true, Nat.succ_ne_zero, if_false] at h
      exact absurd h (candidate_ne_base cameraName j)
    | succ k =>
      simp only [candidateName, Nat.succ_ne_zero, if_false] at h
      rw [candidate_injective cameraName j k h]

/-- Among the first `used.length + 1` candidates one is not in use. -/
theorem exists_unused_candidate (used : List String) (cameraName : String) :
    ∃ k, k < used.length + 1 ∧ candidateName cameraName k ∉ used := by
  by_contra hcon
  have hall : ∀ k, k < used.length + 1 → candidateName cameraName k ∈ used := by
    intro k hk
    by_contra hk2
    exact hcon ⟨k, hk, hk2⟩
  have hnd : ((List.range (used.length + 1)).map (candidateName cameraName)).Nodup :=
    List.Nodup.map_on (fun x _ y _ hxy => candidateName_injective cameraName x y hxy)
      (List.nodup_range _)
  have hsub : (List.range (used.length + 1)).map (candidateName cameraName) ⊆ used := by
    intro x hx
    obtain ⟨k, hk, rfl⟩ := List.mem_map.mp hx
    exact hall k (List.mem_range.mp hk)
  have hlen := (List.subperm_of_subset hnd hsub).length_le
  simp at hlen

/-- The loop of `make` returns the first candidate, from `index` on, that is
not in use, when there is one within the fuel. -/
theorem makeLoop_finds (used : List String) (cameraName : String) (fuel : Nat) :
    ∀ index, (∃ k, index ≤ k ∧ k < index + fuel ∧ candidateName cameraName k ∉ used) →
      ∃ k, index ≤ k ∧
        makeLoop used cameraName fuel index (candidateName cameraName index) =
          some (candidateName cameraName k) ∧
        candidateName cameraName k ∉ used ∧
        ∀ j, index ≤ j → j < k → candidateName cameraName j ∈ used := by
  induction fuel with
  | zero =>
    intro index h
    obtain ⟨k, h1, h2, -⟩ := h
    omega
  | succ f ih =>
    intro index h
    obtain ⟨k, h1, h2, h3⟩ := h
    unfold makeLoop
    by_cases hin : candidateName cameraName index ∈ used
    · rw [if_pos hin]
      have hne : k ≠ index := by
        intro e; rw [e] at h3; exact h3 hin
      have hname : cameraName ++ " " ++ toString (index + 1) =
          candidateName cameraName (index + 1) := by
        simp [candidateName]
      rw [hname]
      obtain ⟨k2, a1, a2, a3, a4⟩ := ih (index + 1) ⟨k, by omega, by omega, h3⟩
      refine ⟨k2, by omega, a2, a3, ?_⟩
      intro j hj1 hj2
      by_cases hj : j = index
      · rw [hj]; exact hin
      · exact a4 j (by omega) hj2
    · rw [if_neg hin]
      exact ⟨index, le_refl _, rfl, hin, fun j hj1 hj2 => absurd hj2 (by omega)⟩

/-- `make` always returns a name, and the name is not in use. -/
theorem make_returns_fresh (used : List String) (friendly : String) :
    ∃ name, UniqueName.make used friendly = some (name, name :: used) ∧ name ∉ used := by
  obtain ⟨k, hk, hk2⟩ := exists_unused_candidate used ("SVBONY " ++ friendly)
  obtain ⟨k2, -, h2, h3, -⟩ := makeLoop_finds used ("SVBONY " ++ friendly) (used.length + 1) 0
    ⟨k, Nat.zero_le k, by omega, hk2⟩
  have hbase : candidateName ("SVBONY " ++ friendly) 0 = "SVBONY " ++ friendly := by
    simp [candidateName]
  rw [hbase] at h2
  refine ⟨candidateName ("SVBONY " ++ friendly) k2, ?_, h3⟩
  unfold UniqueName.make
  simp only []
  rw [h2]

/-- Claim C14: for every initial set of used names and every sequence of camera
infos, the successive calls of `UniqueName::make` all return, and each returned
name differs from every name of the initial set and from every name returned
by another call of the sequence. -/
theorem makeAll_names_unique (used : List String) (infos : List String) :
    ∃ names, makeAll used infos = some names ∧ names.length = infos.length ∧
      names.Nodup ∧ ∀ n, n ∈ names → n ∉ used := by
  induction infos generalizing used with
  | nil => exact ⟨[], rfl, rfl, List.nodup_nil, fun n hn => by simp at hn⟩
  | cons friendly rest ih =>
    obtain ⟨name, hmake, hfresh⟩ := make_returns_fresh used friendly
    obtain ⟨names, hall, hlen, hnd, hdisj⟩ := ih (name :: used)
    refine ⟨name :: names, ?_, by simp [hlen], ?_, ?_⟩
    · simp only [makeAll, hmake, hall]
    · refine List.nodup_cons.mpr ⟨?_, hnd⟩
      intro hmem
      exact hdisj name hmem (List.mem_cons_self _ _)
    · intro n hn
      rcases List.mem_cons.mp hn with h | h
      · rw [h]; exact hfresh
      · intro hu
        exact hdisj n h (List.mem_cons_of_mem _ hu)

/-! ### Control discovery -/

/-- One of the nine kinds: the slot is filled and the default is set. -/
theorem processCaps_recognised (env : SdkEnv) (s : SVBDevice) (caps : SVB_CONTROL_CAPS) (k : Nat)
    (hk : controlSlot caps.ControlType = some k) :
    (processCaps env s caps).log = s.log ++
      [Event.sdk (SdkCall.SVBSetControlValue caps.ControlType caps.DefaultValue false)] ∧
    (processCaps env s caps).sdkCalls = s.sdkCalls + 1 ∧
    (processCaps env s caps).base.ControlsN = s.base.ControlsN.set k
      { min := caps.MinValue, max := caps.MaxValue, step := controlStep caps,
        value := caps.DefaultValue } := by
  obtain ⟨ct, mn, mx, df⟩ := caps
  cases ct <;> simp [controlSlot] at hk <;> subst hk <;>
    simp [processCaps, fillControl, sdkCall, controlStep]

/-- A kind that is neither one of the nine nor the exposure: nothing happens. -/
theorem processCaps_unrecognised (env : SdkEnv) (s : SVBDevice) (caps : SVB_CONTROL_CAPS)
    (hk : controlSlot caps.ControlType = none)
    (he : caps.ControlType ≠ SVB_CONTROL_TYPE.SVB_EXPOSURE) :
    processCaps env s caps = s := by
  obtain ⟨ct, mn, mx, df⟩ := caps
  cases ct <;> simp [controlSlot] at hk <;> first | exact absurd rfl he | rfl

/-- The exposure capability: the exposure bounds are recorded, no SDK call. -/
theorem processCaps_exposure (env : SdkEnv) (s : SVBDevice) (caps : SVB_CONTROL_CAPS)
    (he : caps.ControlType = SVB_CONTROL_TYPE.SVB_EXPOSURE) :
    processCaps env s caps =
      { s with minExposure := (caps.MinValue : ℚ) / 1000000,
               maxExposure := (caps.MaxValue : ℚ) / 1000000 } := by
  obtain ⟨ct, mn, mx, df⟩ := caps
  simp only at he
  subst he
  rfl

/-- What processing one capability appends to the trace. -/
theorem processCaps_log (env : SdkEnv) (s : SVBDevice) (caps : SVB_CONTROL_CAPS) :
    (processCaps env s caps).log = s.log ++ setCallOf caps ∧
    (processCaps env s caps).sdkCalls = s.sdkCalls + (setCallOf caps).length := by
  cases hk : controlSlot caps.ControlType with
  | some k =>
    obtain ⟨h1, h2, -⟩ := processCaps_recognised env s caps k hk
    simp [setCallOf, hk, h1, h2]
  | none =>
    by_cases he : caps.ControlType = SVB_CONTROL_TYPE.SVB_EXPOSURE
    · rw [processCaps_exposure env s caps he]
      simp [setCallOf, hk]
    · rw [processCaps_unrecognised env s caps hk he]
      simp [setCallOf, hk]

/-- The discovery loop when the first `f` queries succeed and, if `f < n`, the
next one fails. -/
theorem createControlsLoop_trace (env : SdkEnv) (n : Nat) :
    ∀ (i : Int) (s : SVBDevice) (f : Nat), f ≤ n →
      (∀ j, j < f → env.status (s.sdkCalls + (discoveryTrace env j i).length) = SVB_SUCCESS) →
      (f < n → env.status (s.sdkCalls + (discoveryTrace env f i).length) ≠ SVB_SUCCESS) →
      (createControlsLoop env n i s).1 = decide (f = n) ∧
      (createControlsLoop env n i s).2.log = s.log ++ discoveryTrace env f i ++
        (if f < n then [Event.sdk (SdkCall.SVBGetControlCaps (i + f))] else []) := by
  induction n with
  | zero =>
    intro i s f hf _ _
    have : f = 0 := by omega
    subst this
    simp [createControlsLoop, discoveryTrace]
  | succ n ih =>
    intro i s f hf hok hfail
    unfold createControlsLoop
    simp only []
    cases f with
    | zero =>
      have h0 : env.status s.sdkCalls ≠ SVB_SUCCESS := by
        simpa [discoveryTrace] using hfail (Nat.succ_pos n)
      have h1 : (sdkCall env s (SdkCall.SVBGetControlCaps i)).1 ≠ SVB_SUCCESS := by
        simpa [sdkCall] using h0
      rw [if_pos h1]
      simp [sdkCall, discoveryTrace]
    | succ f =>
      have h0 : env.status s.sdkCalls = SVB_SUCCESS := by
        simpa [discoveryTrace] using hok 0 (Nat.succ_pos f)
      have h1 : ¬ ((sdkCall env s (SdkCall.SVBGetControlCaps i)).1 ≠ SVB_SUCCESS) := by
        simp [sdkCall, h0]
      rw [if_neg h1]
      obtain ⟨hlog, hcnt⟩ := processCaps_log env (sdkCall env s (SdkCall.SVBGetControlCaps i)).2
        (env.controlCaps i)
      have hcnt2 : (processCaps env (sdkCall env s (SdkCall.SVBGetControlCaps i)).2
          (env.controlCaps i)).sdkCalls = s.sdkCalls + 1 + (setCallOf (env.controlCaps i)).length := by
        rw [hcnt]; simp [sdkCall]
      obtain ⟨r1, r2⟩ := ih (i + 1) (processCaps env (sdkCall env s (SdkCall.SVBGetControlCaps i)).2
        (env.controlCaps i)) f (by omega)
        (by
          intro j hj
          have := hok (j + 1) (by omega)
          rw [← this, hcnt2]
          congr 1
          simp [discoveryTrace]
          omega)
        (by
          intro hlt
          have := hfail (by omega)
          intro hcon
          apply this
          rw [← hcon, hcnt2]
          congr 1
          simp [discoveryTrace]
          omega)
      refine ⟨?_, ?_⟩
      · rw [r1]; simp
      · rw [r2, hlog]
        have hidx : i + 1 + (f : Int) = i + ((f + 1 : Nat) : Int) := by push_cast; ring
        simp [sdkCall, discoveryTrace, hidx]

/-- What processing one capability records. -/
theorem processCaps_controls (env : SdkEnv) (s : SVBDevice) (caps : SVB_CONTROL_CAPS) :
    (processCaps env s caps).base.ControlsN = recordCaps s.base.ControlsN caps := by
  cases hk : controlSlot caps.ControlType with
  | some k =>
    obtain ⟨-, -, h3⟩ := processCaps_recognised env s caps k hk
    simp [recordCaps, hk, h3]
  | none =>
    by_cases he : caps.ControlType = SVB_CONTROL_TYPE.SVB_EXPOSURE
    · rw [processCaps_exposure env s caps he]
      simp [recordCaps, hk]
    · rw [processCaps_unrecognised env s caps hk he]
      simp [recordCaps, hk]

/-- The controls recorded by the discovery loop when the first `f` queries
succeed and, if `f < n`, the next one fails. -/
theorem createControlsLoop_controls (env : SdkEnv) (n : Nat) :
    ∀ (i : Int) (s : SVBDevice) (f : Nat), f ≤ n →
      (∀ j, j < f → env.status (s.sdkCalls + (discoveryTrace env j i).length) = SVB_SUCCESS) →
      (f < n → env.status (s.sdkCalls + (discoveryTrace env f i).length) ≠ SVB_SUCCESS) →
      (createControlsLoop env n i s).2.base.ControlsN =
        discoveryControls env f i s.base.ControlsN := by
  induction n with
  | zero =>
    intro i s f hf _ _
    have : f = 0 := by omega
    subst this
    simp [createControlsLoop, discoveryControls]
  | succ n ih =>
    intro i s f hf hok hfail
    unfold createControlsLoop
    simp only []
    cases f with
    | zero =>
      have h0 : env.status s.sdkCalls ≠ SVB_SUCCESS := by
        simpa [discoveryTrace] using hfail (Nat.succ_pos n)
      have h1 : (sdkCall env s (SdkCall.SVBGetControlCaps i)).1 ≠ SVB_SUCCESS := by
        simpa [sdkCall] using h0
      rw [if_pos h1]
      simp [sdkCall, discoveryControls]
    | succ f =>
      have h0 : env.status s.sdkCalls = SVB_SUCCESS := by
        simpa [discoveryTrace] using hok 0 (Nat.succ_pos f)
      have h1 : ¬ ((sdkCall env s (SdkCall.SVBGetControlCaps i)).1 ≠ SVB_SUCCESS) := by
        simp [sdkCall, h0]
      rw [if_neg h1]
      obtain ⟨-, hcnt⟩ := processCaps_log env (sdkCall env s (SdkCall.SVBGetControlCaps i)).2
        (env.controlCaps i)
      have hcnt2 : (processCaps env (sdkCall env s (SdkCall.SVBGetControlCaps i)).2
          (env.controlCaps i)).sdkCalls = s.sdkCalls + 1 + (setCallOf (env.controlCaps i)).length := by
        rw [hcnt]; simp [sdkCall]
      have r := ih (i + 1) (processCaps env (sdkCall env s (SdkCall.SVBGetControlCaps i)).2
        (env.controlCaps i)) f (by omega)
        (by
          intro j hj
          have := hok (j + 1) (by omega)
          rw [← this, hcnt2]
          congr 1
          simp [discoveryTrace]
          omega)
        (by
          intro hlt
          have := hfail (by omega)
          intro hcon
          apply this
          rw [← hcon, hcnt2]
          congr 1
          simp [discoveryTrace]
          omega)
      rw [r, processCaps_controls]
      simp [sdkCall, discoveryControls]

/-- After its loop `SVBBase::createControls` only appends to the trace, leaves
`ControlsN` alone, and stops at once when the loop failed. -/
theorem createControls_after_loop (env : SdkEnv) (s : SVBDevice) (n : Int) :
    ∃ rest, (SVBBase.createControls env s n).2.log =
        (createControlsLoop env n.toNat 0 s).2.log ++ rest ∧
      (SVBBase.createControls env s n).2.base.ControlsN =
        (createControlsLoop env n.toNat 0 s).2.base.ControlsN ∧
      ((createControlsLoop env n.toNat 0 s).1 = false →
        rest = [] ∧ (SVBBase.createControls env s n).1 = false) := by
  unfold SVBBase.createControls
  simp only []
  generalize createControlsLoop env n.toNat 0 s = l
  obtain ⟨b, l⟩ := l
  cases b with
  | false => exact ⟨[], by simp⟩
  | true =>
    by_cases h1 : env.status l.sdkCalls = SVB_SUCCESS
    · by_cases h2 : env.status (l.sdkCalls + 1) = SVB_SUCCESS
      · exact ⟨[Event.sdk (SdkCall.SVBSetControlValue SVB_CONTROL_TYPE.SVB_FRAME_SPEED_MODE 1 false),
          Event.sdk (SdkCall.SVBSetOutputImageType
            (if l.FriendlyName = "SVBONY SV305M PRO" then frameFormatMapping FORMAT_Y16
             else frameFormatMapping FORMAT_RAW16))], by simp [sdkCall, h1, h2]⟩
      · exact ⟨[Event.sdk (SdkCall.SVBSetControlValue SVB_CONTROL_TYPE.SVB_FRAME_SPEED_MODE 1 false),
          Event.sdk (SdkCall.SVBSetOutputImageType
            (if l.FriendlyName = "SVBONY SV305M PRO" then frameFormatMapping FORMAT_Y16
             else frameFormatMapping FORMAT_RAW16))], by simp [sdkCall, h1, h2]⟩
    · exact ⟨[Event.sdk (SdkCall.SVBSetControlValue SVB_CONTROL_TYPE.SVB_FRAME_SPEED_MODE 1 false)],
        by simp [sdkCall, h1]⟩

/-- Claim C15, amended: as long as the capability queries succeed,
`createControls` processes the capabilities in index order: when the first `f`
of the `n` queries succeed (and, if `f < n`, the next one fails) its trace is
the trace before, then for each of the first `f` capabilities its query
followed, for the nine kinds gain, contrast, sharpness, saturation,
white-balance R, G, B, gamma and black level, by exactly one
`SVBSetControlValue(kind, default)` and by nothing for any other kind, then, if
`f < n`, the failed query, after which nothing is issued and false is
returned; `ControlsN` holds the min, max and default of those first `f`
capabilities of the nine kinds.  Processing a capability of one of the nine
kinds records min, max and default and issues that one set call; one of the
exposure kind records the exposure bounds and issues no call; any other
changes no state. -/
theorem createControls_discovery (env : SdkEnv) (s : SVBDevice) (n f : Nat) (hf : f ≤ n)
    (hok : ∀ j, j < f →
      env.status (s.sdkCalls + (discoveryTrace env j 0).length) = SVB_SUCCESS)
    (hfail : f < n →
      env.status (s.sdkCalls + (discoveryTrace env f 0).length) ≠ SVB_SUCCESS) :
    (∃ rest, (SVBBase.createControls env s n).2.log =
        s.log ++ discoveryTrace env f 0 ++
          (if f < n then [Event.sdk (SdkCall.SVBGetControlCaps f)] else []) ++ rest ∧
        (f < n → rest = [] ∧ (SVBBase.createControls env s n).1 = false)) ∧
    (SVBBase.createControls env s n).2.base.ControlsN =
      discoveryControls env f 0 s.base.ControlsN ∧
    (∀ (t : SVBDevice) (caps : SVB_CONTROL_CAPS) (k : Nat),
      controlSlot caps.ControlType = some k →
      (processCaps env t caps).log = t.log ++
        [Event.sdk (SdkCall.SVBSetControlValue caps.ControlType caps.DefaultValue false)] ∧
      (processCaps env t caps).base.ControlsN = t.base.ControlsN.set k
        { min := caps.MinValue, max := caps.MaxValue, step := controlStep caps,
          value := caps.DefaultValue }) ∧
    (∀ (t : SVBDevice) (caps : SVB_CONTROL_CAPS),
      caps.ControlType = SVB_CONTROL_TYPE.SVB_EXPOSURE →
      processCaps env t caps =
        { t with minExposure := (caps.MinValue : ℚ) / 1000000,
                 maxExposure := (caps.MaxValue : ℚ) / 1000000 }) ∧
    (∀ (t : SVBDevice) (caps : SVB_CONTROL_CAPS),
      controlSlot caps.ControlType = none →
      caps.ControlType ≠ SVB_CONTROL_TYPE.SVB_EXPOSURE →
      processCaps env t caps = t) := by
  obtain ⟨rest, r1, r2, r3⟩ := createControls_after_loop env s n
  have hn : ((n : Nat) : Int).toNat = n := by simp
  rw [hn] at r1 r2 r3
  obtain ⟨l1, l2⟩ := createControlsLoop_trace env n 0 s f hf hok hfail
  have l3 := createControlsLoop_controls env n 0 s f hf hok hfail
  refine ⟨⟨rest, ?_, ?_⟩, ?_, ?_, ?_, ?_⟩
  · rw [r1, l2]
    simp
  · intro hlt
    apply r3
    rw [l1]
    simp
    omega
  · rw [r2, l3]
  · intro t caps k hk
    obtain ⟨a, -, c⟩ := processCaps_recognised env t caps k hk
    exact ⟨a, c⟩
  · intro t caps he
    exact processCaps_exposure env t caps he
  · intro t caps hk he
    exact processCaps_unrecognised env t caps hk he

/-- The amended C15 on a camera with a gain and a contrast capability, both
queries succeeding. -/
theorem createControls_discovery_witness :
    (2 : Nat) ≤ 2 ∧
    (∀ j, j < 2 →
      envCamera.status (devNew.sdkCalls + (discoveryTrace envCamera j 0).length) = SVB_SUCCESS) ∧
    (∃ rest, (SVBBase.createControls envCamera devNew (2 : Nat)).2.log =
        devNew.log ++ discoveryTrace envCamera 2 0 ++
          (if 2 < 2 then [Event.sdk (SdkCall.SVBGetControlCaps (2 : Nat))] else []) ++ rest ∧
        (2 < 2 → rest = [] ∧ (SVBBase.createControls envCamera devNew (2 : Nat)).1 = false)) ∧
    discoveryTrace envCamera 2 0 =
      [Event.sdk (SdkCall.SVBGetControlCaps 0),
       Event.sdk (SdkCall.SVBSetControlValue SVB_CONTROL_TYPE.SVB_GAIN 10 false),
       Event.sdk (SdkCall.SVBGetControlCaps 1),
       Event.sdk (SdkCall.SVBSetControlValue SVB_CONTROL_TYPE.SVB_CONTRAST 50 false)] :=
  ⟨Nat.le_refl 2, fun _ _ => rfl,
    (createControls_discovery envCamera devNew 2 2 (Nat.le_refl 2) (fun _ _ => rfl)
      (fun h => absurd h (by decide))).1,
    by decide⟩

/-- Claim C15, counterexample: the camera has a gain and a contrast
capability, the query of the second one fails; `createControls` returns false
after that query, no set call is issued for the contrast capability and its
slot of `ControlsN` stays as it was. -/
theorem createControls_stops_at_failed_query :
    (envCapsQueryFails.controlCaps 1).ControlType = SVB_CONTROL_TYPE.SVB_CONTRAST ∧
    (SVBBase.createControls envCapsQueryFails devNew 2).1 = false ∧
    sdkTrace (SVBBase.createControls envCapsQueryFails devNew 2).2.log =
      [SdkCall.SVBGetControlCaps 0,
       SdkCall.SVBSetControlValue SVB_CONTROL_TYPE.SVB_GAIN 10 false,
       SdkCall.SVBGetControlCaps 1] ∧
    (SVBBase.createControls envCapsQueryFails devNew 2).2.base.ControlsN.get? 1 =
      devNew.base.ControlsN.get? 1 := by
  refine ⟨by decide, ?_, ?_, ?_⟩ <;> decide!

/-! ### Geometry changes and exclusion -/

/-- In `UpdateCCDFrame` the ROI is set between stop-capture and start-capture. -/
theorem UpdateCCDFrame_geometry_stopped (env : SdkEnv) (s : SVBDevice) (x y w h : Int) :
    geometryOnlyWhileStopped false
      (sdkTrace ((UpdateCCDFrame env s x y w h).2.log.drop s.log.length)) = true := by
  cases hr : frameRejected s x y w h
  · by_cases h1 : env.status s.sdkCalls = SVB_SUCCESS
    · by_cases h2 : env.status (s.sdkCalls + 1) = SVB_SUCCESS
      · by_cases h3 : env.status (s.sdkCalls + 2) = SVB_SUCCESS
        · simp [UpdateCCDFrame, hr, sdkCall, h1, h2, h3, baseUpdateCCDFrame, sdkTrace,
            geometryOnlyWhileStopped]
        · simp [UpdateCCDFrame, hr, sdkCall, h1, h2, h3, sdkTrace, geometryOnlyWhileStopped]
      · simp [UpdateCCDFrame, hr, sdkCall, h1, h2, sdkTrace, geometryOnlyWhileStopped]
    · simp [UpdateCCDFrame, hr, sdkCall, h1, sdkTrace, geometryOnlyWhileStopped]
  · simp [UpdateCCDFrame, hr, sdkTrace, geometryOnlyWhileStopped]

/-- In the mode-reset sequence mode and ROI are set between stop-capture and
start-capture. -/
theorem resetCaptureModeAndRoi_geometry_stopped (env : SdkEnv) (s : SVBDevice)
    (mode : SVB_CAMERA_MODE) :
    geometryOnlyWhileStopped false
      (sdkTrace ((resetCaptureModeAndRoi env s mode).log.drop s.log.length)) = true := by
  simp [resetCaptureModeAndRoi, sdkCall, sdkTrace, geometryOnlyWhileStopped]

/-- In the streaming start-up ROI and mode are set between stop-capture and
start-capture. -/
theorem streamSetup_geometry_stopped (env : SdkEnv) (s : SVBDevice) :
    geometryOnlyWhileStopped false
      (sdkTrace ((streamSetup env s).log.drop s.log.length)) = true := by
  simp [streamSetup, sdkCall, emit, sdkTrace, geometryOnlyWhileStopped]

/-- The polling loop of the discard exposure only appends to the trace. -/
theorem workaroundPoll_log_grows (env : SdkEnv) (w : Int) (fuel : Nat) :
    ∀ (s s2 : SVBDevice) (b : Bool), workaroundPoll env w fuel s = some (b, s2) →
      ∃ rest, s2.log = s.log ++ rest := by
  induction fuel with
  | zero => intro s s2 b h; simp [workaroundPoll] at h
  | succ n ih =>
    intro s s2 b h
    have hg := SVBGetVideoData_log env s false s.PrimaryCCD.frameBufferSize w
    unfold workaroundPoll at h
    simp only [] at h
    split at h
    · cases h
      exact ⟨[Event.sdk (SdkCall.SVBGetVideoData false s.PrimaryCCD.frameBufferSize w),
        Event.setExposureFailed], by simp only [emit, hg, List.append_assoc]; rfl⟩
    · split at h
      · obtain ⟨rest, hrest⟩ := ih _ _ _ h
        exact ⟨_, by rw [hrest, hg, List.append_assoc]⟩
      · cases h; exact ⟨_, hg⟩

/-- Every run of the discard exposure sets the ROI a second time right after
start-capture, so the check of the call order fails on its trace. -/
theorem workaroundExposure_geometry_not_stopped (env : SdkEnv) (fuel : Nat) (s s2 : SVBDevice)
    (d : ℚ) (h : workaroundExposure env fuel s d = some s2) :
    geometryOnlyWhileStopped false (sdkTrace (s2.log.drop s.log.length)) = false := by
  have key : ∃ rest, s2.log = s.log ++
      ([Event.sdk SdkCall.SVBStopVideoCapture,
        Event.sdk (SdkCall.SVBSetControlValue SVB_CONTROL_TYPE.SVB_EXPOSURE
          (truncToLong (d * 1000 * 1000)) false),
        Event.sdk (SdkCall.SVBSetCameraMode SVB_CAMERA_MODE.SVB_MODE_NORMAL),
        Event.sdk (SdkCall.SVBSetROIFormat s.x_offset s.y_offset s.PrimaryCCD.SubW
          s.PrimaryCCD.SubH 1),
        Event.sdk SdkCall.SVBStartVideoCapture,
        Event.sdk (SdkCall.SVBSetROIFormat s.x_offset s.y_offset s.PrimaryCCD.SubW
          s.PrimaryCCD.SubH 1),
        Event.sdk SdkCall.SVBStartVideoCapture] ++ rest) := by
    unfold workaroundExposure at h
    simp only [] at h
    split at h
    · cases h
    · next s1 hp =>
      cases h
      obtain ⟨rest, hrest⟩ := workaroundPoll_log_grows env _ fuel _ _ _ hp
      exact ⟨rest, by rw [hrest]; simp [sdkCall]⟩
    · next s1 hp =>
      cases h
      obtain ⟨rest, hrest⟩ := workaroundPoll_log_grows env _ fuel _ _ _ hp
      refine ⟨rest ++
        [Event.sdk SdkCall.SVBStopVideoCapture,
         Event.sdk (SdkCall.SVBSetCameraMode SVB_CAMERA_MODE.SVB_MODE_TRIG_SOFT),
         Event.sdk (SdkCall.SVBSetROIFormat s1.x_offset s1.y_offset s1.PrimaryCCD.SubW
           s1.PrimaryCCD.SubH 1),
         Event.sdk SdkCall.SVBStartVideoCapture], ?_⟩
      simp only [resetCaptureModeAndRoi, sdkCall, hrest]
      simp
  obtain ⟨rest, hrest⟩ := key
  rw [hrest, List.drop_left]
  simp [sdkTrace, geometryOnlyWhileStopped]

/-- Claim C13, what the code does: the workaround discard exposure of 0.5 s
on a full-frame 1920 x 1080 device issues a second set-ROI call right after
the first start-capture call, so its call sequence does not keep set-ROI
between a stop-capture and the next start-capture. -/
theorem workaroundExposure_sets_roi_while_capturing :
    Option.map (fun r => sdkTrace r.log) (workaroundExposure envAllSuccess 1 dev1080 (1 / 2)) =
      some
        [SdkCall.SVBStopVideoCapture,
         SdkCall.SVBSetControlValue SVB_CONTROL_TYPE.SVB_EXPOSURE 500000 false,
         SdkCall.SVBSetCameraMode SVB_CAMERA_MODE.SVB_MODE_NORMAL,
         SdkCall.SVBSetROIFormat 0 0 1920 1080 1,
         SdkCall.SVBStartVideoCapture,
         SdkCall.SVBSetROIFormat 0 0 1920 1080 1,
         SdkCall.SVBStartVideoCapture,
         SdkCall.SVBGetVideoData false 0 1500,
         SdkCall.SVBStopVideoCapture,
         SdkCall.SVBSetCameraMode SVB_CAMERA_MODE.SVB_MODE_TRIG_SOFT,
         SdkCall.SVBSetROIFormat 0 0 1920 1080 1,
         SdkCall.SVBStartVideoCapture] ∧
    Option.map (fun r => geometryOnlyWhileStopped false (sdkTrace r.log))
      (workaroundExposure envAllSuccess 1 dev1080 (1 / 2)) = some false := by
  constructor <;> decide!

/-- Claim C11, counterexample: from the idle state, `StartExposure` followed
by `StartStreaming` leaves `inExposure` true while the capture worker runs the
streaming loop. -/
theorem exclusion_counterexample :
    Idle dev1080 ∧
    Option.map (fun s => (s.inExposure, streamingActive s))
      (runActions envAllSuccess anyTime [Action.startExposure 1, Action.startStreaming] dev1080) =
      some (true, true) :=
  ⟨⟨rfl, rfl, rfl⟩, by decide!⟩

theorem act_keeps_exclusion (env : SdkEnv) (a : Action) (s s2 : SVBDevice)
    (hok : streamWhenNotExposing a s = true) (hact : act env a s = some s2)
    (hinv : ¬ (s.inExposure = true ∧ streamingActive s = true)) :
    ¬ (s2.inExposure = true ∧ streamingActive s2 = true) := by
  cases a with
  | startExposure d =>
    simp only [act, Option.some.injEq] at hact
    subst hact
    simp [StartExposure, emit, streamingActive]
  | abortExposure =>
    simp only [act, Option.some.injEq] at hact
    subst hact
    simp [AbortExposure, resetCaptureModeAndRoi, sdkCall, emit]
  | startStreaming =>
    simp only [act, Option.some.injEq] at hact
    subst hact
    have hne : s.inExposure = false := by simpa [streamWhenNotExposing] using hok
    simp [StartStreaming, emit, hne]
  | stopStreaming =>
    simp only [act, Option.some.injEq] at hact
    subst hact
    simp [StopStreaming, resetCaptureModeAndRoi, sdkCall, emit, streamingActive]
  | workerDone fuel =>
    simp only [act] at hact
    split at hact
    · obtain ⟨r, -, hr⟩ := Option.map_eq_some'.mp hact
      subst hr
      simp [streamingActive]
    · obtain ⟨r, -, hr⟩ := Option.map_eq_some'.mp hact
      subst hr
      simp [streamingActive]
    · cases hact
  | timerDone =>
    simp only [act] at hact
    split at hact
    · cases hact
      simpa [streamingActive] using hinv
    · cases hact

/-- Claim C11, amended: in every state reached from the idle state through a
sequence of the requests and completions in which `StartStreaming` is issued
only while `inExposure` is false, at most one of `inExposure` and
streaming-active holds. -/
theorem exposure_streaming_exclusive (env : SdkEnv) (acts : List Action) :
    ∀ (s s2 : SVBDevice), Idle s → runActions env streamWhenNotExposing acts s = some s2 →
      ¬ (s2.inExposure = true ∧ streamingActive s2 = true) := by
  have gen : ∀ (s s2 : SVBDevice), ¬ (s.inExposure = true ∧ streamingActive s = true) →
      runActions env streamWhenNotExposing acts s = some s2 →
      ¬ (s2.inExposure = true ∧ streamingActive s2 = true) := by
    induction acts with
    | nil =>
      intro s s2 hinv h
      simp only [runActions, Option.some.injEq] at h
      subst h
      exact hinv
    | cons a rest ih =>
      intro s s2 hinv h
      unfold runActions at h
      split at h
      · next hok =>
        split at h
        · cases h
        · next s1 hact => exact ih s1 s2 (act_keeps_exclusion env a s s1 hok hact hinv) h
      · cases h
  intro s s2 hidle h
  exact gen s s2 (by simp [hidle.1]) h

/-- A run under the discipline: streaming, then an exposure that replaces it,
its abort, streaming again and its stop. -/
theorem exposure_streaming_exclusive_witness :
    Idle dev1080 ∧
    ∃ h : (runActions envAllSuccess streamWhenNotExposing
        [Action.startStreaming, Action.startExposure 1, Action.abortExposure,
         Action.startStreaming, Action.stopStreaming] dev1080).isSome = true,
      ¬ (((runActions envAllSuccess streamWhenNotExposing
          [Action.startStreaming, Action.startExposure 1, Action.abortExposure,
           Action.startStreaming, Action.stopStreaming] dev1080).get h).inExposure = true ∧
        streamingActive ((runActions envAllSuccess streamWhenNotExposing
          [Action.startStreaming, Action.startExposure 1, Action.abortExposure,
           Action.startStreaming, Action.stopStreaming] dev1080).get h) = true) :=
  ⟨⟨rfl, rfl, rfl⟩, by decide!,
    exposure_streaming_exclusive envAllSuccess _ dev1080 _ ⟨rfl, rfl, rfl⟩
      (Option.some_get _).symm⟩

/-! ### Buffer size -/

/-- `updateCCDParams` sizes the buffer for the resolution and the bit depth. -/
theorem updateCCDParams_size (s : SVBDevice) :
    (updateCCDParams s).2.PrimaryCCD.frameBufferSize =
      (Int.tdiv (s.PrimaryCCD.XRes * s.PrimaryCCD.YRes * s.bitDepth) 8).toNat ∧
    (updateCCDParams s).2.PrimaryCCD.frameBuffer.length =
      (updateCCDParams s).2.PrimaryCCD.frameBufferSize ∧
    (updateCCDParams s).2.PrimaryCCD.XRes = s.PrimaryCCD.XRes ∧
    (updateCCDParams s).2.PrimaryCCD.YRes = s.PrimaryCCD.YRes ∧
    (updateCCDParams s).2.bitDepth = s.bitDepth ∧
    (updateCCDParams s).2.PrimaryCCD.BPP = s.bitDepth := by
  refine ⟨rfl, ?_, rfl, rfl, rfl, rfl⟩
  simp only [updateCCDParams, setFrameBufferSize, List.length_append, List.length_take,
    List.length_replicate]
  omega

/-- Processing a capability leaves the sensor size alone. -/
theorem processCaps_sensor (env : SdkEnv) (s : SVBDevice) (caps : SVB_CONTROL_CAPS) :
    (processCaps env s caps).MaxWidth = s.MaxWidth ∧
    (processCaps env s caps).MaxHeight = s.MaxHeight ∧
    (processCaps env s caps).base.pixelSize = s.base.pixelSize := by
  obtain ⟨ct, mn, mx, df⟩ := caps
  cases ct <;> simp [processCaps, fillControl, sdkCall]

/-- The discovery loop leaves the sensor size alone. -/
theorem createControlsLoop_sensor (env : SdkEnv) (n : Nat) :
    ∀ (i : Int) (s : SVBDevice),
      (createControlsLoop env n i s).2.MaxWidth = s.MaxWidth ∧
      (createControlsLoop env n i s).2.MaxHeight = s.MaxHeight := by
  induction n with
  | zero => intro i s; exact ⟨rfl, rfl⟩
  | succ n ih =>
    intro i s
    unfold createControlsLoop
    simp only []
    split
    · exact ⟨rfl, rfl⟩
    · obtain ⟨a1, a2⟩ := ih (i + 1) (processCaps env (sdkCall env s (SdkCall.SVBGetControlCaps i)).2
        (env.controlCaps i))
      obtain ⟨b1, b2, -⟩ := processCaps_sensor env (sdkCall env s (SdkCall.SVBGetControlCaps i)).2
        (env.controlCaps i)
      exact ⟨a1.trans b1, a2.trans b2⟩

/-- Control discovery leaves the sensor size alone and, when it succeeds,
leaves the bit depth at 16. -/
theorem createControls_sensor (env : SdkEnv) (s : SVBDevice) (n : Int) :
    (SVBTemperature.createControls env s n).2.MaxWidth = s.MaxWidth ∧
    (SVBTemperature.createControls env s n).2.MaxHeight = s.MaxHeight ∧
    ((SVBTemperature.createControls env s n).1 = true →
      (SVBTemperature.createControls env s n).2.bitDepth = 16) := by
  obtain ⟨l1, l2⟩ := createControlsLoop_sensor env n.toNat 0 s
  have hb : (SVBBase.createControls env s n).2.MaxWidth = s.MaxWidth ∧
      (SVBBase.createControls env s n).2.MaxHeight = s.MaxHeight ∧
      ((SVBBase.createControls env s n).1 = true →
        (SVBBase.createControls env s n).2.bitDepth = 16) := by
    unfold SVBBase.createControls
    simp only []
    generalize createControlsLoop env n.toNat 0 s = l at l1 l2
    obtain ⟨b, l⟩ := l
    simp only at l1 l2
    cases b with
    | false => simp [l1, l2]
    | true =>
      by_cases h1 : env.status l.sdkCalls = SVB_SUCCESS
      · by_cases h2 : env.status (l.sdkCalls + 1) = SVB_SUCCESS
        · simp [sdkCall, h1, h2, l1, l2]
        · simp [sdkCall, h1, h2, l1, l2]
      · simp [sdkCall, h1, l1, l2]
  obtain ⟨b1, b2, b3⟩ := hb
  unfold SVBTemperature.createControls
  simp only []
  generalize SVBBase.createControls env s n = r at b1 b2 b3
  obtain ⟨b, r⟩ := r
  simp only at b1 b2 b3
  cases b with
  | false => simp [b1, b2]
  | true =>
    have hd := b3 rfl
    by_cases hc : HasCooler r = true
    · simp [hc, sdkCall, b1, b2, hd]
    · simp [hc, b1, b2, hd]

/-- The first part of `Connect`, when it succeeds, has stored the sensor size
the camera reported. -/
theorem connectQuery_sensor (env : SdkEnv) (s : SVBDevice)
    (h : (connectQuery env s).1 = true) :
    (connectQuery env s).2.MaxWidth = env.cameraMaxWidth ∧
    (connectQuery env s).2.MaxHeight = env.cameraMaxHeight := by
  unfold connectQuery at h ⊢
  simp only [] at h ⊢
  by_cases hsim : s.base.isSimulation = false
  · simp only [hsim, if_true] at h ⊢
    by_cases h0 : env.status s.sdkCalls = SVB_SUCCESS
    · by_cases h1 : env.status (s.sdkCalls + 1) = SVB_SUCCESS
      · by_cases h2 : env.status (s.sdkCalls + 1 + 1) = SVB_SUCCESS
        · by_cases h3 : env.status (s.sdkCalls + 1 + 1 + 1) = SVB_SUCCESS
          · simp [sdkCall, h0, h1, h2, h3]
          · simp [sdkCall, h0, h1, h2, h3] at h
        · simp [sdkCall, h0, h1, h2] at h
      · simp [sdkCall, h0, h1] at h
    · simp [sdkCall, h0] at h
  · simp only [hsim, if_false] at h ⊢
    by_cases h1 : env.status s.sdkCalls = SVB_SUCCESS
    · by_cases h2 : env.status (s.sdkCalls + 1) = SVB_SUCCESS
      · by_cases h3 : env.status (s.sdkCalls + 1 + 1) = SVB_SUCCESS
        · simp [sdkCall, h1, h2, h3]
        · simp [sdkCall, h1, h2, h3] at h
      · simp [sdkCall, h1, h2] at h
    · simp [sdkCall, h1] at h

/-- The last part of `Connect`, when it succeeds, has sized the buffer for the
full sensor. -/
theorem connectStart_size (env : SdkEnv) (s : SVBDevice)
    (h : (connectStart env s).1 = true) :
    (connectStart env s).2.PrimaryCCD.XRes = s.MaxWidth ∧
    (connectStart env s).2.PrimaryCCD.YRes = s.MaxHeight ∧
    (connectStart env s).2.bitDepth = s.bitDepth ∧
    (connectStart env s).2.PrimaryCCD.frameBufferSize =
      (Int.tdiv (s.MaxWidth * s.MaxHeight * s.bitDepth) 8).toNat := by
  unfold connectStart at h ⊢
  simp only [] at h ⊢
  by_cases h1 : env.status s.sdkCalls = SVB_SUCCESS
  · by_cases h2 : env.status (s.sdkCalls + 1) = SVB_SUCCESS
    · by_cases h3 : env.status (s.sdkCalls + 1 + 1) = SVB_SUCCESS
      · simp [sdkCall, SetCCDParams, updateCCDParams, setFrameBufferSize, h1, h2, h3]
      · simp [sdkCall, SetCCDParams, h1, h2, h3] at h
    · simp [sdkCall, SetCCDParams, h1, h2] at h
  · simp [sdkCall, SetCCDParams, h1] at h

/-- After a successful `Connect` the buffer is sized for the sensor the camera
reported, at 16 bits. -/
theorem Connect_size (env : SdkEnv) (s : SVBDevice)
    (h : (SVBTemperature.Connect env s).1 = true) :
    (SVBTemperature.Connect env s).2.PrimaryCCD.XRes = env.cameraMaxWidth ∧
    (SVBTemperature.Connect env s).2.PrimaryCCD.YRes = env.cameraMaxHeight ∧
    (SVBTemperature.Connect env s).2.bitDepth = 16 ∧
    (SVBTemperature.Connect env s).2.PrimaryCCD.frameBufferSize =
      (Int.tdiv (env.cameraMaxWidth * env.cameraMaxHeight * 16) 8).toNat := by
  have hb : (SVBBase.Connect env s).1 = true →
      (SVBBase.Connect env s).2.PrimaryCCD.XRes = env.cameraMaxWidth ∧
      (SVBBase.Connect env s).2.PrimaryCCD.YRes = env.cameraMaxHeight ∧
      (SVBBase.Connect env s).2.bitDepth = 16 ∧
      (SVBBase.Connect env s).2.PrimaryCCD.frameBufferSize =
        (Int.tdiv (env.cameraMaxWidth * env.cameraMaxHeight * 16) 8).toNat := by
    unfold SVBBase.Connect
    simp only []
    have hq := connectQuery_sensor env s
    generalize connectQuery env s = q at hq
    obtain ⟨qb, q⟩ := q
    cases qb with
    | false => intro h; simp at h
    | true =>
      obtain ⟨q1, q2⟩ := hq rfl
      simp only at q1 q2
      simp only [Bool.true_eq_false, if_false]
      obtain ⟨c1, c2, c3⟩ := createControls_sensor env q env.numOfControls
      generalize SVBTemperature.createControls env q env.numOfControls = r at c1 c2 c3
      obtain ⟨rb, r⟩ := r
      cases rb with
      | false => intro h; simp at h
      | true =>
        simp only at c1 c2 c3
        simp only [Bool.true_eq_false, if_false]
        intro hs
        obtain ⟨d1, d2, d3, d4⟩ := connectStart_size env r hs
        rw [d1, d2, d3, d4, c1, c2, c3 trivial, q1, q2]
        exact ⟨rfl, rfl, rfl, rfl⟩
  unfold SVBTemperature.Connect at h ⊢
  simp only [] at h ⊢
  generalize SVBBase.Connect env s = r at hb h
  obtain ⟨rb, r⟩ := r
  cases rb with
  | false => simp at h
  | true => simpa [emit] using hb rfl

/-- A change of the frame format keeps the resolution and sizes the buffer for
the new bit depth. -/
theorem ISNewSwitchFormat_size (env : SdkEnv) (s : SVBDevice) (req : Int)
    (hchg : req ≠ s.base.FormatOnIndex) :
    (ISNewSwitchFormat env s req).2.PrimaryCCD.XRes = s.PrimaryCCD.XRes ∧
    (ISNewSwitchFormat env s req).2.PrimaryCCD.YRes = s.PrimaryCCD.YRes ∧
    (ISNewSwitchFormat env s req).2.PrimaryCCD.frameBufferSize =
      (Int.tdiv (s.PrimaryCCD.XRes * s.PrimaryCCD.YRes *
        (ISNewSwitchFormat env s req).2.bitDepth) 8).toNat := by
  unfold ISNewSwitchFormat
  rw [if_neg hchg]
  simp only []
  split_ifs <;> simp [sdkCall, emit, updateCCDParams, setFrameBufferSize]

/-- The bit depth after a change to the 16-bit or the 8-bit format. -/
theorem ISNewSwitchFormat_bitDepth (env : SdkEnv) (s : SVBDevice) (req : Int)
    (hreq : req = FORMAT_RAW16 ∨ req = FORMAT_RAW8) (hchg : req ≠ s.base.FormatOnIndex) :
    (ISNewSwitchFormat env s req).2.bitDepth = (if req = FORMAT_RAW16 then 16 else 8) := by
  unfold ISNewSwitchFormat
  rw [if_neg hchg]
  rcases hreq with rfl | rfl <;>
    simp only [] <;> split_ifs <;>
    simp_all [sdkCall, emit, updateCCDParams, setFrameBufferSize, FORMAT_RAW16, FORMAT_RAW8,
      FORMAT_Y16]

/-- Sixteen bits per pixel take twice the bytes of eight bits per pixel. -/
theorem tdiv_sixteen_eq_two_mul (p : Int) :
    (Int.tdiv (p * 16) 8).toNat = 2 * (Int.tdiv (p * 8) 8).toNat := by
  have h16 : Int.tdiv (p * 16) 8 = p * 2 := by
    have : p * 16 = (p * 2) * 8 := by ring
    rw [this]
    exact Int.mul_tdiv_cancel _ (by decide)
  have h8 : Int.tdiv (p * 8) 8 = p := Int.mul_tdiv_cancel _ (by decide)
  rw [h16, h8]
  omega

/-- Claim C18: `updateCCDParams` sets the frame-buffer size to
width * height * bitDepth / 8 for the sensor resolution and the current bit
depth, and the buffer has that many bytes; this is the size after every change
of the frame format and after a successful `Connect` (16 bits, the sensor the
camera reported); at the same resolution the size after a change to the 16-bit
format is exactly twice the size after a change to the 8-bit format. -/
theorem frameBufferSize_formula (env env2 env3 : SdkEnv) (s t u : SVBDevice)
    (h16 : FORMAT_RAW16 ≠ s.base.FormatOnIndex) (h8 : FORMAT_RAW8 ≠ t.base.FormatOnIndex)
    (hx : t.PrimaryCCD.XRes = s.PrimaryCCD.XRes) (hy : t.PrimaryCCD.YRes = s.PrimaryCCD.YRes) :
    (updateCCDParams u).2.PrimaryCCD.frameBufferSize =
      (Int.tdiv (u.PrimaryCCD.XRes * u.PrimaryCCD.YRes * u.bitDepth) 8).toNat ∧
    (updateCCDParams u).2.PrimaryCCD.frameBuffer.length =
      (updateCCDParams u).2.PrimaryCCD.frameBufferSize ∧
    (ISNewSwitchFormat env s FORMAT_RAW16).2.bitDepth = 16 ∧
    (ISNewSwitchFormat env s FORMAT_RAW16).2.PrimaryCCD.frameBufferSize =
      (Int.tdiv (s.PrimaryCCD.XRes * s.PrimaryCCD.YRes * 16) 8).toNat ∧
    (ISNewSwitchFormat env2 t FORMAT_RAW8).2.bitDepth = 8 ∧
    (ISNewSwitchFormat env2 t FORMAT_RAW8).2.PrimaryCCD.frameBufferSize =
      (Int.tdiv (s.PrimaryCCD.XRes * s.PrimaryCCD.YRes * 8) 8).toNat ∧
    (ISNewSwitchFormat env s FORMAT_RAW16).2.PrimaryCCD.frameBufferSize =
      2 * (ISNewSwitchFormat env2 t FORMAT_RAW8).2.PrimaryCCD.frameBufferSize ∧
    ((SVBTemperature.Connect env3 u).1 = true →
      (SVBTemperature.Connect env3 u).2.PrimaryCCD.frameBufferSize =
        (Int.tdiv (env3.cameraMaxWidth * env3.cameraMaxHeight * 16) 8).toNat) := by
  obtain ⟨u1, u2, -⟩ := updateCCDParams_size u
  have a5 := ISNewSwitchFormat_bitDepth env s FORMAT_RAW16 (Or.inl rfl) h16
  have b5 := ISNewSwitchFormat_bitDepth env2 t FORMAT_RAW8 (Or.inr rfl) h8
  obtain ⟨-, -, a3⟩ := ISNewSwitchFormat_size env s FORMAT_RAW16 h16
  obtain ⟨-, -, b3⟩ := ISNewSwitchFormat_size env2 t FORMAT_RAW8 h8
  have a5 : (ISNewSwitchFormat env s FORMAT_RAW16).2.bitDepth = 16 := by simpa using a5
  have b5 : (ISNewSwitchFormat env2 t FORMAT_RAW8).2.bitDepth = 8 := by
    simpa [FORMAT_RAW8, FORMAT_RAW16] using b5
  rw [a5] at a3
  rw [b5, hx, hy] at b3
  refine ⟨u1, u2, a5, a3, b5, b3, ?_, ?_⟩
  · rw [a3, b3]
    exact tdiv_sixteen_eq_two_mul _
  · intro hc
    exact (Connect_size env3 u hc).2.2.2

/-- The sizes of C18 on a 1920 x 1080 sensor: 4147200 bytes at 16 bits, twice
the 2073600 bytes at 8 bits. -/
theorem frameBufferSize_formula_witness :
    FORMAT_RAW16 ≠ devColor8.base.FormatOnIndex ∧ FORMAT_RAW8 ≠ devMono.base.FormatOnIndex ∧
    devMono.PrimaryCCD.XRes = devColor8.PrimaryCCD.XRes ∧
    devMono.PrimaryCCD.YRes = devColor8.PrimaryCCD.YRes ∧
    (ISNewSwitchFormat envAllSuccess devColor8 FORMAT_RAW16).2.PrimaryCCD.frameBufferSize =
      (Int.tdiv (1920 * 1080 * 16) 8).toNat ∧
    (ISNewSwitchFormat envAllSuccess devMono FORMAT_RAW8).2.PrimaryCCD.frameBufferSize =
      (Int.tdiv (1920 * 1080 * 8) 8).toNat ∧
    (ISNewSwitchFormat envAllSuccess devColor8 FORMAT_RAW16).2.PrimaryCCD.frameBufferSize =
      2 * (ISNewSwitchFormat envAllSuccess devMono FORMAT_RAW8).2.PrimaryCCD.frameBufferSize :=
  ⟨by decide, by decide, rfl, rfl,
    (frameBufferSize_formula envAllSuccess envAllSuccess envAllSuccess devColor8 devMono devNew
      (by decide) (by decide) rfl rfl).2.2.2.1,
    (frameBufferSize_formula envAllSuccess envAllSuccess envAllSuccess devColor8 devMono devNew
      (by decide) (by decide) rfl rfl).2.2.2.2.2.1,
    (frameBufferSize_formula envAllSuccess envAllSuccess envAllSuccess devColor8 devMono devNew
      (by decide) (by decide) rfl rfl).2.2.2.2.2.2.1⟩

/-! ### Streaming loop -/

/-- The polling loop of `workerExposure` when the fetches of its first `n`
iterations do not succeed and the cancellation flag is found set at the start
of the next iteration: `n` fetches, then the loop ends as cancelled. -/
theorem exposurePoll_cancelled (env : SdkEnv) (n : Nat) :
    ∀ (fuel : Nat) (s : SVBDevice), n < fuel →
      (∀ k, k < n → env.isAboutToQuit (s.quitPolls + k) = false) →
      env.isAboutToQuit (s.quitPolls + n) = true →
      (∀ k, k < n → env.status (s.sdkCalls + k) ≠ SVB_SUCCESS) →
      ∃ s2, exposurePoll env SVB_SUCCESS fuel s = some (PollOutcome.cancelled, s2) ∧
        s2.log = s.log ++ List.replicate n
          (Event.sdk (SdkCall.SVBGetVideoData true s.PrimaryCCD.frameBufferSize 100)) ∧
        s2.sdkCalls = s.sdkCalls + n ∧
        s2.inExposure = s.inExposure ∧
        s2.PrimaryCCD.exposureLeft = s.PrimaryCCD.exposureLeft ∧
        s2.PrimaryCCD.frameBuffer =
          (if n = 0 then s.PrimaryCCD.frameBuffer else s2.lastFetched) := by
  induction n with
  | zero =>
    intro fuel s hfuel _ hc _
    obtain ⟨f, rfl⟩ : ∃ f, fuel = f + 1 := ⟨fuel - 1, by omega⟩
    simp only [Nat.add_zero] at hc
    exact ⟨(readQuit env s).2, by simp [exposurePoll, readQuit, hc], by simp [readQuit],
      rfl, rfl, rfl, by simp [readQuit]⟩
  | succ n ih =>
    intro fuel s hfuel hq hc hT
    obtain ⟨f, rfl⟩ : ∃ f, fuel = f + 1 := ⟨fuel - 1, by omega⟩
    have hq0 : env.isAboutToQuit s.quitPolls = false := by
      simpa using hq 0 (Nat.succ_pos n)
    have h0 : env.status s.sdkCalls ≠ SVB_SUCCESS := by
      simpa using hT 0 (Nat.succ_pos n)
    let s1 : SVBDevice := (SVBGetVideoData env (readQuit env s).2 true
      (readQuit env s).2.PrimaryCCD.frameBufferSize 100).2
    have hs1 : s1.sdkCalls = s.sdkCalls + 1 := by
      simp [s1, SVBGetVideoData, sdkCall, readQuit]
    have hs2 : s1.quitPolls = s.quitPolls + 1 := by
      simp [s1, SVBGetVideoData, sdkCall, readQuit]
    obtain ⟨s2, e1, e2, e3, e4, e5, e6⟩ := ih f s1 (by omega)
      (by
        intro k hk
        rw [hs2]
        have := hq (k + 1) (by omega)
        rw [← this]; congr 1; omega)
      (by rw [hs2, ← hc]; congr 1; omega)
      (by
        intro k hk
        rw [hs1]
        have := hT (k + 1) (by omega)
        intro hcon
        apply this
        rw [← hcon]; congr 1; omega)
    have hstep : exposurePoll env SVB_SUCCESS (f + 1) s = exposurePoll env SVB_SUCCESS f s1 := by
      simp [exposurePoll, readQuit, hq0, SVBGetVideoData, sdkCall, h0, s1]
    refine ⟨s2, by rw [hstep, e1], ?_, ?_, ?_, ?_, ?_⟩
    · rw [e2]
      simp [s1, SVBGetVideoData, sdkCall, readQuit, List.replicate_succ]
    · rw [e3, hs1]; omega
    · rw [e4]; simp [s1, SVBGetVideoData, sdkCall, readQuit]
    · rw [e5]; simp [s1, SVBGetVideoData, sdkCall, readQuit]
    · rw [e6]
      by_cases hn : n = 0
      · subst hn
        have hl : s2.lastFetched = s1.lastFetched := by
          have : s2 = (readQuit env s1).2 := by
            have hc1 : env.isAboutToQuit s1.quitPolls = true := by
              rw [hs2]; simpa using hc
            obtain ⟨f2, rfl⟩ : ∃ f2, f = f2 + 1 := ⟨f - 1, by omega⟩
            have : exposurePoll env SVB_SUCCESS (f2 + 1) s1 =
                some (PollOutcome.cancelled, (readQuit env s1).2) := by
              simp [exposurePoll, readQuit, hc1]
            rw [this] at e1
            simp only [Option.some.injEq, Prod.mk.injEq, true_and] at e1
            exact e1.symm
          rw [this]; rfl
        rw [hl]
        simp [s1, SVBGetVideoData, sdkCall, readQuit]
      · simp [hn]

/-- Claim C23: when the real exposure of `workerExposure` was set and
triggered, the fetches of the first `n` iterations of the polling loop did not
succeed and the cancellation flag is set when the next iteration begins, the
worker returns at once: its trace ends with those `n` fetches, so no further
fetch is issued, the exposure is not marked failed, nothing is post-processed
(the buffer is as the last fetch left it, or untouched when there was none; no
binning, the exposure left is not reset) and exposure-complete is not
signalled; `inExposure` is as before. -/
theorem workerExposure_cancelled (env : SdkEnv) (t : SVBDevice) (c : ℚ) (n fuel : Nat)
    (hset : env.status t.sdkCalls = SVB_SUCCESS)
    (htrig : env.status (t.sdkCalls + 1) = SVB_SUCCESS)
    (hT : ∀ k, k < n → env.status (t.sdkCalls + 2 + k) ≠ SVB_SUCCESS)
    (hq : ∀ k, k < n → env.isAboutToQuit (t.quitPolls + k) = false)
    (hc : env.isAboutToQuit (t.quitPolls + n) = true)
    (hfuel : n < fuel) :
    ∃ s2, exposeAndFetch env fuel t c = some s2 ∧
      (¬ (t.exposureWorkaroundEnable = true ∧ 0 < t.exposureWorkaroundDuration) →
        workerExposure env fuel t c = some s2) ∧
      (∀ t0 : SVBDevice, t0.exposureWorkaroundEnable = true →
        0 < t0.exposureWorkaroundDuration →
        workaroundExposure env fuel t0 (1 / 2) = some t →
        workerExposure env fuel t0 c = some s2) ∧
      s2.log = t.log ++
        [Event.setExposureDuration c,
         Event.sdk (SdkCall.SVBSetControlValue SVB_CONTROL_TYPE.SVB_EXPOSURE
           (truncToLong (c * 1000 * 1000)) false),
         Event.sdk SdkCall.SVBSendSoftTrigger] ++
        List.replicate n
          (Event.sdk (SdkCall.SVBGetVideoData true t.PrimaryCCD.frameBufferSize 100)) ∧
      s2.sdkCalls = t.sdkCalls + 2 + n ∧
      s2.inExposure = t.inExposure ∧
      s2.PrimaryCCD.exposureLeft = t.PrimaryCCD.exposureLeft ∧
      s2.PrimaryCCD.frameBuffer =
        (if n = 0 then t.PrimaryCCD.frameBuffer else s2.lastFetched) := by
  let s1 : SVBDevice := (sdkCall env (sdkCall env
    (emit { t with PrimaryCCD := { t.PrimaryCCD with exposureDuration := c } }
      (Event.setExposureDuration c))
    (SdkCall.SVBSetControlValue SVB_CONTROL_TYPE.SVB_EXPOSURE
      (truncToLong (c * 1000 * 1000)) false)).2 SdkCall.SVBSendSoftTrigger).2
  have hs1 : s1.sdkCalls = t.sdkCalls + 2 := by simp [s1, sdkCall, emit]
  have hs2 : s1.quitPolls = t.quitPolls := by simp [s1, sdkCall, emit]
  obtain ⟨s2, e1, e2, e3, e4, e5, e6⟩ := exposurePoll_cancelled env n fuel s1 hfuel
    (by intro k hk; rw [hs2]; exact hq k hk)
    (by rw [hs2]; exact hc)
    (by intro k hk; rw [hs1]; exact hT k hk)
  have hrun : exposeAndFetch env fuel t c = some s2 := by
    unfold exposeAndFetch
    simp only []
    have hr1 : ¬ ((sdkCall env
        (emit { t with PrimaryCCD := { t.PrimaryCCD with exposureDuration := c } }
          (Event.setExposureDuration c))
        (SdkCall.SVBSetControlValue SVB_CONTROL_TYPE.SVB_EXPOSURE
          (truncToLong (c * 1000 * 1000)) false)).1 ≠ SVB_SUCCESS) := by
      simp [sdkCall, emit, hset]
    rw [if_neg hr1]
    have hr2 : (sdkCall env (sdkCall env
        (emit { t with PrimaryCCD := { t.PrimaryCCD with exposureDuration := c } }
          (Event.setExposureDuration c))
        (SdkCall.SVBSetControlValue SVB_CONTROL_TYPE.SVB_EXPOSURE
          (truncToLong (c * 1000 * 1000)) false)).2 SdkCall.SVBSendSoftTrigger).1 =
        SVB_SUCCESS := by
      simp [sdkCall, emit, htrig]
    rw [if_neg (by rw [hr2]; simp), hr2]
    change (match exposurePoll env SVB_SUCCESS fuel s1 with
      | none => none
      | some (PollOutcome.fetched, s2) => some (exposureDone env s2)
      | some (_, s2) => some s2) = some s2
    rw [e1]
  refine ⟨s2, hrun, ?_, ?_, ?_, ?_, ?_, ?_, ?_⟩
  · intro hno
    have hno2 : ¬ (t.exposureWorkaroundEnable = true ∧ t.exposureWorkaroundDuration > 0) := hno
    unfold workerExposure
    rw [if_neg hno2, hrun]
  · intro t0 hen hdur hw
    unfold workerExposure
    rw [if_pos ⟨hen, hdur⟩, hw]
    exact hrun
  · rw [e2]; simp [s1, sdkCall, emit]
  · rw [e3, hs1]
  · rw [e4]; simp [s1, sdkCall, emit]
  · rw [e5]; simp [s1, sdkCall, emit]
  · rw [e6]; simp [s1, sdkCall, emit]

/-- A run of C23: the first fetch times out and the cancellation flag is found
set at the start of the second iteration. -/
theorem workerExposure_cancelled_witness :
    ∃ s2, workerExposure envCancelSecond 2 dev1080 1 = some s2 ∧
      s2.log = dev1080.log ++
        [Event.setExposureDuration 1,
         Event.sdk (SdkCall.SVBSetControlValue SVB_CONTROL_TYPE.SVB_EXPOSURE
           (truncToLong (1 * 1000 * 1000)) false),
         Event.sdk SdkCall.SVBSendSoftTrigger] ++
        List.replicate 1
          (Event.sdk (SdkCall.SVBGetVideoData true dev1080.PrimaryCCD.frameBufferSize 100)) ∧
      s2.inExposure = dev1080.inExposure := by
  obtain ⟨s2, -, h1, -, h3, -, h5, -, -⟩ :=
    workerExposure_cancelled envCancelSecond dev1080 1 1 2 rfl rfl
      (fun k hk => by interval_cases k; decide)
      (fun k hk => by interval_cases k; rfl)
      rfl (by decide)
  exact ⟨s2, h1 (by decide!), h3, h5⟩

/-! ### Discard exposure -/

/-- The polling loop of `workerExposure` only appends to the trace. -/
theorem exposurePoll_log_grows (env : SdkEnv) (ret : SVB_ERROR_CODE) (fuel : Nat) :
    ∀ (s s2 : SVBDevice) (o : PollOutcome), exposurePoll env ret fuel s = some (o, s2) →
      ∃ rest, s2.log = s.log ++ rest := by
  induction fuel with
  | zero => intro s s2 o h; simp [exposurePoll] at h
  | succ n ih =>
    intro s s2 o h
    have hg := SVBGetVideoData_log env (readQuit env s).2 true
      (readQuit env s).2.PrimaryCCD.frameBufferSize 100
    have hr : (readQuit env s).2.log = s.log := rfl
    unfold exposurePoll at h
    simp only [] at h
    split at h
    · cases h; exact ⟨[], by simp [hr]⟩
    · split at h
      · cases h
        exact ⟨[Event.sdk (SdkCall.SVBGetVideoData true
            (readQuit env s).2.PrimaryCCD.frameBufferSize 100), Event.setExposureFailed],
          by simp only [emit, hg, hr, List.append_assoc]; rfl⟩
      · split at h
        · obtain ⟨rest, hrest⟩ := ih _ _ _ h
          exact ⟨_, by rw [hrest, hg, hr, List.append_assoc]⟩
        · cases h; exact ⟨_, by rw [hg, hr]⟩

/-- The end of `workerExposure` only appends to the trace. -/
theorem exposureDone_log_grows (env : SdkEnv) (s : SVBDevice) :
    ∃ rest, (exposureDone env s).log = s.log ++ rest := by
  obtain ⟨h1, -⟩ := exposureDone_spec env s
  exact ⟨_, by rw [h1, List.append_assoc, List.append_assoc]⟩

/-- Every run of the real exposure starts with the record of the duration and
the set of the exposure control, followed by the soft trigger when that set
succeeded. -/
theorem exposeAndFetch_starts (env : SdkEnv) (fuel : Nat) (s s2 : SVBDevice) (d : ℚ)
    (h : exposeAndFetch env fuel s d = some s2) :
    (∃ rest, s2.log = s.log ++
      [Event.setExposureDuration d,
       Event.sdk (SdkCall.SVBSetControlValue SVB_CONTROL_TYPE.SVB_EXPOSURE
         (truncToLong (d * 1000 * 1000)) false)] ++ rest) ∧
    (env.status s.sdkCalls = SVB_SUCCESS →
      ∃ rest, s2.log = s.log ++
        [Event.setExposureDuration d,
         Event.sdk (SdkCall.SVBSetControlValue SVB_CONTROL_TYPE.SVB_EXPOSURE
           (truncToLong (d * 1000 * 1000)) false),
         Event.sdk SdkCall.SVBSendSoftTrigger] ++ rest) := by
  by_cases h1 : env.status s.sdkCalls = SVB_SUCCESS
  · have key : ∃ rest, s2.log = s.log ++
        [Event.setExposureDuration d,
         Event.sdk (SdkCall.SVBSetControlValue SVB_CONTROL_TYPE.SVB_EXPOSURE
           (truncToLong (d * 1000 * 1000)) false),
         Event.sdk SdkCall.SVBSendSoftTrigger] ++ rest := by
      by_cases h2 : env.status (s.sdkCalls + 1) = SVB_SUCCESS
      · unfold exposeAndFetch at h
        simp only [] at h
        rw [if_neg (by simp [sdkCall, emit, h1]), if_neg (by simp [sdkCall, emit, h2])] at h
        split at h
        · cases h
        · next s3 hp =>
          cases h
          obtain ⟨r1, hr1⟩ := exposurePoll_log_grows env _ fuel _ _ _ hp
          obtain ⟨r2, hr2⟩ := exposureDone_log_grows env s3
          exact ⟨r1 ++ r2, by rw [hr2, hr1]; simp [sdkCall, emit]⟩
        · next o s3 hne hp =>
          cases h
          obtain ⟨r1, hr1⟩ := exposurePoll_log_grows env _ fuel _ _ _ hp
          exact ⟨r1, by rw [hr1]; simp [sdkCall, emit]⟩
      · unfold exposeAndFetch at h
        simp only [] at h
        rw [if_neg (by simp [sdkCall, emit, h1]), if_pos (by simp [sdkCall, emit, h2])] at h
        cases h
        exact ⟨[Event.setExposureFailed], by simp [sdkCall, emit]⟩
    refine ⟨?_, fun _ => key⟩
    obtain ⟨rest, hrest⟩ := key
    exact ⟨Event.sdk SdkCall.SVBSendSoftTrigger :: rest, by rw [hrest]; simp⟩
  · refine ⟨?_, fun h' => absurd h' h1⟩
    unfold exposeAndFetch at h
    simp only [] at h
    rw [if_pos (by simp [sdkCall, emit, h1])] at h
    cases h
    exact ⟨[Event.setExposureFailed], by simp [sdkCall, emit]⟩

/-- Every run of the discard exposure starts with its seven calls. -/
theorem workaroundExposure_starts (env : SdkEnv) (fuel : Nat) (s s2 : SVBDevice) (d : ℚ)
    (h : workaroundExposure env fuel s d = some s2) :
    ∃ rest, s2.log = s.log ++ workaroundPrelude s d ++ rest := by
  unfold workaroundExposure at h
  simp only [] at h
  split at h
  · cases h
  · next s1 hp =>
    cases h
    obtain ⟨rest, hrest⟩ := workaroundPoll_log_grows env _ fuel _ _ _ hp
    exact ⟨rest, by rw [hrest]; simp [sdkCall, workaroundPrelude]⟩
  · next s1 hp =>
    cases h
    obtain ⟨rest, hrest⟩ := workaroundPoll_log_grows env _ fuel _ _ _ hp
    refine ⟨rest ++
      [Event.sdk SdkCall.SVBStopVideoCapture,
       Event.sdk (SdkCall.SVBSetCameraMode SVB_CAMERA_MODE.SVB_MODE_TRIG_SOFT),
       Event.sdk (SdkCall.SVBSetROIFormat s1.x_offset s1.y_offset s1.PrimaryCCD.SubW
         s1.PrimaryCCD.SubH 1),
       Event.sdk SdkCall.SVBStartVideoCapture], ?_⟩
    simp only [resetCaptureModeAndRoi, sdkCall, hrest]
    simp [workaroundPrelude]

/-- With an SDK that answers every call with success, the discard exposure and
the real exposure end within one pass of their polling loops. -/
theorem workerExposure_returns (env : SdkEnv) (s : SVBDevice) (d : ℚ) (fuel : Nat)
    (hall : ∀ i, env.status i = SVB_SUCCESS) (hfuel : 0 < fuel) :
    ∃ s2, workerExposure env fuel s d = some s2 := by
  obtain ⟨f, rfl⟩ : ∃ f, fuel = f + 1 := ⟨fuel - 1, by omega⟩
  have hreal : ∀ t : SVBDevice, ∃ s2, exposeAndFetch env (f + 1) t d = some s2 := by
    intro t
    by_cases hqv : env.isAboutToQuit t.quitPolls = true
    · exact ⟨_, by simp [exposeAndFetch, exposurePoll, readQuit, sdkCall, emit, hall, hqv]; rfl⟩
    · simp only [Bool.not_eq_true] at hqv
      exact ⟨_, by
        simp [exposeAndFetch, exposurePoll, readQuit, sdkCall, emit, hall, hqv, SVBGetVideoData]
        rfl⟩
  unfold workerExposure
  split
  · have hw : ∃ s0, workaroundExposure env (f + 1) s (1 / 2) = some s0 :=
      ⟨_, by simp [workaroundExposure, workaroundPoll, SVBGetVideoData, sdkCall, hall]; rfl⟩
    obtain ⟨s0, hs0⟩ := hw
    rw [hs0]
    exact hreal s0
  · exact hreal s

/-- The microseconds and the fetch timeout of the discard exposure of 0.5 s. -/
theorem discard_constants :
    truncToLong ((1 / 2 : ℚ) * 1000 * 1000) = 500000 ∧
    truncToLong ((1 / 2 : ℚ) * 2000 + 500) = 1500 := by
  constructor <;> decide!

/-- Claim C22: with the workaround enabled and a positive configured duration,
every run of `workerExposure` starts with the discard exposure, whose exposure
control is set to 500000 microseconds whatever the configured duration is
(also right after the duration was configured through `ISNewNumber`), and
issues the set of the real exposure after it; without the workaround (or with
a duration that is not positive) no discard exposure is run and the first SDK
call is the set of the exposure control to the real duration.  With an SDK
that answers every call with success the worker does return. -/
theorem workerExposure_discard_exposure (env : SdkEnv) (s : SVBDevice) (d v : ℚ) (fuel : Nat) :
    (s.exposureWorkaroundEnable = true → 0 < s.exposureWorkaroundDuration →
      ∀ s2, workerExposure env fuel s d = some s2 →
        ∃ mid rest, s2.log = s.log ++
          [Event.sdk SdkCall.SVBStopVideoCapture,
           Event.sdk (SdkCall.SVBSetControlValue SVB_CONTROL_TYPE.SVB_EXPOSURE 500000 false),
           Event.sdk (SdkCall.SVBSetCameraMode SVB_CAMERA_MODE.SVB_MODE_NORMAL),
           Event.sdk (SdkCall.SVBSetROIFormat s.x_offset s.y_offset s.PrimaryCCD.SubW
             s.PrimaryCCD.SubH 1),
           Event.sdk SdkCall.SVBStartVideoCapture,
           Event.sdk (SdkCall.SVBSetROIFormat s.x_offset s.y_offset s.PrimaryCCD.SubW
             s.PrimaryCCD.SubH 1),
           Event.sdk SdkCall.SVBStartVideoCapture] ++ mid ++
          [Event.setExposureDuration d,
           Event.sdk (SdkCall.SVBSetControlValue SVB_CONTROL_TYPE.SVB_EXPOSURE
             (truncToLong (d * 1000 * 1000)) false)] ++ rest) ∧
    (s.exposureWorkaroundEnable = true → 0 < v →
      (ISNewNumberWorkaroundExp s v).2.exposureWorkaroundDuration = v ∧
      ∀ s2, workerExposure env fuel (ISNewNumberWorkaroundExp s v).2 d = some s2 →
        ∃ mid rest, s2.log = (ISNewNumberWorkaroundExp s v).2.log ++
          [Event.sdk SdkCall.SVBStopVideoCapture,
           Event.sdk (SdkCall.SVBSetControlValue SVB_CONTROL_TYPE.SVB_EXPOSURE 500000 false),
           Event.sdk (SdkCall.SVBSetCameraMode SVB_CAMERA_MODE.SVB_MODE_NORMAL)] ++ mid ++
          [Event.setExposureDuration d,
           Event.sdk (SdkCall.SVBSetControlValue SVB_CONTROL_TYPE.SVB_EXPOSURE
             (truncToLong (d * 1000 * 1000)) false)] ++ rest) ∧
    (¬ (s.exposureWorkaroundEnable = true ∧ 0 < s.exposureWorkaroundDuration) →
      ∀ s2, workerExposure env fuel s d = some s2 →
        ∃ rest, s2.log = s.log ++
          [Event.setExposureDuration d,
           Event.sdk (SdkCall.SVBSetControlValue SVB_CONTROL_TYPE.SVB_EXPOSURE
             (truncToLong (d * 1000 * 1000)) false)] ++ rest) ∧
    ((∀ i, env.status i = SVB_SUCCESS) → 0 < fuel →
      ∃ s2, workerExposure env fuel s d = some s2) := by
  have gen : ∀ t : SVBDevice, t.exposureWorkaroundEnable = true →
      0 < t.exposureWorkaroundDuration →
      ∀ s2, workerExposure env fuel t d = some s2 →
        ∃ mid rest, s2.log = t.log ++ workaroundPrelude t (1 / 2) ++ mid ++
          [Event.setExposureDuration d,
           Event.sdk (SdkCall.SVBSetControlValue SVB_CONTROL_TYPE.SVB_EXPOSURE
             (truncToLong (d * 1000 * 1000)) false)] ++ rest := by
    intro t hen hdur s2 h
    unfold workerExposure at h
    rw [if_pos ⟨hen, hdur⟩] at h
    split at h
    · cases h
    · next s0 hs0 =>
      obtain ⟨mid, hmid⟩ := workaroundExposure_starts env fuel t s0 _ hs0
      obtain ⟨⟨rest, hrest⟩, -⟩ := exposeAndFetch_starts env fuel s0 s2 d h
      exact ⟨mid, rest, by rw [hrest, hmid]⟩
  refine ⟨?_, ?_, ?_, ?_⟩
  · intro hen hdur s2 h
    obtain ⟨mid, rest, hlog⟩ := gen s hen hdur s2 h
    refine ⟨mid, rest, ?_⟩
    simp only [workaroundPrelude, discard_constants.1] at hlog
    rw [hlog]
  · intro hen hv
    refine ⟨rfl, ?_⟩
    intro s2 h
    obtain ⟨mid, rest, hlog⟩ := gen (ISNewNumberWorkaroundExp s v).2 hen hv s2 h
    refine ⟨[Event.sdk (SdkCall.SVBSetROIFormat s.x_offset s.y_offset s.PrimaryCCD.SubW
             s.PrimaryCCD.SubH 1),
           Event.sdk SdkCall.SVBStartVideoCapture,
           Event.sdk (SdkCall.SVBSetROIFormat s.x_offset s.y_offset s.PrimaryCCD.SubW
             s.PrimaryCCD.SubH 1),
           Event.sdk SdkCall.SVBStartVideoCapture] ++ mid, rest, ?_⟩
    simp only [workaroundPrelude, discard_constants.1] at hlog
    rw [hlog]
    simp [ISNewNumberWorkaroundExp, emit]
  · intro hno s2 h
    unfold workerExposure at h
    have hno2 : ¬ (s.exposureWorkaroundEnable = true ∧ s.exposureWorkaroundDuration > 0) := hno
    rw [if_neg hno2] at h
    exact (exposeAndFetch_starts env fuel s s2 d h).1
  · intro hall hfuel
    exact workerExposure_returns env s d fuel hall hfuel

/-- A run of C22 with the workaround enabled on an SDK that answers every call
with success. -/
theorem workerExposure_discard_exposure_witness :
    devWorkaround.exposureWorkaroundEnable = true ∧
    0 < devWorkaround.exposureWorkaroundDuration ∧
    ∃ s2, workerExposure envAllSuccess 1 devWorkaround 1 = some s2 ∧
      ∃ mid rest, s2.log = devWorkaround.log ++
        [Event.sdk SdkCall.SVBStopVideoCapture,
         Event.sdk (SdkCall.SVBSetControlValue SVB_CONTROL_TYPE.SVB_EXPOSURE 500000 false),
         Event.sdk (SdkCall.SVBSetCameraMode SVB_CAMERA_MODE.SVB_MODE_NORMAL),
         Event.sdk (SdkCall.SVBSetROIFormat devWorkaround.x_offset devWorkaround.y_offset
           devWorkaround.PrimaryCCD.SubW devWorkaround.PrimaryCCD.SubH 1),
         Event.sdk SdkCall.SVBStartVideoCapture,
         Event.sdk (SdkCall.SVBSetROIFormat devWorkaround.x_offset devWorkaround.y_offset
           devWorkaround.PrimaryCCD.SubW devWorkaround.PrimaryCCD.SubH 1),
         Event.sdk SdkCall.SVBStartVideoCapture] ++ mid ++
        [Event.setExposureDuration 1,
         Event.sdk (SdkCall.SVBSetControlValue SVB_CONTROL_TYPE.SVB_EXPOSURE
           (truncToLong (1 * 1000 * 1000)) false)] ++ rest := by
  have h := workerExposure_discard_exposure envAllSuccess devWorkaround 1 1 1
  obtain ⟨s2, hs2⟩ := h.2.2.2 (fun _ => rfl) (by decide)
  exact ⟨rfl, by decide!, s2, hs2, h.1 rfl (by decide!) s2 hs2⟩

/-- The polling loop of the discard exposure on `k` timeouts followed by a
status that is neither success nor timeout: `k + 1` fetches, the exposure is
marked failed and the loop reports the failure. -/
theorem workaroundPoll_hard_failure (env : SdkEnv) (w : Int) (k : Nat) :
    ∀ (fuel : Nat) (s : SVBDevice), k < fuel →
      (∀ j, j < k → env.status (s.sdkCalls + j) = SVB_ERROR_TIMEOUT) →
      env.status (s.sdkCalls + k) ≠ SVB_SUCCESS →
      env.status (s.sdkCalls + k) ≠ SVB_ERROR_TIMEOUT →
      ∃ s2, workaroundPoll env w fuel s = some (false, s2) ∧
        s2.log = s.log ++ List.replicate (k + 1)
          (Event.sdk (SdkCall.SVBGetVideoData false s.PrimaryCCD.frameBufferSize w)) ++
          [Event.setExposureFailed] ∧
        s2.sdkCalls = s.sdkCalls + (k + 1) ∧
        s2.inExposure = s.inExposure := by
  induction k with
  | zero =>
    intro fuel s hfuel _ h1 h2
    obtain ⟨f, rfl⟩ : ∃ f, fuel = f + 1 := ⟨fuel - 1, by omega⟩
    simp only [Nat.add_zero] at h1 h2
    exact ⟨_, by simp [workaroundPoll, SVBGetVideoData, sdkCall, h1, h2]; rfl,
      by simp [emit, sdkCall], by simp [emit, sdkCall], by simp [emit, sdkCall]⟩
  | succ k ih =>
    intro fuel s hfuel hT h1 h2
    obtain ⟨f, rfl⟩ : ∃ f, fuel = f + 1 := ⟨fuel - 1, by omega⟩
    have h0 : env.status s.sdkCalls = SVB_ERROR_TIMEOUT := by
      simpa using hT 0 (Nat.succ_pos k)
    let s1 : SVBDevice := (SVBGetVideoData env s false s.PrimaryCCD.frameBufferSize w).2
    have hs1 : s1.sdkCalls = s.sdkCalls + 1 := by simp [s1, SVBGetVideoData, sdkCall]
    obtain ⟨s2, e1, e2, e3, e4⟩ := ih f s1 (by omega)
      (by
        intro j hj
        rw [hs1]
        have := hT (j + 1) (by omega)
        rw [← this]; congr 1; omega)
      (by
        intro hcon; apply h1; rw [← hcon, hs1]; congr 1; omega)
      (by
        intro hcon; apply h2; rw [← hcon, hs1]; congr 1; omega)
    have hstep : workaroundPoll env w (f + 1) s = workaroundPoll env w f s1 := by
      simp [workaroundPoll, SVBGetVideoData, sdkCall, h0, s1]
    refine ⟨s2, by rw [hstep, e1], ?_, ?_, ?_⟩
    · rw [e2]
      simp [s1, SVBGetVideoData, sdkCall, List.replicate_succ]
    · rw [e3, hs1]; omega
    · rw [e4]; simp [s1, SVBGetVideoData, sdkCall]

/-- The polling loop of the discard exposure touches neither the cancellation
counter nor the buffer size. -/
theorem workaroundPoll_keeps (env : SdkEnv) (w : Int) (fuel : Nat) :
    ∀ (s s2 : SVBDevice) (b : Bool), workaroundPoll env w fuel s = some (b, s2) →
      s2.quitPolls = s.quitPolls ∧
      s2.PrimaryCCD.frameBufferSize = s.PrimaryCCD.frameBufferSize := by
  induction fuel with
  | zero => intro s s2 b h; simp [workaroundPoll] at h
  | succ n ih =>
    intro s s2 b h
    unfold workaroundPoll at h
    simp only [] at h
    split at h
    · cases h; simp [emit, SVBGetVideoData, sdkCall]
    · split at h
      · obtain ⟨a1, a2⟩ := ih _ _ _ h
        rw [a1, a2]; simp [SVBGetVideoData, sdkCall]
      · cases h; simp [SVBGetVideoData, sdkCall]

/-- The real exposure when the set of the exposure control fails: it is marked
failed and the worker part returns. -/
theorem exposeAndFetch_set_fails (env : SdkEnv) (fuel : Nat) (t : SVBDevice) (c : ℚ)
    (h0 : env.status t.sdkCalls ≠ SVB_SUCCESS) :
    ∃ s2, exposeAndFetch env fuel t c = some s2 ∧
      s2.log = t.log ++
        [Event.setExposureDuration c,
         Event.sdk (SdkCall.SVBSetControlValue SVB_CONTROL_TYPE.SVB_EXPOSURE
           (truncToLong (c * 1000 * 1000)) false),
         Event.setExposureFailed] := by
  refine ⟨_, by
    unfold exposeAndFetch
    simp only []
    rw [if_pos (by simp [sdkCall, emit, h0])], ?_⟩
  simp [sdkCall, emit]

/-- The real exposure when the exposure control is set and the soft trigger
fails: it is marked failed and the worker part returns. -/
theorem exposeAndFetch_trigger_fails (env : SdkEnv) (fuel : Nat) (t : SVBDevice) (c : ℚ)
    (h0 : env.status t.sdkCalls = SVB_SUCCESS)
    (h1 : env.status (t.sdkCalls + 1) ≠ SVB_SUCCESS) :
    ∃ s2, exposeAndFetch env fuel t c = some s2 ∧
      s2.log = t.log ++
        [Event.setExposureDuration c,
         Event.sdk (SdkCall.SVBSetControlValue SVB_CONTROL_TYPE.SVB_EXPOSURE
           (truncToLong (c * 1000 * 1000)) false),
         Event.sdk SdkCall.SVBSendSoftTrigger,
         Event.setExposureFailed] := by
  refine ⟨_, by
    unfold exposeAndFetch
    simp only []
    rw [if_neg (by simp [sdkCall, emit, h0]), if_pos (by simp [sdkCall, emit, h1])], ?_⟩
  simp [sdkCall, emit]

/-- The real exposure when it is set and triggered and the polling loop ends
with outcome `o` in state `p`: what the worker part returns. -/
theorem exposeAndFetch_polls (env : SdkEnv) (fuel : Nat) (t p : SVBDevice) (c : ℚ)
    (o : PollOutcome)
    (h0 : env.status t.sdkCalls = SVB_SUCCESS)
    (h1 : env.status (t.sdkCalls + 1) = SVB_SUCCESS)
    (hp : exposurePoll env SVB_SUCCESS fuel
      (sdkCall env (sdkCall env
        (emit { t with PrimaryCCD := { t.PrimaryCCD with exposureDuration := c } }
          (Event.setExposureDuration c))
        (SdkCall.SVBSetControlValue SVB_CONTROL_TYPE.SVB_EXPOSURE
          (truncToLong (c * 1000 * 1000)) false)).2 SdkCall.SVBSendSoftTrigger).2 =
      some (o, p)) :
    exposeAndFetch env fuel t c =
      some (if o = PollOutcome.fetched then exposureDone env p else p) := by
  unfold exposeAndFetch
  simp only []
  have hr1 : ¬ ((sdkCall env
      (emit { t with PrimaryCCD := { t.PrimaryCCD with exposureDuration := c } }
        (Event.setExposureDuration c))
      (SdkCall.SVBSetControlValue SVB_CONTROL_TYPE.SVB_EXPOSURE
        (truncToLong (c * 1000 * 1000)) false)).1 ≠ SVB_SUCCESS) := by
    simp [sdkCall, emit, h0]
  rw [if_neg hr1]
  have hr2 : (sdkCall env (sdkCall env
      (emit { t with PrimaryCCD := { t.PrimaryCCD with exposureDuration := c } }
        (Event.setExposureDuration c))
      (SdkCall.SVBSetControlValue SVB_CONTROL_TYPE.SVB_EXPOSURE
        (truncToLong (c * 1000 * 1000)) false)).2 SdkCall.SVBSendSoftTrigger).1 =
      SVB_SUCCESS := by
    simp [sdkCall, emit, h1]
  rw [if_neg (by rw [hr2]; simp), hr2, hp]
  cases o <;> rfl

/-- The real exposure when it is set and triggered, the first `n` fetches time
out and the next one succeeds, without cancellation: the worker part returns
after `n + 1` fetches and the completion of the exposure. -/
theorem exposeAndFetch_fetches (env : SdkEnv) (fuel n : Nat) (t : SVBDevice) (c : ℚ)
    (h0 : env.status t.sdkCalls = SVB_SUCCESS)
    (h1 : env.status (t.sdkCalls + 1) = SVB_SUCCESS)
    (hT : ∀ k, k < n → env.status (t.sdkCalls + 2 + k) = SVB_ERROR_TIMEOUT)
    (hS : env.status (t.sdkCalls + 2 + n) = SVB_SUCCESS)
    (hq : ∀ j, env.isAboutToQuit j = false)
    (hfuel : n < fuel) :
    ∃ s2 rest, exposeAndFetch env fuel t c = some s2 ∧
      s2.log = t.log ++
        [Event.setExposureDuration c,
         Event.sdk (SdkCall.SVBSetControlValue SVB_CONTROL_TYPE.SVB_EXPOSURE
           (truncToLong (c * 1000 * 1000)) false),
         Event.sdk SdkCall.SVBSendSoftTrigger] ++
        List.replicate (n + 1)
          (Event.sdk (SdkCall.SVBGetVideoData true t.PrimaryCCD.frameBufferSize 100)) ++
        [Event.setExposureLeft 0] ++ rest ∧
      s2.inExposure = false := by
  let s1 : SVBDevice := (sdkCall env (sdkCall env
    (emit { t with PrimaryCCD := { t.PrimaryCCD with exposureDuration := c } }
      (Event.setExposureDuration c))
    (SdkCall.SVBSetControlValue SVB_CONTROL_TYPE.SVB_EXPOSURE
      (truncToLong (c * 1000 * 1000)) false)).2 SdkCall.SVBSendSoftTrigger).2
  have hs1 : s1.sdkCalls = t.sdkCalls + 2 := by simp [s1, sdkCall, emit]
  obtain ⟨data, hd⟩ := exposurePoll_timeouts env hq n fuel s1 hfuel
    (by intro k hk; rw [hs1]; exact hT k hk) (by rw [hs1]; exact hS)
  let p : SVBDevice :=
    { s1 with
      PrimaryCCD := { s1.PrimaryCCD with frameBuffer := data }
      lastFetched := data
      sdkCalls := s1.sdkCalls + (n + 1)
      quitPolls := s1.quitPolls + (n + 1)
      log := s1.log ++ List.replicate (n + 1)
        (Event.sdk (SdkCall.SVBGetVideoData true s1.PrimaryCCD.frameBufferSize 100)) }
  have hrun := exposeAndFetch_polls env fuel t p c PollOutcome.fetched h0 h1 hd
  rw [if_pos rfl] at hrun
  obtain ⟨e1, -, e3, -⟩ := exposureDone_spec env p
  refine ⟨exposureDone env p,
    (if isBinningActive p then [Event.binFrame] else []) ++
      [Event.ExposureComplete (exposureDone env p).PrimaryCCD.frameBuffer,
       Event.sdk (SdkCall.SVBGetControlValue SVB_CONTROL_TYPE.SVB_BLACK_LEVEL)],
    hrun, ?_, e3⟩
  rw [e1]
  simp [p, s1, sdkCall, emit]

/-- The real exposure when it is set and triggered, the fetches of the first
`n` iterations do not succeed and the cancellation flag is set when the next
one begins: the worker part returns after those `n` fetches. -/
theorem exposeAndFetch_cancelled (env : SdkEnv) (fuel n : Nat) (t : SVBDevice) (c : ℚ)
    (h0 : env.status t.sdkCalls = SVB_SUCCESS)
    (h1 : env.status (t.sdkCalls + 1) = SVB_SUCCESS)
    (hT : ∀ k, k < n → env.status (t.sdkCalls + 2 + k) ≠ SVB_SUCCESS)
    (hq : ∀ k, k < n → env.isAboutToQuit (t.quitPolls + k) = false)
    (hc : env.isAboutToQuit (t.quitPolls + n) = true)
    (hfuel : n < fuel) :
    ∃ s2, exposeAndFetch env fuel t c = some s2 ∧
      s2.log = t.log ++
        [Event.setExposureDuration c,
         Event.sdk (SdkCall.SVBSetControlValue SVB_CONTROL_TYPE.SVB_EXPOSURE
           (truncToLong (c * 1000 * 1000)) false),
         Event.sdk SdkCall.SVBSendSoftTrigger] ++
        List.replicate n
          (Event.sdk (SdkCall.SVBGetVideoData true t.PrimaryCCD.frameBufferSize 100)) := by
  let s1 : SVBDevice := (sdkCall env (sdkCall env
    (emit { t with PrimaryCCD := { t.PrimaryCCD with exposureDuration := c } }
      (Event.setExposureDuration c))
    (SdkCall.SVBSetControlValue SVB_CONTROL_TYPE.SVB_EXPOSURE
      (truncToLong (c * 1000 * 1000)) false)).2 SdkCall.SVBSendSoftTrigger).2
  have hs1 : s1.sdkCalls = t.sdkCalls + 2 := by simp [s1, sdkCall, emit]
  have hs2 : s1.quitPolls = t.quitPolls := by simp [s1, sdkCall, emit]
  obtain ⟨s2, e1, e2, -⟩ := exposurePoll_cancelled env n fuel s1 hfuel
    (by intro k hk; rw [hs2]; exact hq k hk)
    (by rw [hs2]; exact hc)
    (by intro k hk; rw [hs1]; exact hT k hk)
  have hrun := exposeAndFetch_polls env fuel t _ c PollOutcome.cancelled h0 h1 e1
  rw [if_neg (by decide)] at hrun
  refine ⟨s2, hrun, ?_⟩
  rw [e2]
  simp [s1, sdkCall, emit]

/-- Claim C28: with the workaround enabled, when the frame fetch of the discard
exposure times out `k` times and then fails with a status that is neither
success nor timeout, `workaroundExposure` marks the exposure failed and
returns: its trace ends there, with no mode-reset sequence after the
set-mode NORMAL of its start; `workerExposure` then goes on with the real
exposure from that state: it records the duration and sets the exposure
control, and sends the soft trigger when that set succeeds.  The worker does
return after that: at once when that set or the trigger fails, after the
fetches of the polling loop and the completion of the exposure when a fetch
succeeds, and after the fetches made so far when it is cancelled. -/
theorem workaroundExposure_fetch_failure (env : SdkEnv) (s : SVBDevice) (d : ℚ) (k fuel : Nat)
    (hen : s.exposureWorkaroundEnable = true) (hdur : 0 < s.exposureWorkaroundDuration)
    (hT : ∀ j, j < k → env.status (s.sdkCalls + 7 + j) = SVB_ERROR_TIMEOUT)
    (hF1 : env.status (s.sdkCalls + 7 + k) ≠ SVB_SUCCESS)
    (hF2 : env.status (s.sdkCalls + 7 + k) ≠ SVB_ERROR_TIMEOUT)
    (hfuel : k < fuel) :
    ∃ s1, workaroundExposure env fuel s (1 / 2) = some s1 ∧
      s1.log = s.log ++
        [Event.sdk SdkCall.SVBStopVideoCapture,
         Event.sdk (SdkCall.SVBSetControlValue SVB_CONTROL_TYPE.SVB_EXPOSURE 500000 false),
         Event.sdk (SdkCall.SVBSetCameraMode SVB_CAMERA_MODE.SVB_MODE_NORMAL),
         Event.sdk (SdkCall.SVBSetROIFormat s.x_offset s.y_offset s.PrimaryCCD.SubW
           s.PrimaryCCD.SubH 1),
         Event.sdk SdkCall.SVBStartVideoCapture,
         Event.sdk (SdkCall.SVBSetROIFormat s.x_offset s.y_offset s.PrimaryCCD.SubW
           s.PrimaryCCD.SubH 1),
         Event.sdk SdkCall.SVBStartVideoCapture] ++
        List.replicate (k + 1)
          (Event.sdk (SdkCall.SVBGetVideoData false s.PrimaryCCD.frameBufferSize 1500)) ++
        [Event.setExposureFailed] ∧
      s1.sdkCalls = s.sdkCalls + 8 + k ∧
      workerExposure env fuel s d = exposeAndFetch env fuel s1 d ∧
      (∀ s2, workerExposure env fuel s d = some s2 →
        (∃ rest, s2.log = s1.log ++
          [Event.setExposureDuration d,
           Event.sdk (SdkCall.SVBSetControlValue SVB_CONTROL_TYPE.SVB_EXPOSURE
             (truncToLong (d * 1000 * 1000)) false)] ++ rest) ∧
        (env.status (s.sdkCalls + 8 + k) = SVB_SUCCESS →
          ∃ rest, s2.log = s1.log ++
            [Event.setExposureDuration d,
             Event.sdk (SdkCall.SVBSetControlValue SVB_CONTROL_TYPE.SVB_EXPOSURE
               (truncToLong (d * 1000 * 1000)) false),
             Event.sdk SdkCall.SVBSendSoftTrigger] ++ rest)) ∧
      (env.status (s.sdkCalls + 8 + k) ≠ SVB_SUCCESS →
        ∃ s2, workerExposure env fuel s d = some s2 ∧
          s2.log = s1.log ++
            [Event.setExposureDuration d,
             Event.sdk (SdkCall.SVBSetControlValue SVB_CONTROL_TYPE.SVB_EXPOSURE
               (truncToLong (d * 1000 * 1000)) false),
             Event.setExposureFailed]) ∧
      (env.status (s.sdkCalls + 8 + k) = SVB_SUCCESS →
        env.status (s.sdkCalls + 9 + k) ≠ SVB_SUCCESS →
        ∃ s2, workerExposure env fuel s d = some s2 ∧
          s2.log = s1.log ++
            [Event.setExposureDuration d,
             Event.sdk (SdkCall.SVBSetControlValue SVB_CONTROL_TYPE.SVB_EXPOSURE
               (truncToLong (d * 1000 * 1000)) false),
             Event.sdk SdkCall.SVBSendSoftTrigger,
             Event.setExposureFailed]) ∧
      (env.status (s.sdkCalls + 8 + k) = SVB_SUCCESS →
        env.status (s.sdkCalls + 9 + k) = SVB_SUCCESS →
        ∀ n, n < fuel →
          (∀ j, j < n → env.status (s.sdkCalls + 10 + k + j) = SVB_ERROR_TIMEOUT) →
          env.status (s.sdkCalls + 10 + k + n) = SVB_SUCCESS →
          (∀ j, env.isAboutToQuit j = false) →
          ∃ s2 rest, workerExposure env fuel s d = some s2 ∧
            s2.log = s1.log ++
              [Event.setExposureDuration d,
               Event.sdk (SdkCall.SVBSetControlValue SVB_CONTROL_TYPE.SVB_EXPOSURE
                 (truncToLong (d * 1000 * 1000)) false),
               Event.sdk SdkCall.SVBSendSoftTrigger] ++
              List.replicate (n + 1)
                (Event.sdk (SdkCall.SVBGetVideoData true s.PrimaryCCD.frameBufferSize 100)) ++
              [Event.setExposureLeft 0] ++ rest ∧
            s2.inExposure = false) ∧
      (env.status (s.sdkCalls + 8 + k) = SVB_SUCCESS →
        env.status (s.sdkCalls + 9 + k) = SVB_SUCCESS →
        ∀ n, n < fuel →
          (∀ j, j < n → env.status (s.sdkCalls + 10 + k + j) ≠ SVB_SUCCESS) →
          (∀ j, j < n → env.isAboutToQuit (s.quitPolls + j) = false) →
          env.isAboutToQuit (s.quitPolls + n) = true →
          ∃ s2, workerExposure env fuel s d = some s2 ∧
            s2.log = s1.log ++
              [Event.setExposureDuration d,
               Event.sdk (SdkCall.SVBSetControlValue SVB_CONTROL_TYPE.SVB_EXPOSURE
                 (truncToLong (d * 1000 * 1000)) false),
               Event.sdk SdkCall.SVBSendSoftTrigger] ++
              List.replicate n
                (Event.sdk (SdkCall.SVBGetVideoData true s.PrimaryCCD.frameBufferSize 100))) := by
  let s7 : SVBDevice := (sdkCall env (sdkCall env (sdkCall env (sdkCall env (sdkCall env
    (sdkCall env (sdkCall env s SdkCall.SVBStopVideoCapture).2
      (SdkCall.SVBSetControlValue SVB_CONTROL_TYPE.SVB_EXPOSURE
        (truncToLong ((1 / 2 : ℚ) * 1000 * 1000)) false)).2
      (SdkCall.SVBSetCameraMode SVB_CAMERA_MODE.SVB_MODE_NORMAL)).2
      (SdkCall.SVBSetROIFormat s.x_offset s.y_offset s.PrimaryCCD.SubW s.PrimaryCCD.SubH 1)).2
      SdkCall.SVBStartVideoCapture).2
      (SdkCall.SVBSetROIFormat s.x_offset s.y_offset s.PrimaryCCD.SubW s.PrimaryCCD.SubH 1)).2
      SdkCall.SVBStartVideoCapture).2
  have h7 : s7.sdkCalls = s.sdkCalls + 7 := by simp [s7, sdkCall]
  obtain ⟨s1, e1, e2, e3, e4⟩ := workaroundPoll_hard_failure env
    (truncToLong ((1 / 2 : ℚ) * 2000 + 500)) k fuel s7 hfuel
    (by intro j hj; rw [h7]; exact hT j hj)
    (by rw [h7]; exact hF1) (by rw [h7]; exact hF2)
  have hrun : workaroundExposure env fuel s (1 / 2) = some s1 := by
    unfold workaroundExposure
    simp only []
    change (match workaroundPoll env (truncToLong ((1 / 2 : ℚ) * 2000 + 500)) fuel s7 with
      | none => none
      | some (false, s1) => some s1
      | some (true, s1) =>
        some (resetCaptureModeAndRoi env s1 SVB_CAMERA_MODE.SVB_MODE_TRIG_SOFT)) = some s1
    rw [e1]
  have hwork : workerExposure env fuel s d = exposeAndFetch env fuel s1 d := by
    unfold workerExposure
    rw [if_pos ⟨hen, hdur⟩, hrun]
  have hs1 : s1.sdkCalls = s.sdkCalls + 8 + k := by rw [e3, h7]; omega
  obtain ⟨k1, k2⟩ := workaroundPoll_keeps env _ fuel s7 s1 false e1
  have hqp : s1.quitPolls = s.quitPolls := by rw [k1]; simp [s7, sdkCall]
  have hfb : s1.PrimaryCCD.frameBufferSize = s.PrimaryCCD.frameBufferSize := by
    rw [k2]; simp [s7, sdkCall]
  refine ⟨s1, hrun, ?_, hs1, hwork, ?_, ?_, ?_, ?_, ?_⟩
  · rw [e2]
    simp only [s7, sdkCall, discard_constants.1, discard_constants.2]
    simp
  · intro s2 h2
    rw [hwork] at h2
    obtain ⟨a, b⟩ := exposeAndFetch_starts env fuel s1 s2 d h2
    exact ⟨a, fun hs => b (by rw [hs1]; exact hs)⟩
  · intro h0
    rw [hwork]
    exact exposeAndFetch_set_fails env fuel s1 d (by rw [hs1]; exact h0)
  · intro h0 h1
    rw [hwork]
    exact exposeAndFetch_trigger_fails env fuel s1 d (by rw [hs1]; exact h0)
      (by rw [hs1]; intro hcon; apply h1; rw [← hcon]; congr 1; omega)
  · intro h0 h1 n hn hT hS hq
    rw [hwork, ← hfb]
    exact exposeAndFetch_fetches env fuel n s1 d (by rw [hs1]; exact h0)
      (by rw [hs1, ← h1]; congr 1; omega)
      (by intro j hj; rw [hs1, ← hT j hj]; congr 1; omega)
      (by rw [hs1, ← hS]; congr 1; omega) hq hn
  · intro h0 h1 n hn hT hq hc
    rw [hwork, ← hfb]
    exact exposeAndFetch_cancelled env fuel n s1 d (by rw [hs1]; exact h0)
      (by rw [hs1, ← h1]; congr 1; omega)
      (by intro j hj hcon; apply hT j hj; rw [← hcon, hs1]; congr 1; omega)
      (by intro j hj; rw [hqp]; exact hq j hj)
      (by rw [hqp]; exact hc) hn

/-- The case of C28 in which the first fetch of the discard exposure fails
with a general error, every other call succeeding: the worker returns after
the real exposure was set, triggered, fetched and completed. -/
theorem workaroundExposure_fetch_failure_witness :
    ∃ s1, workaroundExposure envDiscardFails 1 devWorkaround (1 / 2) = some s1 ∧
      s1.log = devWorkaround.log ++
        [Event.sdk SdkCall.SVBStopVideoCapture,
         Event.sdk (SdkCall.SVBSetControlValue SVB_CONTROL_TYPE.SVB_EXPOSURE 500000 false),
         Event.sdk (SdkCall.SVBSetCameraMode SVB_CAMERA_MODE.SVB_MODE_NORMAL),
         Event.sdk (SdkCall.SVBSetROIFormat devWorkaround.x_offset devWorkaround.y_offset
           devWorkaround.PrimaryCCD.SubW devWorkaround.PrimaryCCD.SubH 1),
         Event.sdk SdkCall.SVBStartVideoCapture,
         Event.sdk (SdkCall.SVBSetROIFormat devWorkaround.x_offset devWorkaround.y_offset
           devWorkaround.PrimaryCCD.SubW devWorkaround.PrimaryCCD.SubH 1),
         Event.sdk SdkCall.SVBStartVideoCapture] ++
        List.replicate (0 + 1)
          (Event.sdk (SdkCall.SVBGetVideoData false devWorkaround.PrimaryCCD.frameBufferSize
            1500)) ++
        [Event.setExposureFailed] ∧
      ∃ s2 rest, workerExposure envDiscardFails 1 devWorkaround 1 = some s2 ∧
        s2.log = s1.log ++
          [Event.setExposureDuration 1,
           Event.sdk (SdkCall.SVBSetControlValue SVB_CONTROL_TYPE.SVB_EXPOSURE
             (truncToLong (1 * 1000 * 1000)) false),
           Event.sdk SdkCall.SVBSendSoftTrigger] ++
          List.replicate (0 + 1)
            (Event.sdk (SdkCall.SVBGetVideoData true devWorkaround.PrimaryCCD.frameBufferSize
              100)) ++
          [Event.setExposureLeft 0] ++ rest ∧
        s2.inExposure = false := by
  obtain ⟨s1, a1, a2, -, -, -, -, -, a8, -⟩ :=
    workaroundExposure_fetch_failure envDiscardFails devWorkaround 1 0 1 rfl (by decide!)
      (fun j hj => absurd hj (Nat.not_lt_zero j)) (by decide) (by decide) (by decide)
  obtain ⟨s2, rest, b⟩ := a8 (by decide) (by decide) 0 (by decide)
    (fun j hj => absurd hj (Nat.not_lt_zero j)) (by decide) (fun _ => rfl)
  exact ⟨s1, a1, a2, s2, rest, b⟩

/-- The run of that case to its end: after the failed discard exposure the
real exposure is set, triggered, fetched and completed. -/
theorem workaroundExposure_fetch_failure_run :
    Option.map (fun r => r.log) (workerExposure envDiscardFails 1 devWorkaround 1) =
      some
        [Event.sdk SdkCall.SVBStopVideoCapture,
         Event.sdk (SdkCall.SVBSetControlValue SVB_CONTROL_TYPE.SVB_EXPOSURE 500000 false),
         Event.sdk (SdkCall.SVBSetCameraMode SVB_CAMERA_MODE.SVB_MODE_NORMAL),
         Event.sdk (SdkCall.SVBSetROIFormat 0 0 1920 1080 1),
         Event.sdk SdkCall.SVBStartVideoCapture,
         Event.sdk (SdkCall.SVBSetROIFormat 0 0 1920 1080 1),
         Event.sdk SdkCall.SVBStartVideoCapture,
         Event.sdk (SdkCall.SVBGetVideoData false 0 1500),
         Event.setExposureFailed,
         Event.setExposureDuration 1,
         Event.sdk (SdkCall.SVBSetControlValue SVB_CONTROL_TYPE.SVB_EXPOSURE 1000000 false),
         Event.sdk SdkCall.SVBSendSoftTrigger,
         Event.sdk (SdkCall.SVBGetVideoData true 0 100),
         Event.setExposureLeft 0,
         Event.ExposureComplete [],
         Event.sdk (SdkCall.SVBGetControlValue SVB_CONTROL_TYPE.SVB_BLACK_LEVEL)] := by
  decide!

/-! ### Control update -/

/-- The store of `IUUpdateNumber` puts the requested value in the slot. -/
theorem IUUpdateNumber_value (cs : List INumber) (slot : Nat) (v : ℚ) (h : slot < cs.length) :
    ((IUUpdateNumber cs slot v).getD slot {}).value = v := by
  simp [IUUpdateNumber, List.getD_eq_getElem?_getD, h]

/-- Claim C24, amended: `updateControl` first stores the requested value in
the locally held number of the control and then passes it to
`SVBSetControlValue`.  When that call fails it returns false with no further
call, the state of the property untouched, and the locally held value is the
requested one, not the one before the call.  When it succeeds it reads the
control back, marks the property OK, publishes it and returns true, whatever
the status of the read-back. -/
theorem updateControl_result (env : SdkEnv) (s : SVBDevice) (slot : Nat)
    (ctl : SVB_CONTROL_TYPE) (v : ℚ) (hslot : slot < s.base.ControlsN.length) :
    (env.status s.sdkCalls ≠ SVB_SUCCESS →
      (updateControl env s slot ctl v).1 = false ∧
      (updateControl env s slot ctl v).2.log = s.log ++
        [Event.sdk (SdkCall.SVBSetControlValue ctl (truncToLong v) false)] ∧
      ((updateControl env s slot ctl v).2.base.ControlsN.getD slot {}).value = v ∧
      (updateControl env s slot ctl v).2.props = s.props) ∧
    (env.status s.sdkCalls = SVB_SUCCESS →
      (updateControl env s slot ctl v).1 = true ∧
      (updateControl env s slot ctl v).2.log = s.log ++
        [Event.sdk (SdkCall.SVBSetControlValue ctl (truncToLong v) false),
         Event.sdk (SdkCall.SVBGetControlValue ctl),
         Event.IDSetNumberControl slot] ∧
      ((updateControl env s slot ctl v).2.base.ControlsN.getD slot {}).value = v ∧
      (updateControl env s slot ctl v).2.props.ControlsNPs =
        s.props.ControlsNPs.set slot IPState.IPS_OK) := by
  have hv : ((IUUpdateNumber s.base.ControlsN slot v)[slot]?.getD {}).value = v := by
    simpa [List.getD_eq_getElem?_getD] using IUUpdateNumber_value s.base.ControlsN slot v hslot
  constructor
  · intro hs
    simp [updateControl, sdkCall, hs, hv]
  · intro hs
    simp [updateControl, sdkCall, emit, hs, hv]

/-- The amended C24 for a gain request of 20 on an SDK that fails every
call. -/
theorem updateControl_result_witness :
    0 < devGain.base.ControlsN.length ∧
    envAllFail.status devGain.sdkCalls ≠ SVB_SUCCESS ∧
    (updateControl envAllFail devGain 0 SVB_CONTROL_TYPE.SVB_GAIN 20).1 = false ∧
    (updateControl envAllFail devGain 0 SVB_CONTROL_TYPE.SVB_GAIN 20).2.log = devGain.log ++
      [Event.sdk (SdkCall.SVBSetControlValue SVB_CONTROL_TYPE.SVB_GAIN (truncToLong 20) false)] ∧
    ((updateControl envAllFail devGain 0 SVB_CONTROL_TYPE.SVB_GAIN 20).2.base.ControlsN.getD
      0 {}).value = 20 ∧
    (updateControl envAllFail devGain 0 SVB_CONTROL_TYPE.SVB_GAIN 20).2.props = devGain.props :=
  ⟨by decide, by decide,
    (updateControl_result envAllFail devGain 0 SVB_CONTROL_TYPE.SVB_GAIN 20 (by decide)).1
      (by decide)⟩

/-- Claim C24, counterexample: the gain is 10, a request of 20 is applied and
`SVBSetControlValue` fails; `updateControl` returns false and the locally held
gain is 20. -/
theorem updateControl_failure_changes_value :
    (devGain.base.ControlsN.getD 0 {}).value = 10 ∧
    envAllFail.status devGain.sdkCalls = SVB_ERROR_GENERAL_ERROR ∧
    (updateControl envAllFail devGain 0 SVB_CONTROL_TYPE.SVB_GAIN 20).1 = false ∧
    ((updateControl envAllFail devGain 0 SVB_CONTROL_TYPE.SVB_GAIN 20).2.base.ControlsN.getD
      0 {}).value = 20 := by
  refine ⟨?_, rfl, ?_, ?_⟩ <;> decide!

/-! ### Temperature poll -/

/-- The temperature poll, case by case.  When the read succeeds, the published
temperature and its state are updated exactly when the temperature read (SDK
value / 10) differs from the published value by more than 0.05; the published
value then is the temperature read and the state is as before.  When the read
fails, the new state is alert and the temperature compared is whatever
`mCurrentTemperature` holds: the property is updated exactly when the state
was not alert or that content differs from the published value by more than
0.05, the published value then being that content.  In the other cases the
published temperature, its state and its trace are left as they were. -/
theorem temperatureTimerTimeout_publish (env : SdkEnv) (s : SVBDevice) :
    (env.status s.sdkCalls = SVB_SUCCESS →
      |(env.controlValue s.sdkCalls : ℚ) / 10 - s.TemperatureValue| > 1 / 20 →
      (temperatureTimerTimeout env s).TemperatureValue = (env.controlValue s.sdkCalls : ℚ) / 10 ∧
      (temperatureTimerTimeout env s).props.TemperatureNPs = s.props.TemperatureNPs ∧
      (temperatureTimerTimeout env s).log = s.log ++
        [Event.sdk (SdkCall.SVBGetControlValue SVB_CONTROL_TYPE.SVB_CURRENT_TEMPERATURE),
         Event.IDSetNumberTemperature,
         Event.sdk (SdkCall.SVBGetControlValue SVB_CONTROL_TYPE.SVB_COOLER_POWER),
         Event.IDSetNumberCooler]) ∧
    (env.status s.sdkCalls = SVB_SUCCESS →
      ¬ (|(env.controlValue s.sdkCalls : ℚ) / 10 - s.TemperatureValue| > 1 / 20) →
      (temperatureTimerTimeout env s).TemperatureValue = s.TemperatureValue ∧
      (temperatureTimerTimeout env s).props.TemperatureNPs = s.props.TemperatureNPs ∧
      (temperatureTimerTimeout env s).log = s.log ++
        [Event.sdk (SdkCall.SVBGetControlValue SVB_CONTROL_TYPE.SVB_CURRENT_TEMPERATURE),
         Event.sdk (SdkCall.SVBGetControlValue SVB_CONTROL_TYPE.SVB_COOLER_POWER),
         Event.IDSetNumberCooler]) ∧
    (env.status s.sdkCalls ≠ SVB_SUCCESS →
      (s.props.TemperatureNPs ≠ IPState.IPS_ALERT ∨
        |s.props.mCurrentTemperature - s.TemperatureValue| > 1 / 20) →
      (temperatureTimerTimeout env s).TemperatureValue = s.props.mCurrentTemperature ∧
      (temperatureTimerTimeout env s).props.TemperatureNPs = IPState.IPS_ALERT ∧
      (temperatureTimerTimeout env s).log = s.log ++
        [Event.sdk (SdkCall.SVBGetControlValue SVB_CONTROL_TYPE.SVB_CURRENT_TEMPERATURE),
         Event.IDSetNumberTemperature,
         Event.sdk (SdkCall.SVBGetControlValue SVB_CONTROL_TYPE.SVB_COOLER_POWER),
         Event.IDSetNumberCooler]) ∧
    (env.status s.sdkCalls ≠ SVB_SUCCESS →
      s.props.TemperatureNPs = IPState.IPS_ALERT →
      ¬ (|s.props.mCurrentTemperature - s.TemperatureValue| > 1 / 20) →
      (temperatureTimerTimeout env s).TemperatureValue = s.TemperatureValue ∧
      (temperatureTimerTimeout env s).props.TemperatureNPs = s.props.TemperatureNPs ∧
      (temperatureTimerTimeout env s).log = s.log ++
        [Event.sdk (SdkCall.SVBGetControlValue SVB_CONTROL_TYPE.SVB_CURRENT_TEMPERATURE),
         Event.sdk (SdkCall.SVBGetControlValue SVB_CONTROL_TYPE.SVB_COOLER_POWER),
         Event.IDSetNumberCooler]) := by
  refine ⟨?_, ?_, ?_, ?_⟩
  · intro hs hd
    have hd2 : (20 : ℚ)⁻¹ < |(env.controlValue s.sdkCalls : ℚ) / 10 - s.TemperatureValue| := by
      simpa using hd
    by_cases hc : env.status (s.sdkCalls + 1) = SVB_SUCCESS <;>
      simp [temperatureTimerTimeout, sdkCall, emit, hs, hd2, hc]
  · intro hs hd
    have hd2 : ¬ ((20 : ℚ)⁻¹ < |(env.controlValue s.sdkCalls : ℚ) / 10 - s.TemperatureValue|) := by
      simpa using hd
    by_cases hc : env.status (s.sdkCalls + 1) = SVB_SUCCESS <;>
      simp [temperatureTimerTimeout, sdkCall, emit, hs, hd2, hc]
  · intro hs hd
    have hcond : (20 : ℚ)⁻¹ < |s.props.mCurrentTemperature - s.TemperatureValue| ∨
        ¬ s.props.TemperatureNPs = IPState.IPS_ALERT := by
      rcases hd with h | h
      · exact Or.inr h
      · exact Or.inl (by simpa using h)
    by_cases hc : env.status (s.sdkCalls + 1) = SVB_SUCCESS <;>
      simp [temperatureTimerTimeout, sdkCall, emit, hs, hcond, hc]
  · intro hs ha hd
    have hd2 : ¬ ((20 : ℚ)⁻¹ < |s.props.mCurrentTemperature - s.TemperatureValue|) := by
      simpa using hd
    by_cases hc : env.status (s.sdkCalls + 1) = SVB_SUCCESS <;>
      simp [temperatureTimerTimeout, sdkCall, emit, hs, ha, hd2, hc]

/-- A poll that reads 19.8 degrees while 25 is published. -/
theorem temperatureTimerTimeout_publish_example :
    envReads198.status devStale.sdkCalls = SVB_SUCCESS ∧
    |(envReads198.controlValue devStale.sdkCalls : ℚ) / 10 - devStale.TemperatureValue| > 1 / 20 ∧
    (temperatureTimerTimeout envReads198 devStale).TemperatureValue =
      (envReads198.controlValue devStale.sdkCalls : ℚ) / 10 ∧
    (temperatureTimerTimeout envReads198 devStale).props.TemperatureNPs =
      devStale.props.TemperatureNPs ∧
    (temperatureTimerTimeout envReads198 devStale).log = devStale.log ++
      [Event.sdk (SdkCall.SVBGetControlValue SVB_CONTROL_TYPE.SVB_CURRENT_TEMPERATURE),
       Event.IDSetNumberTemperature,
       Event.sdk (SdkCall.SVBGetControlValue SVB_CONTROL_TYPE.SVB_COOLER_POWER),
       Event.IDSetNumberCooler] :=
  ⟨rfl, by decide!,
    (temperatureTimerTimeout_publish envReads198 devStale).1 rfl (by decide!)⟩

/-- Claim C25, what the code does: the state of the temperature property is
alert, 25 degrees are published and the latest successful read gave 19.8
degrees; the read of the poll fails.  No temperature is newly read and the
state stays alert, yet the published 25 is replaced by the 19.8 of the
earlier read and the property is published again. -/
theorem temperatureTimerTimeout_publishes_stale :
    envAllFail.status devStale.sdkCalls ≠ SVB_SUCCESS ∧
    devStale.props.TemperatureNPs = IPState.IPS_ALERT ∧
    (temperatureTimerTimeout envAllFail devStale).props.TemperatureNPs = IPState.IPS_ALERT ∧
    devStale.TemperatureValue = 25 ∧
    devStale.props.mCurrentTemperature = 198 / 10 ∧
    (temperatureTimerTimeout envAllFail devStale).TemperatureValue = 198 / 10 ∧
    (temperatureTimerTimeout envAllFail devStale).log =
      [Event.sdk (SdkCall.SVBGetControlValue SVB_CONTROL_TYPE.SVB_CURRENT_TEMPERATURE),
       Event.IDSetNumberTemperature,
       Event.sdk (SdkCall.SVBGetControlValue SVB_CONTROL_TYPE.SVB_COOLER_POWER),
       Event.IDSetNumberCooler] := by
  refine ⟨by decide, rfl, ?_, rfl, rfl, ?_, ?_⟩ <;> decide!

/-- The state of `devStale` arises in a run of the driver: after a connection,
a poll that reads 19.8 degrees, a poll whose read fails, a disconnection and a
second connection, 25 is published, the state is alert and
`mCurrentTemperature` holds 19.8; the next poll, whose read fails, publishes
19.8 with the state unchanged. -/
theorem devReconnected_publishes_stale :
    devReconnected.TemperatureValue = 25 ∧
    devReconnected.props.mCurrentTemperature = 198 / 10 ∧
    devReconnected.props.TemperatureNPs = IPState.IPS_ALERT ∧
    devReconnected.sdkCalls = 38 ∧
    envTwoFailedPolls.status devReconnected.sdkCalls ≠ SVB_SUCCESS ∧
    (temperatureTimerTimeout envTwoFailedPolls devReconnected).TemperatureValue = 198 / 10 ∧
    (temperatureTimerTimeout envTwoFailedPolls devReconnected).props.TemperatureNPs =
      IPState.IPS_ALERT ∧
    (temperatureTimerTimeout envTwoFailedPolls devReconnected).log = devReconnected.log ++
      [Event.sdk (SdkCall.SVBGetControlValue SVB_CONTROL_TYPE.SVB_CURRENT_TEMPERATURE),
       Event.IDSetNumberTemperature,
       Event.sdk (SdkCall.SVBGetControlValue SVB_CONTROL_TYPE.SVB_COOLER_POWER),
       Event.IDSetNumberCooler] := by
  refine ⟨?_, ?_, ?_, ?_, ?_, ?_, ?_, ?_⟩ <;> decide!

/-! ### Binning, names, frame bounds -/

/-- `UpdateCCDFrame` leaves the bin factors alone. -/
theorem UpdateCCDFrame_bin (env : SdkEnv) (s : SVBDevice) (x y w h : Int) :
    (UpdateCCDFrame env s x y w h).2.PrimaryCCD.BinX = s.PrimaryCCD.BinX ∧
    (UpdateCCDFrame env s x y w h).2.PrimaryCCD.BinY = s.PrimaryCCD.BinY := by
  by_cases hr : frameRejected s x y w h = true
  · simp [UpdateCCDFrame, hr]
  · by_cases h0 : env.status s.sdkCalls = SVB_SUCCESS
    · by_cases h1 : env.status (s.sdkCalls + 1) = SVB_SUCCESS
      · by_cases h2 : env.status (s.sdkCalls + 1 + 1) = SVB_SUCCESS
        · simp [UpdateCCDFrame, hr, sdkCall, h0, h1, h2, baseUpdateCCDFrame]
        · simp [UpdateCCDFrame, hr, sdkCall, h0, h1, h2]
      · simp [UpdateCCDFrame, hr, sdkCall, h0, h1]
    · simp [UpdateCCDFrame, hr, sdkCall, h0]

/-- The guard of `UpdateCCDFrame` reads the sensor size only. -/
theorem frameRejected_congr (s t : SVBDevice) (x y w h : Int)
    (hw : t.MaxWidth = s.MaxWidth) (hh : t.MaxHeight = s.MaxHeight) :
    frameRejected t x y w h = frameRejected s x y w h := by
  simp [frameRejected, hw, hh]

/-- Claim C26: `UpdateCCDBin(hor, ver)` sets both bin factors to `hor`, does
not depend on `ver`, and returns exactly the result of `UpdateCCDFrame` on the
current sub-frame in the state with the new bin factors; the factors are
`hor` afterwards whatever that result is, and the outcome is the one
`UpdateCCDFrame` has on the current sub-frame without the change of the
factors. -/
theorem UpdateCCDBin_delegates (env : SdkEnv) (s : SVBDevice) (hor ver ver2 : Int) :
    UpdateCCDBin env s hor ver =
      UpdateCCDFrame env
        { s with PrimaryCCD := { s.PrimaryCCD with BinX := hor, BinY := hor } }
        s.PrimaryCCD.SubX s.PrimaryCCD.SubY s.PrimaryCCD.SubW s.PrimaryCCD.SubH ∧
    UpdateCCDBin env s hor ver2 = UpdateCCDBin env s hor ver ∧
    (UpdateCCDBin env s hor ver).2.PrimaryCCD.BinX = hor ∧
    (UpdateCCDBin env s hor ver).2.PrimaryCCD.BinY = hor ∧
    (UpdateCCDBin env s hor ver).1 =
      (UpdateCCDFrame env s s.PrimaryCCD.SubX s.PrimaryCCD.SubY s.PrimaryCCD.SubW
        s.PrimaryCCD.SubH).1 ∧
    (UpdateCCDBin env s hor ver).2.log =
      (UpdateCCDFrame env s s.PrimaryCCD.SubX s.PrimaryCCD.SubY s.PrimaryCCD.SubW
        s.PrimaryCCD.SubH).2.log := by
  obtain ⟨b1, b2⟩ := UpdateCCDFrame_bin env
    { s with PrimaryCCD := { s.PrimaryCCD with BinX := hor, BinY := hor } }
    s.PrimaryCCD.SubX s.PrimaryCCD.SubY s.PrimaryCCD.SubW s.PrimaryCCD.SubH
  refine ⟨rfl, rfl, b1, b2, ?_, ?_⟩
  all_goals
    have hg := frameRejected_congr s
      { s with PrimaryCCD := { s.PrimaryCCD with BinX := hor, BinY := hor } }
      s.PrimaryCCD.SubX s.PrimaryCCD.SubY s.PrimaryCCD.SubW s.PrimaryCCD.SubH rfl rfl
    by_cases hr : frameRejected s s.PrimaryCCD.SubX s.PrimaryCCD.SubY s.PrimaryCCD.SubW
      s.PrimaryCCD.SubH = true
    · simp [UpdateCCDBin, UpdateCCDFrame, hr, hg]
    · by_cases h0 : env.status s.sdkCalls = SVB_SUCCESS
      · by_cases h1 : env.status (s.sdkCalls + 1) = SVB_SUCCESS
        · by_cases h2 : env.status (s.sdkCalls + 1 + 1) = SVB_SUCCESS
          · simp [UpdateCCDBin, UpdateCCDFrame, hr, hg, sdkCall, h0, h1, h2, baseUpdateCCDFrame]
          · simp [UpdateCCDBin, UpdateCCDFrame, hr, hg, sdkCall, h0, h1, h2]
        · simp [UpdateCCDBin, UpdateCCDFrame, hr, hg, sdkCall, h0, h1]
      · simp [UpdateCCDBin, UpdateCCDFrame, hr, hg, sdkCall, h0]

/-- Claim C27: `UniqueName::make` always returns (its loop ends for every
finite set of used names); it returns the base name "SVBONY " + FriendlyName
when that name is not in use, and otherwise the base name, a blank and the
decimal `k` for the smallest `k >= 1` whose name is not in use; the returned
name is in use afterwards. -/
theorem make_smallest_unused (used : List String) (friendly : String) :
    ("SVBONY " ++ friendly ∉ used →
      UniqueName.make used friendly =
        some ("SVBONY " ++ friendly, ("SVBONY " ++ friendly) :: used)) ∧
    ("SVBONY " ++ friendly ∈ used →
      ∃ k, 1 ≤ k ∧
        UniqueName.make used friendly =
          some ("SVBONY " ++ friendly ++ " " ++ toString k,
            ("SVBONY " ++ friendly ++ " " ++ toString k) :: used) ∧
        "SVBONY " ++ friendly ++ " " ++ toString k ∉ used ∧
        ∀ j, 1 ≤ j → j < k → "SVBONY " ++ friendly ++ " " ++ toString j ∈ used) ∧
    (∀ name used2, UniqueName.make used friendly = some (name, used2) →
      name ∈ used2 ∧ ∀ n, n ∈ used → n ∈ used2) := by
  obtain ⟨k0, hk0, hk0u⟩ := exists_unused_candidate used ("SVBONY " ++ friendly)
  obtain ⟨k, -, hrun, hfree, hmin⟩ := makeLoop_finds used ("SVBONY " ++ friendly)
    (used.length + 1) 0 ⟨k0, Nat.zero_le k0, by omega, hk0u⟩
  have hbase : candidateName ("SVBONY " ++ friendly) 0 = "SVBONY " ++ friendly := by
    simp [candidateName]
  rw [hbase] at hrun
  have hmake : UniqueName.make used friendly =
      some (candidateName ("SVBONY " ++ friendly) k,
        candidateName ("SVBONY " ++ friendly) k :: used) := by
    unfold UniqueName.make
    simp only []
    rw [hrun]
  refine ⟨?_, ?_, ?_⟩
  · intro hun
    have hk : k = 0 := by
      by_contra hne
      have := hmin 0 (Nat.zero_le 0) (Nat.pos_of_ne_zero hne)
      rw [hbase] at this
      exact hun this
    rw [hmake, hk, hbase]
  · intro hin
    have hk : k ≠ 0 := by
      intro h0
      rw [h0, hbase] at hfree
      exact hfree hin
    have hname : ∀ j, j ≠ 0 → candidateName ("SVBONY " ++ friendly) j =
        "SVBONY " ++ friendly ++ " " ++ toString j := by
      intro j hj
      simp [candidateName, hj]
    refine ⟨k, Nat.pos_of_ne_zero hk, ?_, ?_, ?_⟩
    · rw [hmake, hname k hk]
    · rw [← hname k hk]; exact hfree
    · intro j hj1 hj2
      rw [← hname j (by omega)]
      exact hmin j (Nat.zero_le j) hj2
  · intro name used2 h
    rw [hmake] at h
    simp only [Option.some.injEq, Prod.mk.injEq] at h
    obtain ⟨h1, h2⟩ := h
    subst h1 h2
    exact ⟨List.mem_cons_self _ _, fun n hn => List.mem_cons_of_mem _ hn⟩

/-- The second case of C27: the base name and the name with suffix 1 are in
use, so `make` returns the name with suffix 2. -/
theorem make_smallest_unused_witness :
    "SVBONY " ++ "SV305" ∈ ["SVBONY SV305", "SVBONY SV305 1"] ∧
    UniqueName.make ["SVBONY SV305", "SVBONY SV305 1"] "SV305" =
      some ("SVBONY SV305 2", ["SVBONY SV305 2", "SVBONY SV305", "SVBONY SV305 1"]) ∧
    ∃ k, 1 ≤ k ∧
      UniqueName.make ["SVBONY SV305", "SVBONY SV305 1"] "SV305" =
        some ("SVBONY " ++ "SV305" ++ " " ++ toString k,
          ("SVBONY " ++ "SV305" ++ " " ++ toString k) :: ["SVBONY SV305", "SVBONY SV305 1"]) ∧
      "SVBONY " ++ "SV305" ++ " " ++ toString k ∉ ["SVBONY SV305", "SVBONY SV305 1"] ∧
      ∀ j, 1 ≤ j → j < k →
        "SVBONY " ++ "SV305" ++ " " ++ toString j ∈ ["SVBONY SV305", "SVBONY SV305 1"] :=
  ⟨by decide!, by decide!,
    (make_smallest_unused ["SVBONY SV305", "SVBONY SV305 1"] "SV305").2.1 (by decide!)⟩

/-- Claim C30: the validation of `UpdateCCDFrame` has no lower bound.  On a
sensor of non-negative size, when the three SDK calls succeed, the frames
(0, 0, 0, 0), (0, 0, -8, 2m) for every `m` with `2m` within the height, and
(-8, -2, 8, 2) pass it, are forwarded as they are to `SVBSetROIFormat`, and
their offsets are committed. -/
theorem UpdateCCDFrame_no_lower_bounds (env : SdkEnv) (s : SVBDevice) (m : Int)
    (hW : 0 ≤ s.MaxWidth) (hH : 0 ≤ s.MaxHeight) (hm : 2 * m ≤ s.MaxHeight)
    (h0 : env.status s.sdkCalls = SVB_SUCCESS)
    (h1 : env.status (s.sdkCalls + 1) = SVB_SUCCESS)
    (h2 : env.status (s.sdkCalls + 2) = SVB_SUCCESS) :
    ((UpdateCCDFrame env s 0 0 0 0).1 = true ∧
      (UpdateCCDFrame env s 0 0 0 0).2.log = s.log ++
        [Event.sdk SdkCall.SVBStopVideoCapture, Event.sdk (SdkCall.SVBSetROIFormat 0 0 0 0 1),
         Event.sdk SdkCall.SVBStartVideoCapture] ∧
      (UpdateCCDFrame env s 0 0 0 0).2.x_offset = 0 ∧
      (UpdateCCDFrame env s 0 0 0 0).2.y_offset = 0 ∧
      (UpdateCCDFrame env s 0 0 0 0).2.PrimaryCCD.SubW = 0 ∧
      (UpdateCCDFrame env s 0 0 0 0).2.PrimaryCCD.SubH = 0) ∧
    ((UpdateCCDFrame env s 0 0 (-8) (2 * m)).1 = true ∧
      (UpdateCCDFrame env s 0 0 (-8) (2 * m)).2.log = s.log ++
        [Event.sdk SdkCall.SVBStopVideoCapture,
         Event.sdk (SdkCall.SVBSetROIFormat 0 0 (-8) (2 * m) 1),
         Event.sdk SdkCall.SVBStartVideoCapture] ∧
      (UpdateCCDFrame env s 0 0 (-8) (2 * m)).2.x_offset = 0 ∧
      (UpdateCCDFrame env s 0 0 (-8) (2 * m)).2.y_offset = 0 ∧
      (UpdateCCDFrame env s 0 0 (-8) (2 * m)).2.PrimaryCCD.SubW = -8 ∧
      (UpdateCCDFrame env s 0 0 (-8) (2 * m)).2.PrimaryCCD.SubH = 2 * m) ∧
    ((UpdateCCDFrame env s (-8) (-2) 8 2).1 = true ∧
      (UpdateCCDFrame env s (-8) (-2) 8 2).2.log = s.log ++
        [Event.sdk SdkCall.SVBStopVideoCapture,
         Event.sdk (SdkCall.SVBSetROIFormat (-8) (-2) 8 2 1),
         Event.sdk SdkCall.SVBStartVideoCapture] ∧
      (UpdateCCDFrame env s (-8) (-2) 8 2).2.x_offset = -8 ∧
      (UpdateCCDFrame env s (-8) (-2) 8 2).2.y_offset = -2) := by
  have key : ∀ x y w h : Int, x + w ≤ s.MaxWidth → y + h ≤ s.MaxHeight →
      Int.tmod w 8 = 0 → Int.tmod h 2 = 0 →
      (UpdateCCDFrame env s x y w h).1 = true ∧
      (UpdateCCDFrame env s x y w h).2.log = s.log ++
        [Event.sdk SdkCall.SVBStopVideoCapture, Event.sdk (SdkCall.SVBSetROIFormat x y w h 1),
         Event.sdk SdkCall.SVBStartVideoCapture] ∧
      (UpdateCCDFrame env s x y w h).2.x_offset = x ∧
      (UpdateCCDFrame env s x y w h).2.y_offset = y ∧
      (UpdateCCDFrame env s x y w h).2.PrimaryCCD.SubW = w ∧
      (UpdateCCDFrame env s x y w h).2.PrimaryCCD.SubH = h := by
    intro x y w h a b c d
    have hr : frameRejected s x y w h = false :=
      (frameRejected_eq_false_iff_tmod s x y w h).mpr ⟨a, b, c, d⟩
    simp [UpdateCCDFrame, hr, sdkCall, h0, h1, h2, baseUpdateCCDFrame]
  have e2 : Int.tmod (2 * m) 2 = 0 := Int.mul_tmod_right 2 m
  refine ⟨key 0 0 0 0 (by simpa using hW) (by simpa using hH) (by decide) (by decide),
    key 0 0 (-8) (2 * m) (by omega) (by omega) (by decide) e2, ?_⟩
  obtain ⟨a, b, c, d, -, -⟩ := key (-8) (-2) 8 2 (by omega) (by omega) (by decide) (by decide)
  exact ⟨a, b, c, d⟩

/-- The frames of C30 on a 1920 x 1080 sensor with an SDK that answers every
call with success (`m` = -1: a height of -2). -/
theorem UpdateCCDFrame_no_lower_bounds_witness :
    (UpdateCCDFrame envAllSuccess dev1080 0 0 0 0).1 = true ∧
    (UpdateCCDFrame envAllSuccess dev1080 0 0 (-8) (2 * (-1))).1 = true ∧
    (UpdateCCDFrame envAllSuccess dev1080 0 0 (-8) (2 * (-1))).2.PrimaryCCD.SubW = -8 ∧
    (UpdateCCDFrame envAllSuccess dev1080 (-8) (-2) 8 2).2.x_offset = -8 :=
  ⟨(UpdateCCDFrame_no_lower_bounds envAllSuccess dev1080 (-1) (by decide) (by decide) (by decide)
      rfl rfl rfl).1.1,
   (UpdateCCDFrame_no_lower_bounds envAllSuccess dev1080 (-1) (by decide) (by decide) (by decide)
      rfl rfl rfl).2.1.1,
   (UpdateCCDFrame_no_lower_bounds envAllSuccess dev1080 (-1) (by decide) (by decide) (by decide)
      rfl rfl rfl).2.1.2.2.2.2.1,
   (UpdateCCDFrame_no_lower_bounds envAllSuccess dev1080 (-1) (by decide) (by decide) (by decide)
      rfl rfl rfl).2.2.2.2.1⟩

/-! ### Failed start of an exposure and the progress timer -/

/-- One iteration of the progress timer leaves `inExposure` alone. -/
theorem timerBody_inExposure (env : SdkEnv) (d : ℚ) (k : Nat) (s : SVBDevice) :
    (timerBody env d k s).inExposure = s.inExposure := by
  unfold timerBody
  simp only []
  split_ifs <;> rfl

/-- While `inExposure` is true the loop of the progress timer ends only
through its cancellation flag: without cancellation it is still running after
any number of iterations. -/
theorem timerLoop_runs_while_inExposure (env : SdkEnv) (d : ℚ) (fuel : Nat) :
    ∀ (k : Nat) (s : SVBDevice), s.inExposure = true →
      (∀ j, k ≤ j → j < k + fuel → env.timerAboutToQuit j = false) →
      timerLoop env d fuel k s = none := by
  induction fuel with
  | zero => intro k s _ _; rfl
  | succ n ih =>
    intro k s hin hq
    have hk : env.timerAboutToQuit k = false := hq k (le_refl k) (by omega)
    have hb : (timerBody env d k s).inExposure = true := by
      rw [timerBody_inExposure]; exact hin
    unfold timerLoop
    simp only [hk, hb, if_true, Bool.false_eq_true, if_false]
    exact ih (k + 1) _ hb (fun j h1 h2 => hq j (by omega) (by omega))

/-- When the loop of the progress timer returns from a state with `inExposure`
true, its cancellation flag was set in one of the iterations it made. -/
theorem timerLoop_ends_by_cancellation (env : SdkEnv) (d : ℚ) (fuel k : Nat) (s s2 : SVBDevice)
    (hin : s.inExposure = true) (h : timerLoop env d fuel k s = some s2) :
    ∃ j, k ≤ j ∧ j < k + fuel ∧ env.timerAboutToQuit j = true := by
  by_contra hcon
  have hq : ∀ j, k ≤ j → j < k + fuel → env.timerAboutToQuit j = false := by
    intro j h1 h2
    cases hj : env.timerAboutToQuit j with
    | false => rfl
    | true => exact absurd ⟨j, h1, h2, hj⟩ hcon
  rw [timerLoop_runs_while_inExposure env d fuel k s hin hq] at h
  cases h

/-- Claim C29: when the real exposure of `workerExposure` starts in a state
with `inExposure` true (as `StartExposure` leaves it) and the set of the
exposure control fails, or the soft trigger fails after that set succeeded,
the worker marks the exposure failed and returns with no frame fetch after
that start and `inExposure` still true.  In the state it leaves, the loop of
the progress-timer worker does not end without cancellation, whatever the
number of iterations, and if it ends its cancellation flag was set; after
`AbortExposure`, `inExposure` is false, the timer slot is empty and the loop
ends with the iteration it is in. -/
theorem workerExposure_failure_keeps_inExposure (env : SdkEnv) (t : SVBDevice) (c : ℚ)
    (fuel : Nat)
    (hin : t.inExposure = true)
    (hfail : env.status t.sdkCalls ≠ SVB_SUCCESS ∨
      (env.status t.sdkCalls = SVB_SUCCESS ∧ env.status (t.sdkCalls + 1) ≠ SVB_SUCCESS)) :
    ∃ s2, exposeAndFetch env fuel t c = some s2 ∧
      (¬ (t.exposureWorkaroundEnable = true ∧ 0 < t.exposureWorkaroundDuration) →
        workerExposure env fuel t c = some s2) ∧
      (∀ t0 : SVBDevice, t0.exposureWorkaroundEnable = true →
        0 < t0.exposureWorkaroundDuration →
        workaroundExposure env fuel t0 (1 / 2) = some t →
        workerExposure env fuel t0 c = some s2) ∧
      s2.log = t.log ++
        ([Event.setExposureDuration c,
          Event.sdk (SdkCall.SVBSetControlValue SVB_CONTROL_TYPE.SVB_EXPOSURE
            (truncToLong (c * 1000 * 1000)) false)] ++
         (if env.status t.sdkCalls = SVB_SUCCESS then [Event.sdk SdkCall.SVBSendSoftTrigger]
          else []) ++
         [Event.setExposureFailed]) ∧
      s2.inExposure = true ∧
      s2.mExposureTimerWorker = t.mExposureTimerWorker ∧
      (∀ (n k : Nat) (d : ℚ), (∀ j, k ≤ j → j < k + n → env.timerAboutToQuit j = false) →
        timerLoop env d n k s2 = none) ∧
      (∀ (n k : Nat) (d : ℚ) (s3 : SVBDevice), timerLoop env d n k s2 = some s3 →
        ∃ j, k ≤ j ∧ j < k + n ∧ env.timerAboutToQuit j = true) ∧
      (AbortExposure env s2).2.inExposure = false ∧
      (AbortExposure env s2).2.mExposureTimerWorker = none ∧
      (∀ (n k : Nat) (d : ℚ), timerLoop env d (n + 1) k (AbortExposure env s2).2 =
        some (timerBody env d k (AbortExposure env s2).2)) := by
  have hrun : ∃ s2, exposeAndFetch env fuel t c = some s2 ∧
      s2.log = t.log ++
        ([Event.setExposureDuration c,
          Event.sdk (SdkCall.SVBSetControlValue SVB_CONTROL_TYPE.SVB_EXPOSURE
            (truncToLong (c * 1000 * 1000)) false)] ++
         (if env.status t.sdkCalls = SVB_SUCCESS then [Event.sdk SdkCall.SVBSendSoftTrigger]
          else []) ++
         [Event.setExposureFailed]) ∧
      s2.inExposure = true ∧
      s2.mExposureTimerWorker = t.mExposureTimerWorker := by
    rcases hfail with h0 | ⟨h0, h1⟩
    · refine ⟨_, by
        unfold exposeAndFetch
        simp only []
        rw [if_pos (by simp [sdkCall, emit, h0])], ?_, ?_, ?_⟩
      · simp [sdkCall, emit, h0]
      · simp [sdkCall, emit, hin]
      · simp [sdkCall, emit]
    · refine ⟨_, by
        unfold exposeAndFetch
        simp only []
        rw [if_neg (by simp [sdkCall, emit, h0]),
          if_pos (by simp [sdkCall, emit, h1])], ?_, ?_, ?_⟩
      · simp [sdkCall, emit, h0]
      · simp [sdkCall, emit, hin]
      · simp [sdkCall, emit]
  obtain ⟨s2, r1, r2, r3, r4⟩ := hrun
  have ha : (AbortExposure env s2).2.inExposure = false := by
    simp [AbortExposure, resetCaptureModeAndRoi, sdkCall, emit]
  refine ⟨s2, r1, ?_, ?_, r2, r3, r4, ?_, ?_, ha, ?_, ?_⟩
  · intro hno
    have hno2 : ¬ (t.exposureWorkaroundEnable = true ∧ t.exposureWorkaroundDuration > 0) := hno
    unfold workerExposure
    rw [if_neg hno2, r1]
  · intro t0 hen hdur hw
    unfold workerExposure
    rw [if_pos ⟨hen, hdur⟩, hw]
    exact r1
  · intro n k d hq
    exact timerLoop_runs_while_inExposure env d n k s2 r3 hq
  · intro n k d s3 h
    exact timerLoop_ends_by_cancellation env d n k s2 s3 r3 h
  · simp [AbortExposure, resetCaptureModeAndRoi, sdkCall, emit]
  · intro n k d
    have hb : (timerBody env d k (AbortExposure env s2).2).inExposure = false := by
      rw [timerBody_inExposure]; exact ha
    unfold timerLoop
    simp only [hb]
    split <;> simp

/-- The case of C29 in which the set of the exposure control fails, on an SDK
that fails every call, for the worker `StartExposure` started. -/
theorem workerExposure_failure_keeps_inExposure_witness :
    (StartExposure dev1080 1).2.inExposure = true ∧
    envAllFail.status (StartExposure dev1080 1).2.sdkCalls ≠ SVB_SUCCESS ∧
    ∃ s2, workerExposure envAllFail 1 (StartExposure dev1080 1).2 1 = some s2 ∧
      s2.inExposure = true ∧
      timerLoop envAllFail 1 5 0 s2 = none ∧
      (AbortExposure envAllFail s2).2.inExposure = false := by
  obtain ⟨s2, -, h1, -, -, h3, -, h5, -, h7, -, -⟩ :=
    workerExposure_failure_keeps_inExposure envAllFail (StartExposure dev1080 1).2 1 1
      (by decide!) (Or.inl (by decide!))
  exact ⟨by decide!, by decide!, s2, h1 (by decide!), h3, h5 5 0 1 (fun _ _ _ => rfl), h7⟩

end IndiSvb
